import Mathlib

/-!
# ESSL translator of angle-multiview: version legalization, header assembly, name rewrites

A shallow embedding of `src/compiler/translator/TranslatorESSL.cpp` and
`src/compiler/translator/OutputESSL.cpp`.

* The info sink is a `String`; `sink << x` is `sink ++ x`.
* `int` values (shader version, view count, work-group sizes, resource flags) are `Int`.
* `sh::GLenum` shader types are `Nat` with the OpenGL enumerant values.
* `TExtensionBehavior` (a `std::map`) is the list of its entries in iteration order.
* Collaborators whose code lives in other translation units (pragma writer, precision
  emulation, built-in emulator, array-bounds clamper, geometry layout writer, the generic
  tree traversal) are fields of the compiler object: the text they append to the sink.
* The base class `TOutputGLSLBase` of the code generator is a parameter of `visitSymbol`: the
  text its own `visitSymbol` appends, and the state it keeps.
-/

set_option autoImplicit false
set_option maxRecDepth 20000

namespace sh

/-! ## Data model -/

/-- Modelled from the spec: `ShCompileOptions` and its `SH_*` masks are declared in
`ShaderLang.h`, which is not among the sources. The option word is a bit-set of independent
named toggles, one bit each; the bits read by the translator are the named fields, every other
bit of the 64-bit word is kept in `others`. `opts & SH_X` is the field `SH_X`,
`opts |= SH_X` sets it and `opts &= ~SH_X` clears it. -/
structure ShCompileOptions where
  SH_ENFORCE_OUTPUT_TO_ESSL3 : Bool
  SH_INITIALIZE_BUILTINS_FOR_INSTANCED_MULTIVIEW : Bool
  SH_SELECT_VIEW_IN_NV_GLSL_VERTEX_SHADER : Bool
  SH_EMULATE_ATAN2_FLOAT_FUNCTION : Bool
  others : Nat
  deriving DecidableEq, Repr

/-- Modelled from the spec: the `TExtension` enumeration is declared in `ExtensionBehavior.h`,
which is not among the sources. The four enumerators the translator names are constructors;
`other n` stands for every remaining enumerator. -/
inductive TExtension where
  | EXT_shader_framebuffer_fetch
  | EXT_draw_buffers
  | OVR_multiview
  | EXT_geometry_shader
  | other (n : Nat)
  deriving DecidableEq, Repr

/-- Modelled from the spec: the `TBehavior` enumeration is declared in `ExtensionBehavior.h`,
which is not among the sources: the four requested behaviours and the undefined state. -/
inductive TBehavior where
  | EBhRequire
  | EBhEnable
  | EBhWarn
  | EBhDisable
  | EBhUndefined
  deriving DecidableEq, Repr

/-- Modelled from the spec: `GetBehaviorString` is defined in `ExtensionBehavior.h`, which is
not among the sources; it spells the requested behaviour verbatim. It has no string for the
undefined state, for which the translator never calls it. -/
def GetBehaviorString : TBehavior → String
  | .EBhRequire => "require"
  | .EBhEnable => "enable"
  | .EBhWarn => "warn"
  | .EBhDisable => "disable"
  | .EBhUndefined => ""

/-- Modelled from the spec: the `TPrecision` enumeration is declared in `BaseTypes.h`, which is
not among the sources. -/
inductive TPrecision where
  | EbpUndefined
  | EbpLow
  | EbpMedium
  | EbpHigh
  deriving DecidableEq, Repr

/-- Modelled from the spec: `getPrecisionString` is defined in `BaseTypes.h`, which is not
among the sources; it returns the qualifier keyword of a precision (medium precision is the
fallback). -/
def getPrecisionString : TPrecision → String
  | .EbpHigh => "highp"
  | .EbpMedium => "mediump"
  | .EbpLow => "lowp"
  | .EbpUndefined => "mediump"

/-- OpenGL enumerant `GL_FRAGMENT_SHADER`. -/
def GL_FRAGMENT_SHADER : Nat := 0x8B30
/-- OpenGL enumerant `GL_VERTEX_SHADER`. -/
def GL_VERTEX_SHADER : Nat := 0x8B31
/-- OpenGL enumerant `GL_GEOMETRY_SHADER_EXT`. -/
def GL_GEOMETRY_SHADER_EXT : Nat := 0x8DD9
/-- OpenGL enumerant `GL_COMPUTE_SHADER`. -/
def GL_COMPUTE_SHADER : Nat := 0x91B9

/-- The fields of `ShBuiltInResources` the translator reads (C `int` flags, true when
non-zero). -/
structure ShBuiltInResources where
  NV_shader_framebuffer_fetch : Int
  NV_draw_buffers : Int
  WEBGL_debug_shader_precision : Int
  deriving DecidableEq, Repr

/-- The field of `TPragma` the translator reads. -/
structure TPragma where
  debugShaderPrecision : Bool
  deriving DecidableEq, Repr

/-- The state a `TOutputESSL` code generator is constructed with (`OutputESSL.cpp` 15-35):
what `getShaderType()`, the shader version, `mForceHighp` and `getCompileOptions()` hold. The
sink, clamping strategy, hash function, name map and symbol table it also receives belong to
the compiler object. -/
structure TOutputESSL where
  shaderType : Nat
  shaderVersion : Int
  mForceHighp : Bool
  compileOptions : ShCompileOptions
  deriving DecidableEq, Repr

/-- The compiler object as `TranslatorESSL::translate` and `writeExtensionBehavior` read it.
The `get*` fields, `isComputeShaderLocalSizeDeclared` and `outputVariables` (the names of the
output variables) are the values of the getters and member of the same name;
`getDefaultPrecisionFloat` is `getSymbolTable().getDefaultPrecision(EbtFloat)` and
`builtInFunctionEmulatorIsOutputEmpty` is `getBuiltInFunctionEmulator().isOutputEmpty()`.
`GetExtensionNameString` is the function of that name of `ExtensionBehavior.cpp`. The last six
fields are the texts appended to the sink by collaborators defined in other translation
units: `writePragma(compileOptions)`, `writeEmulationHelpers(sink, shaderVer, SH_ESSL_OUTPUT)`,
`outputEmulatedFunctions(sink)`, `OutputClampingFunctionDefinition(sink)`,
`WriteGeometryShaderLayoutQualifiers(sink, ...)` and `root->traverse(&outputESSL)`. -/
structure TranslatorESSL where
  getShaderVersion : Int
  getShaderType : Nat
  getExtensionBehavior : List (TExtension × TBehavior)
  getResources : ShBuiltInResources
  getPragma : TPragma
  getNumViews : Int
  isComputeShaderLocalSizeDeclared : Bool
  getComputeShaderLocalSize : Int × Int × Int
  outputVariables : List String
  getDefaultPrecisionFloat : TPrecision
  builtInFunctionEmulatorIsOutputEmpty : Bool
  GetExtensionNameString : TExtension → String
  writePragma : ShCompileOptions → String
  writeEmulationHelpers : Int → String
  outputEmulatedFunctions : String
  OutputClampingFunctionDefinition : String
  WriteGeometryShaderLayoutQualifiers : String
  traverse : TOutputESSL → String

/-- Modelled from the spec: the `ASSERT` macro is defined in `common/debug.h`, which is not
among the sources. A failed assertion is an invariant violation: fatal, the translation
aborts immediately. The payload is the asserted expression. -/
inductive InvariantViolation where
  | assertFailed (expression : String)
  deriving DecidableEq, Repr

/-- Modelled from the spec: the `ASSERT` macro (see `InvariantViolation`). -/
def ASSERT (condition : Bool) (expression : String) : Except InvariantViolation Unit :=
  if condition then .ok () else .error (.assertFailed expression)

/-- What a completed `translate` leaves behind: the sink, the final values of the locals
`shaderVer` and `compileOptions`, and the code generator that traversed the tree. -/
structure TranslateResult where
  sink : String
  shaderVer : Int
  compileOptions : ShCompileOptions
  outputESSL : TOutputESSL
  deriving DecidableEq, Repr

namespace TranslatorESSL

/-! ## `TranslatorESSL.cpp` -/

/-- The loop of `TranslatorESSL::isMultiviewExtensionNeeded` (lines 254-265). -/
def isMultiviewExtensionNeededLoop : List (TExtension × TBehavior) → Bool
  | [] => false
  | iter :: rest =>
    if iter.2 ≠ TBehavior.EBhUndefined then
      let isMultiview := (iter.1 == TExtension.OVR_multiview)
      if isMultiview then true else isMultiviewExtensionNeededLoop rest
    else isMultiviewExtensionNeededLoop rest

/-- `TranslatorESSL::isMultiviewExtensionNeeded` (lines 252-266). -/
def isMultiviewExtensionNeeded (c : TranslatorESSL) : Bool :=
  isMultiviewExtensionNeededLoop c.getExtensionBehavior

/-- Lines 38-46 of `TranslatorESSL::translate`: the values of the locals `shaderVer` and
`compileOptions` after the version decision. -/
def chooseVersion (c : TranslatorESSL) (compileOptions : ShCompileOptions) :
    Int × ShCompileOptions :=
  let shaderVer := c.getShaderVersion
  if shaderVer ≥ 300 then
    (shaderVer, { compileOptions with SH_ENFORCE_OUTPUT_TO_ESSL3 := false })
  else if shaderVer < 300 ∧
      (compileOptions.SH_ENFORCE_OUTPUT_TO_ESSL3 = true ∨ isMultiviewExtensionNeeded c = true) then
    (300, { compileOptions with SH_ENFORCE_OUTPUT_TO_ESSL3 := true })
  else
    (shaderVer, compileOptions)

/-- Lines 47-50 of `TranslatorESSL::translate`. -/
def writeVersion (shaderVer : Int) (sink : String) : String :=
  if shaderVer > 100 then
    sink ++ "#version " ++ toString shaderVer ++ " es\n"
  else sink

/-- The body of the loop of `TranslatorESSL::writeExtensionBehavior` (lines 182-248) for one
entry `iter` of the extension table. -/
def writeExtensionBehaviorEntry (c : TranslatorESSL) (compileOptions : ShCompileOptions)
    (isMultiviewExtEmulated : Bool) (iter : TExtension × TBehavior) (sink : String) : String :=
  if iter.2 ≠ TBehavior.EBhUndefined then
    let isMultiview := (iter.1 == TExtension.OVR_multiview)
    if c.getResources.NV_shader_framebuffer_fetch ≠ 0 ∧
        iter.1 = TExtension.EXT_shader_framebuffer_fetch then
      sink ++ "#extension GL_NV_shader_framebuffer_fetch : " ++ GetBehaviorString iter.2 ++ "\n"
    else if c.getResources.NV_draw_buffers ≠ 0 ∧ iter.1 = TExtension.EXT_draw_buffers then
      sink ++ "#extension GL_NV_draw_buffers : " ++ GetBehaviorString iter.2 ++ "\n"
    else if isMultiview then
      if isMultiviewExtEmulated = true ∧ c.getShaderType = GL_VERTEX_SHADER ∧
          compileOptions.SH_SELECT_VIEW_IN_NV_GLSL_VERTEX_SHADER = true then
        sink ++ "#extension GL_NV_viewport_array2 : require\n"
      else if c.getShaderType = GL_VERTEX_SHADER then
        let sink := sink ++ "#extension GL_OVR_multiview2 : " ++ GetBehaviorString iter.2 ++ "\n"
        let numViews := c.getNumViews
        let numViews := if compileOptions.SH_ENFORCE_OUTPUT_TO_ESSL3 then 2 else numViews
        if numViews ≥ 2 then
          sink ++ "layout(num_views=" ++ toString numViews ++ ") in;" ++ "\n"
        else sink
      else sink
    else if iter.1 = TExtension.EXT_geometry_shader then
      let sink := sink ++ "#ifdef GL_EXT_geometry_shader\n"
        ++ "#extension GL_EXT_geometry_shader : " ++ GetBehaviorString iter.2
        ++ "\n"
        ++ "#elif defined GL_OES_geometry_shader\n"
        ++ "#extension GL_OES_geometry_shader : " ++ GetBehaviorString iter.2
        ++ "\n"
      let sink := if iter.2 = TBehavior.EBhRequire then
          sink ++ "#else\n"
            ++ "#error \"No geometry shader extensions available.\" // Only generate this if the extension is \"required\"\n"
        else sink
      sink ++ "#endif\n"
    else
      sink ++ "#extension " ++ c.GetExtensionNameString iter.1 ++ " : "
        ++ GetBehaviorString iter.2 ++ "\n"
  else sink

/-- The loop of `TranslatorESSL::writeExtensionBehavior` (lines 179-249) over the entries of
the extension table in iteration order. -/
def writeExtensionBehaviorLoop (c : TranslatorESSL) (compileOptions : ShCompileOptions)
    (isMultiviewExtEmulated : Bool) : List (TExtension × TBehavior) → String → String
  | [], sink => sink
  | iter :: rest, sink =>
    writeExtensionBehaviorLoop c compileOptions isMultiviewExtEmulated rest
      (writeExtensionBehaviorEntry c compileOptions isMultiviewExtEmulated iter sink)

/-- `TranslatorESSL::writeExtensionBehavior` (lines 172-250). -/
def writeExtensionBehavior (c : TranslatorESSL) (compileOptions : ShCompileOptions)
    (sink : String) : String :=
  let extBehavior := c.getExtensionBehavior
  let isMultiviewExtEmulated :=
    (compileOptions.SH_INITIALIZE_BUILTINS_FOR_INSTANCED_MULTIVIEW ||
      compileOptions.SH_SELECT_VIEW_IN_NV_GLSL_VERTEX_SHADER)
  writeExtensionBehaviorLoop c compileOptions isMultiviewExtEmulated extBehavior sink

/-- Lines 59-68 of `TranslatorESSL::translate`: the value of `precisionEmulation`. -/
def precisionEmulation (c : TranslatorESSL) : Bool :=
  (c.getResources.WEBGL_debug_shader_precision != 0) && c.getPragma.debugShaderPrecision

/-- Lines 62-68 of `TranslatorESSL::translate`: the precision-emulation helpers. -/
def writePrecisionEmulation (c : TranslatorESSL) (shaderVer : Int) (sink : String) : String :=
  if precisionEmulation c then
    sink ++ c.writeEmulationHelpers shaderVer
  else sink

/-- Lines 72-91 of `TranslatorESSL::translate`: the emulated built-in functions. -/
def writeBuiltInFunctionEmulation (c : TranslatorESSL) (sink : String) : String :=
  if !c.builtInFunctionEmulatorIsOutputEmpty then
    let sink := sink ++ "// BEGIN: Generated code for built-in function emulation\n\n"
    let sink :=
      if c.getShaderType = GL_FRAGMENT_SHADER then
        sink ++ "#if defined(GL_FRAGMENT_PRECISION_HIGH)\n"
          ++ "#define emu_precision highp\n"
          ++ "#else\n"
          ++ "#define emu_precision mediump\n"
          ++ "#endif\n\n"
      else
        sink ++ "#define emu_precision highp\n"
    let sink := sink ++ c.outputEmulatedFunctions
    sink ++ "// END: Generated code for built-in function emulation\n\n"
  else sink

/-- Lines 96-101 of `TranslatorESSL::translate`: the compute work-group size. -/
def writeComputeShaderLocalSize (c : TranslatorESSL) (sink : String) : String :=
  if c.getShaderType = GL_COMPUTE_SHADER ∧ c.isComputeShaderLocalSizeDeclared = true then
    let localSize := c.getComputeShaderLocalSize
    sink ++ "layout (local_size_x=" ++ toString localSize.1 ++ ", local_size_y="
      ++ toString localSize.2.1 ++ ", local_size_z=" ++ toString localSize.2.2 ++ ") in;\n"
  else sink

/-- Lines 103-108 of `TranslatorESSL::translate`: the geometry layout qualifiers. -/
def writeGeometryShaderLayout (c : TranslatorESSL) (sink : String) : String :=
  if c.getShaderType = GL_GEOMETRY_SHADER_EXT then
    sink ++ c.WriteGeometryShaderLayoutQualifiers
  else sink

/-- The loop at lines 117-131 of `TranslatorESSL::translate` over `outputVariables`, from the
current values of `hasGLFragColor` and `hasGLFragData` to their final values. -/
def scanOutputVariables : List String → Bool → Bool → Except InvariantViolation (Bool × Bool)
  | [], hasGLFragColor, hasGLFragData => .ok (hasGLFragColor, hasGLFragData)
  | name :: rest, hasGLFragColor, hasGLFragData =>
    if name = "gl_FragColor" then
      match ASSERT (!hasGLFragColor) "!hasGLFragColor" with
      | .error e => .error e
      | .ok _ => scanOutputVariables rest true hasGLFragData
    else if name = "gl_FragData" then
      match ASSERT (!hasGLFragData) "!hasGLFragData" with
      | .error e => .error e
      | .ok _ => scanOutputVariables rest hasGLFragColor true
    else scanOutputVariables rest hasGLFragColor hasGLFragData

/-- Lines 110-148 of `TranslatorESSL::translate`: the redeclaration of `gl_FragColor` and
`gl_FragData` as `webgl_FragColor` and `webgl_FragData`. -/
def declareFragmentOutputs (c : TranslatorESSL) (compileOptions : ShCompileOptions)
    (sink : String) : Except InvariantViolation String :=
  if c.getShaderType = GL_FRAGMENT_SHADER ∧ compileOptions.SH_ENFORCE_OUTPUT_TO_ESSL3 = true then
    match scanOutputVariables c.outputVariables false false with
    | .error e => .error e
    | .ok (hasGLFragColor, hasGLFragData) =>
      match ASSERT (!(hasGLFragColor && hasGLFragData)) "!(hasGLFragColor && hasGLFragData)" with
      | .error e => .error e
      | .ok _ =>
        let defPrecision := c.getDefaultPrecisionFloat
        let defPrecision :=
          if defPrecision = TPrecision.EbpUndefined then TPrecision.EbpMedium else defPrecision
        let precStr := getPrecisionString defPrecision
        let sink := if hasGLFragColor then
            sink ++ "out " ++ precStr ++ " vec4 webgl_FragColor;\n"
          else sink
        let sink := if hasGLFragData then
            sink ++ "out " ++ precStr ++ " vec4 webgl_FragData[gl_MaxDrawBuffers];\n"
          else sink
        .ok sink
  else .ok sink

/-- Lines 52-155 of `TranslatorESSL::translate`: everything that runs after the version line,
with the values of `shaderVer` and `compileOptions` fixed by lines 38-46. -/
def translateAfterVersion (c : TranslatorESSL) (shaderVer : Int)
    (compileOptions : ShCompileOptions) (sink : String) :
    Except InvariantViolation TranslateResult :=
  let sink := writeExtensionBehavior c compileOptions sink
  let sink := sink ++ c.writePragma compileOptions
  let sink := writePrecisionEmulation c shaderVer sink
  let sink := writeBuiltInFunctionEmulation c sink
  let sink := sink ++ c.OutputClampingFunctionDefinition
  let sink := writeComputeShaderLocalSize c sink
  let sink := writeGeometryShaderLayout c sink
  match declareFragmentOutputs c compileOptions sink with
  | .error e => .error e
  | .ok sink =>
    let outputESSL : TOutputESSL :=
      { shaderType := c.getShaderType, shaderVersion := shaderVer,
        mForceHighp := precisionEmulation c, compileOptions := compileOptions }
    .ok { sink := sink ++ c.traverse outputESSL, shaderVer := shaderVer,
          compileOptions := compileOptions, outputESSL := outputESSL }

/-- Lines 47-108 of `TranslatorESSL::translate` run on an empty sink: the text written before
the redeclarations (version line, extension directives, pragma directives, helper blocks and
layout declarations). -/
def translateHeader (c : TranslatorESSL) (shaderVer : Int)
    (compileOptions : ShCompileOptions) : String :=
  let sink := writeVersion shaderVer ""
  let sink := writeExtensionBehavior c compileOptions sink
  let sink := sink ++ c.writePragma compileOptions
  let sink := writePrecisionEmulation c shaderVer sink
  let sink := writeBuiltInFunctionEmulation c sink
  let sink := sink ++ c.OutputClampingFunctionDefinition
  let sink := writeComputeShaderLocalSize c sink
  writeGeometryShaderLayout c sink

/-- `TranslatorESSL::translate` (lines 32-156), appending to the info sink `sink`. -/
def translate (c : TranslatorESSL) (compileOptions : ShCompileOptions) (sink : String) :
    Except InvariantViolation TranslateResult :=
  let chosen := chooseVersion c compileOptions
  let shaderVer := chosen.1
  let compileOptions := chosen.2
  let sink := writeVersion shaderVer sink
  translateAfterVersion c shaderVer compileOptions sink

/-- Whether one of the special rules of `writeExtensionBehavior` covers the entry `iter`: the
framebuffer-fetch or draw-buffers substitution on a host with the NV capability, the multiview
rule, or the geometry rule. -/
def coveredBySpecialRule (c : TranslatorESSL) (iter : TExtension × TBehavior) : Prop :=
  (c.getResources.NV_shader_framebuffer_fetch ≠ 0 ∧
      iter.1 = TExtension.EXT_shader_framebuffer_fetch) ∨
  (c.getResources.NV_draw_buffers ≠ 0 ∧ iter.1 = TExtension.EXT_draw_buffers) ∨
  iter.1 = TExtension.OVR_multiview ∨
  iter.1 = TExtension.EXT_geometry_shader

/-- The directives the specification prescribes for a table that no special rule covers: for
each entry whose behaviour is not undefined, in table iteration order, one line with the
canonical name of the extension and the requested behaviour. -/
def genericDirectives (c : TranslatorESSL) : List (TExtension × TBehavior) → String
  | [] => ""
  | iter :: rest =>
    (if iter.2 = TBehavior.EBhUndefined then ""
     else "#extension " ++ c.GetExtensionNameString iter.1 ++ " : "
        ++ GetBehaviorString iter.2 ++ "\n")
      ++ genericDirectives c rest

/-- One rule of the precedence list of `writeExtensionBehavior`: the condition under which it
applies to an entry whose behaviour is not undefined, and what it then writes. -/
structure DirectiveRule where
  applies : TranslatorESSL → TExtension × TBehavior → Bool
  write : TranslatorESSL → ShCompileOptions → Bool → TExtension × TBehavior → String → String

/-- The framebuffer-fetch substitution (lines 185-190). -/
def framebufferFetchRule : DirectiveRule :=
  { applies := fun c iter =>
      decide (c.getResources.NV_shader_framebuffer_fetch ≠ 0 ∧
        iter.1 = TExtension.EXT_shader_framebuffer_fetch),
    write := fun _ _ _ iter sink =>
      sink ++ "#extension GL_NV_shader_framebuffer_fetch : " ++ GetBehaviorString iter.2 ++ "\n" }

/-- The draw-buffers substitution (lines 191-195). -/
def drawBuffersRule : DirectiveRule :=
  { applies := fun c iter =>
      decide (c.getResources.NV_draw_buffers ≠ 0 ∧ iter.1 = TExtension.EXT_draw_buffers),
    write := fun _ _ _ iter sink =>
      sink ++ "#extension GL_NV_draw_buffers : " ++ GetBehaviorString iter.2 ++ "\n" }

/-- The multiview rule (lines 196-226). -/
def multiviewRule : DirectiveRule :=
  { applies := fun _ iter => iter.1 == TExtension.OVR_multiview,
    write := fun c compileOptions isMultiviewExtEmulated iter sink =>
      if isMultiviewExtEmulated = true ∧ c.getShaderType = GL_VERTEX_SHADER ∧
          compileOptions.SH_SELECT_VIEW_IN_NV_GLSL_VERTEX_SHADER = true then
        sink ++ "#extension GL_NV_viewport_array2 : require\n"
      else if c.getShaderType = GL_VERTEX_SHADER then
        let sink := sink ++ "#extension GL_OVR_multiview2 : " ++ GetBehaviorString iter.2 ++ "\n"
        let numViews := c.getNumViews
        let numViews := if compileOptions.SH_ENFORCE_OUTPUT_TO_ESSL3 then 2 else numViews
        if numViews ≥ 2 then
          sink ++ "layout(num_views=" ++ toString numViews ++ ") in;" ++ "\n"
        else sink
      else sink }

/-- The geometry rule (lines 227-242). -/
def geometryRule : DirectiveRule :=
  { applies := fun _ iter => decide (iter.1 = TExtension.EXT_geometry_shader),
    write := fun _ _ _ iter sink =>
      let sink := sink ++ "#ifdef GL_EXT_geometry_shader\n"
        ++ "#extension GL_EXT_geometry_shader : " ++ GetBehaviorString iter.2
        ++ "\n"
        ++ "#elif defined GL_OES_geometry_shader\n"
        ++ "#extension GL_OES_geometry_shader : " ++ GetBehaviorString iter.2
        ++ "\n"
      let sink := if iter.2 = TBehavior.EBhRequire then
          sink ++ "#else\n"
            ++ "#error \"No geometry shader extensions available.\" // Only generate this if the extension is \"required\"\n"
        else sink
      sink ++ "#endif\n" }

/-- The generic rule (lines 243-247), which applies to every entry. -/
def genericRule : DirectiveRule :=
  { applies := fun _ _ => true,
    write := fun c _ _ iter sink =>
      sink ++ "#extension " ++ c.GetExtensionNameString iter.1 ++ " : "
        ++ GetBehaviorString iter.2 ++ "\n" }

/-- Testing a list of rules in order: the first rule that applies to the entry writes. -/
def applyRules (c : TranslatorESSL) (compileOptions : ShCompileOptions)
    (isMultiviewExtEmulated : Bool) (iter : TExtension × TBehavior) (sink : String) :
    List DirectiveRule → String
  | [] => sink
  | rule :: rest =>
    if rule.applies c iter then rule.write c compileOptions isMultiviewExtEmulated iter sink
    else applyRules c compileOptions isMultiviewExtEmulated iter sink rest

/-- The order in which `writeExtensionBehavior` tests its rules. -/
def fixedPrecedence : List DirectiveRule :=
  [framebufferFetchRule, drawBuffersRule, multiviewRule, geometryRule, genericRule]

end TranslatorESSL

/-! ## `OutputESSL.cpp` -/

/-- Modelled from the spec: the `SymbolType` enumeration is declared in `Symbol.h`, which is
not among the sources. `Empty` is the kind of the compiler-synthesized anonymous symbols; the
other enumerators are the kinds of the named symbols. -/
inductive SymbolType where
  | BuiltIn
  | UserDefined
  | AngleInternal
  | Empty
  deriving DecidableEq, Repr

/-- What `TOutputESSL::visitSymbol` reads of a `TIntermSymbol` node: the identity of the
variable it refers to (`uniqueId`), `node->variable().symbolType()` and `node->getName()`. -/
structure TIntermSymbol where
  uniqueId : Nat
  symbolType : SymbolType
  name : String
  deriving DecidableEq, Repr

/-- The generic code generator `TOutputGLSLBase`, which is defined in another translation
unit: `visitSymbol node s` is the text `TOutputGLSLBase::visitSymbol(node)` appends to the sink
when the state the base class keeps for itself (name map, declaration flags) is `s`, and the
state it leaves behind. -/
structure TOutputGLSLBase (σ : Type) where
  visitSymbol : TIntermSymbol → σ → String × σ

/-- The mutable state of a code generator during the traversal: the sink `objSink()` and the
state `base` of the generic code generator. -/
structure OutputState (σ : Type) where
  objSink : String
  base : σ

namespace TOutputESSL

/-- The static array `simpleRename` of `TOutputESSL::translateTextureFunction` (lines 96-102);
`none` is `nullptr`. -/
def simpleRename : List (Option String) :=
  [some "texture2DLodEXT",     some "texture2DLod",
   some "texture2DProjLodEXT", some "texture2DProjLod",
   some "textureCubeLodEXT",   some "textureCubeLod",
   some "texture2DGradEXT",    some "texture2DGradARB",
   some "texture2DProjGradEXT", some "texture2DProjGradARB",
   some "textureCubeGradEXT",  some "textureCubeGradARB",
   none,                       none]

/-- The static array `legacyToCoreRename` of `TOutputESSL::translateTextureFunction`
(lines 103-118); `none` is `nullptr`. -/
def legacyToCoreRename : List (Option String) :=
  [some "texture2D",     some "texture",
   some "texture2DProj", some "textureProj",
   some "texture2DLod",  some "textureLod",
   some "texture2DProjLod", some "textureProjLod",
   some "texture2DRect", some "texture",
   some "textureCube", some "texture",
   some "textureCubeLod", some "textureLod",
   -- Extensions
   some "texture2DLodEXT", some "textureLod",
   some "texture2DProjLodEXT", some "textureProjLod",
   some "textureCubeLodEXT", some "textureLod",
   some "texture2DGradEXT", some "textureGrad",
   some "texture2DProjGradEXT", some "textureProjGrad",
   some "textureCubeGradEXT", some "textureGrad",
   none, none]

/-- The loop of `TOutputESSL::translateTextureFunction` (lines 122-130) over the part of
`mapping` from index `i` on: it stops at a `nullptr` key, returns `mapping[i + 1]` at the first
key equal to `name`, and otherwise goes on with `i + 2`. -/
def translateTextureFunctionLoop : List (Option String) → String → String
  | some key :: some replacement :: rest, name =>
    if name = key then replacement else translateTextureFunctionLoop rest name
  | _, name => name

/-- `TOutputESSL::translateTextureFunction` (lines 94-131). -/
def translateTextureFunction (o : TOutputESSL) (name : String) : String :=
  let mapping :=
    if o.compileOptions.SH_ENFORCE_OUTPUT_TO_ESSL3 then legacyToCoreRename else simpleRename
  translateTextureFunctionLoop mapping name

/-- The rename pairs of the simple table as the specification describes it: an ordered list
of name/replacement pairs. -/
def simpleRenamePairs : List (String × String) :=
  [("texture2DLodEXT", "texture2DLod"),
   ("texture2DProjLodEXT", "texture2DProjLod"),
   ("textureCubeLodEXT", "textureCubeLod"),
   ("texture2DGradEXT", "texture2DGradARB"),
   ("texture2DProjGradEXT", "texture2DProjGradARB"),
   ("textureCubeGradEXT", "textureCubeGradARB")]

/-- The rename pairs of the legacy-to-core table as the specification describes it: an
ordered list of name/replacement pairs. -/
def legacyToCoreRenamePairs : List (String × String) :=
  [("texture2D", "texture"),
   ("texture2DProj", "textureProj"),
   ("texture2DLod", "textureLod"),
   ("texture2DProjLod", "textureProjLod"),
   ("texture2DRect", "texture"),
   ("textureCube", "texture"),
   ("textureCubeLod", "textureLod"),
   ("texture2DLodEXT", "textureLod"),
   ("texture2DProjLodEXT", "textureProjLod"),
   ("textureCubeLodEXT", "textureLod"),
   ("texture2DGradEXT", "textureGrad"),
   ("texture2DProjGradEXT", "textureProjGrad"),
   ("textureCubeGradEXT", "textureGrad")]

/-- The table the specification selects: the legacy-to-core pairs when the stricter baseline
is enforced, the simple pairs otherwise. -/
def selectedRenamePairs (o : TOutputESSL) : List (String × String) :=
  if o.compileOptions.SH_ENFORCE_OUTPUT_TO_ESSL3 then legacyToCoreRenamePairs
  else simpleRenamePairs

/-- The sentinel-terminated array that lays a list of pairs out as the source tables are laid
out: key, replacement, key, replacement, ..., `nullptr`, `nullptr`. -/
def sentinelArray : List (String × String) → List (Option String)
  | [] => [none, none]
  | pair :: rest => some pair.1 :: some pair.2 :: sentinelArray rest

/-- Whether the text `s` contains the text `part`. -/
def containsText (s part : String) : Bool :=
  decide (part.data <:+: s.data)

/-- Whether the name `s` ends in one of the vendor suffixes `EXT` and `ARB`. -/
def hasVendorSuffix (s : String) : Bool :=
  decide ("EXT".data <:+ s.data) || decide ("ARB".data <:+ s.data)

/-- Lines 54-86 of `TOutputESSL::visitSymbol`: the sink and the value of `wasTreated` after the
reserved-name substitution. -/
def visitSymbolTreat (o : TOutputESSL) (node : TIntermSymbol) (out : String) : String × Bool :=
  let wasTreated := false
  if node.symbolType ≠ SymbolType.Empty ∧
      o.compileOptions.SH_ENFORCE_OUTPUT_TO_ESSL3 = true then
    let name := node.name
    if o.shaderType = GL_FRAGMENT_SHADER then
      if name = "gl_FragColor" then
        (out ++ "webgl_FragColor", true)
      else if name = "gl_FragData" then
        (out ++ "webgl_FragData", true)
      else if name = "sample" then
        (out ++ "webgl_sample", true)
      else (out, wasTreated)
    else if o.shaderType = GL_VERTEX_SHADER then
      if name = "gl_ViewID_OVR" then
        (out ++ "int(gl_ViewID_OVR)", true)
      else (out, wasTreated)
    else (out, wasTreated)
  else (out, wasTreated)

/-- `TOutputESSL::visitSymbol` (lines 50-92); `generic` is the base class, whose `visitSymbol`
is called when the symbol was not treated. -/
def visitSymbol {σ : Type} (o : TOutputESSL) (generic : TOutputGLSLBase σ)
    (node : TIntermSymbol) (st : OutputState σ) : OutputState σ :=
  let treated := visitSymbolTreat o node st.objSink
  let out := treated.1
  let wasTreated := treated.2
  if !wasTreated then
    let resolved := generic.visitSymbol node st.base
    { objSink := out ++ resolved.1, base := resolved.2 }
  else
    { objSink := out, base := st.base }

/-- `TOutputESSL::writeVariablePrecision` (lines 37-48): the sink after the call and the value
returned. -/
def writeVariablePrecision (o : TOutputESSL) (precision : TPrecision) (out : String) :
    String × Bool :=
  if precision = TPrecision.EbpUndefined then
    (out, false)
  else
    let out :=
      if o.mForceHighp then
        out ++ getPrecisionString TPrecision.EbpHigh
      else
        out ++ getPrecisionString precision
    (out, true)

/-- The reserved-name substitution as the specification describes it: the fixed replacement
of a legacy built-in variable name for the active shader stage, if the name is one. -/
def reservedReplacement (shaderType : Nat) (name : String) : Option String :=
  if shaderType = GL_FRAGMENT_SHADER then
    if name = "gl_FragColor" then some "webgl_FragColor"
    else if name = "gl_FragData" then some "webgl_FragData"
    else if name = "sample" then some "webgl_sample"
    else none
  else if shaderType = GL_VERTEX_SHADER then
    if name = "gl_ViewID_OVR" then some "int(gl_ViewID_OVR)" else none
  else none

/-- The substitution the specification prescribes for a symbol: none for a compiler-synthesized
symbol or without baseline enforcement, else the reserved replacement of its name. -/
def substitution (o : TOutputESSL) (node : TIntermSymbol) : Option String :=
  if node.symbolType = SymbolType.Empty then none
  else if o.compileOptions.SH_ENFORCE_OUTPUT_TO_ESSL3 then
    reservedReplacement o.shaderType node.name
  else none

end TOutputESSL

/-! ## Concrete inputs -/

/-- The option word with no bit set. -/
def noCompileOptions : ShCompileOptions :=
  { SH_ENFORCE_OUTPUT_TO_ESSL3 := false,
    SH_INITIALIZE_BUILTINS_FOR_INSTANCED_MULTIVIEW := false,
    SH_SELECT_VIEW_IN_NV_GLSL_VERTEX_SHADER := false,
    SH_EMULATE_ATAN2_FLOAT_FUNCTION := false,
    others := 0 }

/-- The option word with only `SH_ENFORCE_OUTPUT_TO_ESSL3` set. -/
def enforceCompileOptions : ShCompileOptions :=
  { noCompileOptions with SH_ENFORCE_OUTPUT_TO_ESSL3 := true }

/-- A vertex-stage compiler object for a shader of version `version` with extension table
`extBehavior`: no host capability, no pragma, no emulation, no output variable, and a tree
whose traversal writes the single line `// body`. -/
def vertexCompiler (version : Int) (extBehavior : List (TExtension × TBehavior)) :
    TranslatorESSL :=
  { getShaderVersion := version,
    getShaderType := GL_VERTEX_SHADER,
    getExtensionBehavior := extBehavior,
    getResources :=
      { NV_shader_framebuffer_fetch := 0, NV_draw_buffers := 0,
        WEBGL_debug_shader_precision := 0 },
    getPragma := { debugShaderPrecision := false },
    getNumViews := 1,
    isComputeShaderLocalSizeDeclared := false,
    getComputeShaderLocalSize := (1, 1, 1),
    outputVariables := [],
    getDefaultPrecisionFloat := TPrecision.EbpUndefined,
    builtInFunctionEmulatorIsOutputEmpty := true,
    GetExtensionNameString := fun _ => "GL_other",
    writePragma := fun _ => "",
    writeEmulationHelpers := fun _ => "",
    outputEmulatedFunctions := "",
    OutputClampingFunctionDefinition := "",
    WriteGeometryShaderLayoutQualifiers := "",
    traverse := fun _ => "// body\n" }

/-- A fragment-stage compiler object for a shader of version `version` with output variables
`outputVariables`: the host reports the NV framebuffer-fetch capability and precision
debugging, the extension table enables framebuffer fetch and warns on one other extension,
precision emulation is requested, a built-in function is emulated, the default float
precision is medium, and every collaborator writes one line of its own. -/
def fragmentCompiler (version : Int) (outputVariables : List String) : TranslatorESSL :=
  { getShaderVersion := version,
    getShaderType := GL_FRAGMENT_SHADER,
    getExtensionBehavior :=
      [(TExtension.EXT_shader_framebuffer_fetch, TBehavior.EBhEnable),
       (TExtension.other 0, TBehavior.EBhWarn)],
    getResources :=
      { NV_shader_framebuffer_fetch := 1, NV_draw_buffers := 0,
        WEBGL_debug_shader_precision := 1 },
    getPragma := { debugShaderPrecision := true },
    getNumViews := 1,
    isComputeShaderLocalSizeDeclared := false,
    getComputeShaderLocalSize := (1, 1, 1),
    outputVariables := outputVariables,
    getDefaultPrecisionFloat := TPrecision.EbpMedium,
    builtInFunctionEmulatorIsOutputEmpty := false,
    GetExtensionNameString := fun _ => "GL_other",
    writePragma := fun _ => "#pragma STDGL invariant(all)\n",
    writeEmulationHelpers := fun _ => "// precision helpers\n",
    outputEmulatedFunctions := "// emulated functions\n",
    OutputClampingFunctionDefinition := "// clamp\n",
    WriteGeometryShaderLayoutQualifiers := "",
    traverse := fun _ => "// body\n" }

/-- A fragment-stage code generator for a version 100 shader with option word
`compileOptions` and no forced high precision. -/
def fragmentOutputESSL (compileOptions : ShCompileOptions) : TOutputESSL :=
  { shaderType := GL_FRAGMENT_SHADER, shaderVersion := 100, mForceHighp := false,
    compileOptions := compileOptions }

/-- A generic code generator without state that writes the name of the symbol unchanged (the
identity strategy). -/
def identityGenerator : TOutputGLSLBase Unit :=
  { visitSymbol := fun node s => (node.name, s) }

/-- A generic code generator without state that writes the name of the symbol followed by the
identity of its variable, so that distinct symbols never get the same text. -/
def uniqueGenerator : TOutputGLSLBase Unit :=
  { visitSymbol := fun node s => (node.name ++ "_" ++ toString node.uniqueId, s) }

/-- Modelled from the spec: the type `NameMap` is declared outside the sources. It maps a
symbol identity to the output identifier chosen for it and is append-only for the duration of
one translation: the list of its entries, the oldest first. -/
abbrev NameMap : Type := List (Nat × String)

/-- Modelled from the spec: the output identifier the name map holds for the symbol identity
`uniqueId`, if it holds one. -/
def NameMap.lookup : NameMap → Nat → Option String
  | [], _ => none
  | entry :: rest, uniqueId =>
    if entry.1 = uniqueId then some entry.2 else NameMap.lookup rest uniqueId

/-- Modelled from the spec: `TOutputGLSLBase::visitSymbol` is not among the sources. This is
the generic name resolver of spec section 4.1 with the name map of section 3 as its state:
`resolve(symbol)` gives the output identifier the name map already holds for the symbol, and
otherwise the one the generic name-mapping `strategy` chooses (the identity, or a
deterministic hash keyed by a caller-supplied hash function), which it appends to the name
map; populating the name map is its only side effect. -/
def nameResolver (strategy : TIntermSymbol → String) : TOutputGLSLBase NameMap :=
  { visitSymbol := fun node nameMap =>
      match NameMap.lookup nameMap node.uniqueId with
      | some identifier => (identifier, nameMap)
      | none => (strategy node, nameMap ++ [(node.uniqueId, strategy node)]) }

/-- A vertex-stage compiler object like `vertexCompiler 100 extBehavior`, but on a host that
reports the NV framebuffer-fetch and NV draw-buffers capabilities, and with the view count
`numViews`. -/
def nvVertexCompiler (extBehavior : List (TExtension × TBehavior)) (numViews : Int) :
    TranslatorESSL :=
  { vertexCompiler 100 extBehavior with
    getResources :=
      { NV_shader_framebuffer_fetch := 1, NV_draw_buffers := 1,
        WEBGL_debug_shader_precision := 0 },
    getNumViews := numViews }

/-- A compiler object like `vertexCompiler version extBehavior`, but for the shader stage
`shaderType`. -/
def stageCompiler (shaderType : Nat) (version : Int)
    (extBehavior : List (TExtension × TBehavior)) : TranslatorESSL :=
  { vertexCompiler version extBehavior with getShaderType := shaderType }

/-- A reference to a user-defined variable named `sample`; `uniqueId` tells the variables of
that name apart. -/
def sampleSymbol (uniqueId : Nat) : TIntermSymbol :=
  { uniqueId := uniqueId, symbolType := SymbolType.UserDefined, name := "sample" }

/-- A reference to the built-in variable of name `name`. -/
def builtInSymbol (name : String) : TIntermSymbol :=
  { uniqueId := 0, symbolType := SymbolType.BuiltIn, name := name }

/-- A vertex-stage code generator for a version 100 shader with option word `compileOptions`
and no forced high precision. -/
def vertexOutputESSL (compileOptions : ShCompileOptions) : TOutputESSL :=
  { shaderType := GL_VERTEX_SHADER, shaderVersion := 100, mForceHighp := false,
    compileOptions := compileOptions }

/-- An item of a flat shader body: a symbol reference, the callee name of a function call, or
text that is written as it stands. -/
inductive BodyItem where
  | symbol (node : TIntermSymbol)
  | call (name : String)
  | text (s : String)
  deriving DecidableEq, Repr

/-- Modelled from the spec: the tree traversal of `TOutputGLSLBase` is not among the sources.
This traversal of a flat body does what the specification requires of the code generator at
the two places `TOutputESSL` overrides: every symbol reference goes through `visitSymbol`, and
every callee name through `translateTextureFunction`. -/
def traverseBody {σ : Type} (generic : TOutputGLSLBase σ) (o : TOutputESSL) :
    List BodyItem → OutputState σ → OutputState σ
  | [], st => st
  | BodyItem.symbol node :: rest, st =>
    traverseBody generic o rest (TOutputESSL.visitSymbol o generic node st)
  | BodyItem.call name :: rest, st =>
    traverseBody generic o rest
      { st with objSink := st.objSink ++ TOutputESSL.translateTextureFunction o name }
  | BodyItem.text s :: rest, st =>
    traverseBody generic o rest { st with objSink := st.objSink ++ s }

/-- The body `gl_FragColor = texture2D(s, uv);` as a flat list of items. -/
def textureLookupBody : List BodyItem :=
  [BodyItem.symbol { uniqueId := 1, symbolType := SymbolType.BuiltIn, name := "gl_FragColor" },
   BodyItem.text " = ",
   BodyItem.call "texture2D",
   BodyItem.text "(s, uv);\n"]

/-- A fragment-stage compiler object for a version 100 shader that declares no extension,
whose default float precision is medium, whose only output variable is `gl_FragColor`, and
whose tree is `textureLookupBody`, written through the identity generator. -/
def textureLookupCompiler : TranslatorESSL :=
  { getShaderVersion := 100,
    getShaderType := GL_FRAGMENT_SHADER,
    getExtensionBehavior := [],
    getResources :=
      { NV_shader_framebuffer_fetch := 0, NV_draw_buffers := 0,
        WEBGL_debug_shader_precision := 0 },
    getPragma := { debugShaderPrecision := false },
    getNumViews := 1,
    isComputeShaderLocalSizeDeclared := false,
    getComputeShaderLocalSize := (1, 1, 1),
    outputVariables := ["gl_FragColor"],
    getDefaultPrecisionFloat := TPrecision.EbpMedium,
    builtInFunctionEmulatorIsOutputEmpty := true,
    GetExtensionNameString := fun _ => "GL_other",
    writePragma := fun _ => "",
    writeEmulationHelpers := fun _ => "",
    outputEmulatedFunctions := "",
    OutputClampingFunctionDefinition := "",
    WriteGeometryShaderLayoutQualifiers := "",
    traverse := fun o =>
      (traverseBody identityGenerator o textureLookupBody { objSink := "", base := () }).objSink }

end sh

/-! ## `TextureGL.cpp` -/

namespace rx

/-- OpenGL enumerant `GL_NONE`. -/
def GL_NONE : Nat := 0
/-- OpenGL enumerant `GL_ZERO`. -/
def GL_ZERO : Nat := 0
/-- OpenGL enumerant `GL_ONE`. -/
def GL_ONE : Nat := 1
/-- OpenGL enumerant `GL_DEPTH_COMPONENT`. -/
def GL_DEPTH_COMPONENT : Nat := 0x1902
/-- OpenGL enumerant `GL_RED`. -/
def GL_RED : Nat := 0x1903
/-- OpenGL enumerant `GL_GREEN`. -/
def GL_GREEN : Nat := 0x1904
/-- OpenGL enumerant `GL_BLUE`. -/
def GL_BLUE : Nat := 0x1905
/-- OpenGL enumerant `GL_ALPHA`. -/
def GL_ALPHA : Nat := 0x1906
/-- OpenGL enumerant `GL_LUMINANCE`. -/
def GL_LUMINANCE : Nat := 0x1909
/-- OpenGL enumerant `GL_LUMINANCE_ALPHA`. -/
def GL_LUMINANCE_ALPHA : Nat := 0x190A
/-- OpenGL enumerant `GL_RG`. -/
def GL_RG : Nat := 0x8227
/-- OpenGL enumerant `GL_DEPTH_STENCIL`. -/
def GL_DEPTH_STENCIL : Nat := 0x84F9
/-- OpenGL enumerant `GL_TEXTURE_2D`. -/
def GL_TEXTURE_2D : Nat := 0x0DE1
/-- OpenGL enumerant `GL_TEXTURE_SWIZZLE_R`. -/
def GL_TEXTURE_SWIZZLE_R : Nat := 0x8E42
/-- OpenGL enumerant `GL_TEXTURE_SWIZZLE_A`. -/
def GL_TEXTURE_SWIZZLE_A : Nat := 0x8E45

/-- Modelled from the spec: the `UNREACHABLE` macro is defined in `common/debug.h`, which is
not among the sources. Reaching it is an invariant violation, fatal like a failed `ASSERT`. -/
def UNREACHABLE {α : Type} : Except sh.InvariantViolation α :=
  .error (.assertFailed "UNREACHABLE")

/-- The field of `gl::InternalFormat` that `TextureGL.cpp` reads. -/
structure InternalFormat where
  format : Nat
  deriving DecidableEq, Repr

/-- `LUMAWorkaroundGL` (constructor at lines 91-94). -/
structure LUMAWorkaroundGL where
  enabled : Bool
  workaroundFormat : Nat
  deriving DecidableEq, Repr

/-- `LevelInfoGL` (constructor at lines 100-107). -/
structure LevelInfoGL where
  sourceFormat : Nat
  depthStencilWorkaround : Bool
  lumaWorkaround : LUMAWorkaroundGL
  deriving DecidableEq, Repr

/-- `IsLUMAFormat` (lines 49-52). -/
def IsLUMAFormat (format : Nat) : Bool :=
  format == GL_LUMINANCE || format == GL_ALPHA || format == GL_LUMINANCE_ALPHA

/-- `GetLUMAWorkaroundInfo` (lines 54-68); `GetInternalFormatInfo` is the function
`gl::GetInternalFormatInfo` of `formatutils.cpp`, which is not among the sources. -/
def GetLUMAWorkaroundInfo (GetInternalFormatInfo : Nat → InternalFormat)
    (originalFormatInfo : InternalFormat) (destinationFormat : Nat) : LUMAWorkaroundGL :=
  if IsLUMAFormat originalFormatInfo.format then
    let destinationFormatInfo := GetInternalFormatInfo destinationFormat
    { enabled := !IsLUMAFormat destinationFormatInfo.format,
      workaroundFormat := destinationFormatInfo.format }
  else
    { enabled := false, workaroundFormat := GL_NONE }

/-- `IsDepthStencilFormat` (lines 70-73). -/
def IsDepthStencilFormat (format : Nat) : Bool :=
  format == GL_DEPTH_COMPONENT || format == GL_DEPTH_STENCIL

/-- `GetDepthStencilWorkaround` (lines 75-78). -/
def GetDepthStencilWorkaround (originalFormatInfo : InternalFormat) : Bool :=
  IsDepthStencilFormat originalFormatInfo.format

/-- `GetLevelInfo` (lines 80-85). -/
def GetLevelInfo (GetInternalFormatInfo : Nat → InternalFormat)
    (originalFormat destinationFormat : Nat) : LevelInfoGL :=
  let originalFormatInfo := GetInternalFormatInfo originalFormat
  { sourceFormat := originalFormat,
    depthStencilWorkaround := GetDepthStencilWorkaround originalFormatInfo,
    lumaWorkaround :=
      GetLUMAWorkaroundInfo GetInternalFormatInfo originalFormatInfo destinationFormat }

/-- Lines 589-687 of `SyncTextureStateSwizzle`: the value of `resultSwizzle` for the level info
`levelInfo` and the requested swizzle `newState.*stateMember`. -/
def resultSwizzle (levelInfo : LevelInfoGL) (requested : Nat) :
    Except sh.InvariantViolation Nat :=
  if levelInfo.lumaWorkaround.enabled = true ∨ levelInfo.depthStencilWorkaround = true then
    if levelInfo.lumaWorkaround.enabled then
      if requested = GL_RED ∨ requested = GL_GREEN ∨ requested = GL_BLUE then
        if levelInfo.sourceFormat = GL_LUMINANCE ∨
            levelInfo.sourceFormat = GL_LUMINANCE_ALPHA then
          match sh.ASSERT
              (decide (levelInfo.lumaWorkaround.workaroundFormat = GL_RED ∨
                levelInfo.lumaWorkaround.workaroundFormat = GL_RG))
              "levelInfo.lumaWorkaround.workaroundFormat == GL_RED || levelInfo.lumaWorkaround.workaroundFormat == GL_RG" with
          | .error e => .error e
          | .ok _ => .ok GL_RED
        else if levelInfo.sourceFormat = GL_ALPHA then
          .ok GL_ZERO
        else UNREACHABLE
      else if requested = GL_ALPHA then
        if levelInfo.sourceFormat = GL_LUMINANCE then
          .ok GL_ONE
        else if levelInfo.sourceFormat = GL_ALPHA then
          match sh.ASSERT (decide (levelInfo.lumaWorkaround.workaroundFormat = GL_RED))
              "levelInfo.lumaWorkaround.workaroundFormat == GL_RED" with
          | .error e => .error e
          | .ok _ => .ok GL_RED
        else if levelInfo.sourceFormat = GL_LUMINANCE_ALPHA then
          match sh.ASSERT (decide (levelInfo.lumaWorkaround.workaroundFormat = GL_RG))
              "levelInfo.lumaWorkaround.workaroundFormat == GL_RG" with
          | .error e => .error e
          | .ok _ => .ok GL_GREEN
        else UNREACHABLE
      else if requested = GL_ZERO ∨ requested = GL_ONE then
        .ok requested
      else UNREACHABLE
    else if levelInfo.depthStencilWorkaround then
      if requested = GL_RED then
        .ok requested
      else if requested = GL_GREEN ∨ requested = GL_BLUE then
        .ok GL_ZERO
      else if requested = GL_ALPHA then
        .ok GL_ONE
      else if requested = GL_ZERO ∨ requested = GL_ONE then
        .ok requested
      else UNREACHABLE
    else UNREACHABLE
  else .ok requested

/-- A call `SyncTextureStateSwizzle` makes: the callback `applyTextureFunc()`, or
`functions->texParameterf(textureType, name, param)`, where `param` is the enumerant whose
conversion to `GLfloat` is passed. -/
inductive GLCall where
  | applyTextureFunc
  | texParameterf (textureType name param : Nat)
  deriving DecidableEq, Repr

/-- `SyncTextureStateSwizzle` (lines 579-695) for one member of the swizzle state: `newState`
and `curState` are the values of `newState.*stateMember` and `curState.*stateMember`; the
result is the new value of `curState.*stateMember` and the calls made. -/
def SyncTextureStateSwizzle (levelInfo : LevelInfoGL) (newState curState : Nat)
    (textureType name : Nat) : Except sh.InvariantViolation (Nat × List GLCall) :=
  match resultSwizzle levelInfo newState with
  | .error e => .error e
  | .ok resultSwizzle =>
    if curState ≠ resultSwizzle then
      .ok (resultSwizzle,
        [GLCall.applyTextureFunc, GLCall.texParameterf textureType name resultSwizzle])
    else
      .ok (curState, [])


/-! ### `RenderStateCache.cpp`

A cache (`std::unordered_map` from a key to the pair of a state object and its use counter) is
the list of its entries `(key, state, counter)` in iteration order; a state object is the
number of the resource `Renderer11::allocateResource` created for it. The width of `mCounter`
is declared in `RenderStateCache.h`, which is not among the sources: it is the parameter
`counterBits`. -/

namespace RenderStateCache

end RenderStateCache

end rx

/-! ## Version legalization (`TranslatorESSL::translate`, lines 38-50) -/

namespace sh

namespace TranslatorESSL

/-- The multiview scan answers true exactly when the table holds an `OVR_multiview` entry
whose behaviour is not undefined. -/
theorem isMultiviewExtensionNeededLoop_iff (ext : List (TExtension × TBehavior)) :
    isMultiviewExtensionNeededLoop ext = true ↔
      ∃ b, b ≠ TBehavior.EBhUndefined ∧ (TExtension.OVR_multiview, b) ∈ ext := by
  induction ext with
  | nil => simp [isMultiviewExtensionNeededLoop]
  | cons iter rest ih =>
    obtain ⟨e, b⟩ := iter
    by_cases hb : b = TBehavior.EBhUndefined
    · subst hb
      simp only [isMultiviewExtensionNeededLoop, ne_eq, not_true_eq_false, if_false, ih,
        List.mem_cons, Prod.mk.injEq]
      constructor
      · rintro ⟨b, hb, hmem⟩
        exact ⟨b, hb, Or.inr hmem⟩
      · rintro ⟨b, hb, hmem⟩
        rcases hmem with ⟨-, h⟩ | h
        · exact absurd h hb
        · exact ⟨b, hb, h⟩
    · by_cases he : e = TExtension.OVR_multiview
      · subst he
        simp only [isMultiviewExtensionNeededLoop, ne_eq, hb, not_false_eq_true, if_true,
          beq_self_eq_true, true_iff]
        exact ⟨b, hb, List.mem_cons_self _ _⟩
      · have hbeq : (e == TExtension.OVR_multiview) = false := by simpa using he
        simp only [isMultiviewExtensionNeededLoop, ne_eq, hb, not_false_eq_true, if_true, hbeq,
          Bool.false_eq_true, if_false, ih, List.mem_cons, Prod.mk.injEq]
        constructor
        · rintro ⟨b, hb, hmem⟩
          exact ⟨b, hb, Or.inr hmem⟩
        · rintro ⟨b, hb, hmem⟩
          rcases hmem with ⟨h, -⟩ | h
          · exact absurd h.symm he
          · exact ⟨b, hb, h⟩

/-- Below version 300 with an upgrade trigger the version decision yields 300 with the
enforce bit set. -/
theorem chooseVersion_upgrade (c : TranslatorESSL) (compileOptions : ShCompileOptions)
    (hV : c.getShaderVersion < 300)
    (h : compileOptions.SH_ENFORCE_OUTPUT_TO_ESSL3 = true ∨ isMultiviewExtensionNeeded c = true) :
    chooseVersion c compileOptions =
      (300, { compileOptions with SH_ENFORCE_OUTPUT_TO_ESSL3 := true }) := by
  have h1 : ¬ c.getShaderVersion ≥ 300 := by omega
  simp only [chooseVersion, h1, if_false, hV, h, and_self, if_true]

/-- Below version 300 without an upgrade trigger the version decision changes nothing. -/
theorem chooseVersion_keep (c : TranslatorESSL) (compileOptions : ShCompileOptions)
    (hV : c.getShaderVersion < 300)
    (hE : compileOptions.SH_ENFORCE_OUTPUT_TO_ESSL3 = false)
    (hM : isMultiviewExtensionNeeded c = false) :
    chooseVersion c compileOptions = (c.getShaderVersion, compileOptions) := by
  have h1 : ¬ c.getShaderVersion ≥ 300 := by omega
  simp [chooseVersion, h1, hE, hM]

/-- From version 300 on the version decision keeps the version and clears the enforce bit. -/
theorem chooseVersion_modern (c : TranslatorESSL) (compileOptions : ShCompileOptions)
    (hV : 300 ≤ c.getShaderVersion) :
    chooseVersion c compileOptions =
      (c.getShaderVersion, { compileOptions with SH_ENFORCE_OUTPUT_TO_ESSL3 := false }) := by
  have h1 : c.getShaderVersion ≥ 300 := hV
  simp only [chooseVersion, h1, if_true]

/-- The text of a decimal `int` as the sink prints it, for the version 300. -/
theorem toString_300 : toString (300 : Int) = "300" := by decide

/-- A completed run of lines 52-155 reports the version and options it was given, and has
built the code generator from them. -/
theorem translateAfterVersion_result (c : TranslatorESSL) (shaderVer : Int)
    (compileOptions : ShCompileOptions) (sink : String) (r : TranslateResult)
    (h : translateAfterVersion c shaderVer compileOptions sink = .ok r) :
    r.shaderVer = shaderVer ∧ r.compileOptions = compileOptions ∧
      r.outputESSL = { shaderType := c.getShaderType, shaderVersion := shaderVer,
                       mForceHighp := precisionEmulation c, compileOptions := compileOptions } := by
  unfold translateAfterVersion at h
  simp only at h
  split at h
  · exact absurd h (by simp)
  · simp only [Except.ok.injEq] at h
    subst h
    exact ⟨rfl, rfl, rfl⟩

/-- C1. For every requested version below 300, when enforcement is requested or the multiview
extension is in the extension table with behaviour warn, enable or require, `translate`
chooses version exactly 300 and sets the enforce bit, and every later step (extension writer,
pragma writer, redeclarations, code generator) runs with version 300 and the enforce bit set,
after the line `#version 300 es`. -/
theorem translate_baseline_upgrade (c : TranslatorESSL) (compileOptions : ShCompileOptions)
    (sink : String) (hV : c.getShaderVersion < 300)
    (h : compileOptions.SH_ENFORCE_OUTPUT_TO_ESSL3 = true ∨
      ∃ b, (b = TBehavior.EBhWarn ∨ b = TBehavior.EBhEnable ∨ b = TBehavior.EBhRequire) ∧
        (TExtension.OVR_multiview, b) ∈ c.getExtensionBehavior) :
    (chooseVersion c compileOptions).1 = 300 ∧
    (chooseVersion c compileOptions).2.SH_ENFORCE_OUTPUT_TO_ESSL3 = true ∧
    translate c compileOptions sink =
      translateAfterVersion c 300 { compileOptions with SH_ENFORCE_OUTPUT_TO_ESSL3 := true }
        (sink ++ "#version 300 es\n") ∧
    ∀ r, translate c compileOptions sink = .ok r →
      r.shaderVer = 300 ∧ r.compileOptions.SH_ENFORCE_OUTPUT_TO_ESSL3 = true ∧
      r.outputESSL.shaderVersion = 300 ∧
      r.outputESSL.compileOptions.SH_ENFORCE_OUTPUT_TO_ESSL3 = true := by
  have hneeded : compileOptions.SH_ENFORCE_OUTPUT_TO_ESSL3 = true ∨
      isMultiviewExtensionNeeded c = true := by
    rcases h with h | ⟨b, hb, hmem⟩
    · exact Or.inl h
    · refine Or.inr ((isMultiviewExtensionNeededLoop_iff _).2 ⟨b, ?_, hmem⟩)
      rcases hb with hb | hb | hb <;> simp [hb]
  have hchoose := chooseVersion_upgrade c compileOptions hV hneeded
  have hline : writeVersion 300 sink = sink ++ "#version 300 es\n" := by
    have h100 : (300 : Int) > 100 := by decide
    simp only [writeVersion, h100, if_true, toString_300, String.append_assoc]
    rfl
  have htr : translate c compileOptions sink =
      translateAfterVersion c 300 { compileOptions with SH_ENFORCE_OUTPUT_TO_ESSL3 := true }
        (sink ++ "#version 300 es\n") := by
    simp only [translate, hchoose, hline]
  refine ⟨by rw [hchoose], by rw [hchoose], htr, ?_⟩
  intro r hr
  rw [htr] at hr
  obtain ⟨h1, h2, h3⟩ := translateAfterVersion_result _ _ _ _ _ hr
  rw [h1, h2, h3]
  exact ⟨rfl, rfl, rfl, rfl⟩

/-- C1 at a concrete input: a version 100 vertex shader whose extension table requires the
multiview extension, translated with no option set. -/
theorem translate_baseline_upgrade_witness :
    (chooseVersion (vertexCompiler 100 [(TExtension.OVR_multiview, TBehavior.EBhRequire)])
      noCompileOptions).1 = 300 ∧
    (chooseVersion (vertexCompiler 100 [(TExtension.OVR_multiview, TBehavior.EBhRequire)])
      noCompileOptions).2.SH_ENFORCE_OUTPUT_TO_ESSL3 = true :=
  have h := translate_baseline_upgrade
    (vertexCompiler 100 [(TExtension.OVR_multiview, TBehavior.EBhRequire)]) noCompileOptions ""
    (by decide) (Or.inr ⟨TBehavior.EBhRequire, Or.inr (Or.inr rfl), by decide⟩)
  ⟨h.1, h.2.1⟩

/-- C2. For every requested version and extension table, when enforcement is not requested
the version `translate` chooses is never lower than the requested one: the chosen version,
the version a completed translation reports and the version its code generator is built with
are all at least the requested version. -/
theorem translate_version_monotone (c : TranslatorESSL) (compileOptions : ShCompileOptions)
    (sink : String) (hE : compileOptions.SH_ENFORCE_OUTPUT_TO_ESSL3 = false) :
    c.getShaderVersion ≤ (chooseVersion c compileOptions).1 ∧
    ∀ r, translate c compileOptions sink = .ok r →
      c.getShaderVersion ≤ r.shaderVer ∧ c.getShaderVersion ≤ r.outputESSL.shaderVersion := by
  have hle : c.getShaderVersion ≤ (chooseVersion c compileOptions).1 := by
    by_cases h300 : 300 ≤ c.getShaderVersion
    · rw [chooseVersion_modern c compileOptions h300]
    · have hV : c.getShaderVersion < 300 := by omega
      by_cases hM : isMultiviewExtensionNeeded c = true
      · rw [chooseVersion_upgrade c compileOptions hV (Or.inr hM)]
        exact le_of_lt hV
      · rw [chooseVersion_keep c compileOptions hV hE (by simpa using hM)]
  refine ⟨hle, ?_⟩
  intro r hr
  simp only [translate] at hr
  obtain ⟨h1, -, h3⟩ := translateAfterVersion_result _ _ _ _ _ hr
  rw [h1, h3]
  exact ⟨hle, hle⟩

/-- C2 at a concrete input: a version 100 vertex shader with an enabled multiview extension
and no option set is translated at version 300, not lower than 100. -/
theorem translate_version_monotone_witness :
    (100 : Int) ≤
      (chooseVersion (vertexCompiler 100 [(TExtension.OVR_multiview, TBehavior.EBhEnable)])
        noCompileOptions).1 :=
  (translate_version_monotone
    (vertexCompiler 100 [(TExtension.OVR_multiview, TBehavior.EBhEnable)]) noCompileOptions ""
    rfl).1

/-- C3. For every requested version of at least 300, whatever the requested enforce bit and
the extension table, `translate` keeps the version and clears the enforce bit (and no other
option) before any later step reads it: the extension writer, the pragma writer, the
redeclarations and the code generator all run with the requested version and the enforce bit
clear. -/
theorem translate_modern_clears_enforce (c : TranslatorESSL)
    (compileOptions : ShCompileOptions) (sink : String) (hV : 300 ≤ c.getShaderVersion) :
    chooseVersion c compileOptions =
      (c.getShaderVersion, { compileOptions with SH_ENFORCE_OUTPUT_TO_ESSL3 := false }) ∧
    translate c compileOptions sink =
      translateAfterVersion c c.getShaderVersion
        { compileOptions with SH_ENFORCE_OUTPUT_TO_ESSL3 := false }
        (sink ++ "#version " ++ toString c.getShaderVersion ++ " es\n") ∧
    ∀ r, translate c compileOptions sink = .ok r →
      r.shaderVer = c.getShaderVersion ∧ r.compileOptions.SH_ENFORCE_OUTPUT_TO_ESSL3 = false ∧
      r.outputESSL.shaderVersion = c.getShaderVersion ∧
      r.outputESSL.compileOptions.SH_ENFORCE_OUTPUT_TO_ESSL3 = false := by
  have hchoose := chooseVersion_modern c compileOptions hV
  have h100 : c.getShaderVersion > 100 := by omega
  have htr : translate c compileOptions sink =
      translateAfterVersion c c.getShaderVersion
        { compileOptions with SH_ENFORCE_OUTPUT_TO_ESSL3 := false }
        (sink ++ "#version " ++ toString c.getShaderVersion ++ " es\n") := by
    simp only [translate, hchoose, writeVersion, h100, if_true]
  refine ⟨hchoose, htr, ?_⟩
  intro r hr
  rw [htr] at hr
  obtain ⟨h1, h2, h3⟩ := translateAfterVersion_result _ _ _ _ _ hr
  rw [h1, h2, h3]
  exact ⟨rfl, rfl, rfl, rfl⟩

/-- C3 at a concrete input: a version 310 vertex shader translated with enforcement
requested keeps version 310 and has the enforce bit cleared. -/
theorem translate_modern_clears_enforce_witness :
    chooseVersion (vertexCompiler 310 []) enforceCompileOptions = (310, noCompileOptions) :=
  (translate_modern_clears_enforce (vertexCompiler 310 []) enforceCompileOptions ""
    (by decide)).1

/-- C4 as stated fails: a version 100 vertex shader whose extension table holds the
multiview extension with behaviour `disable`, translated with no option set, is upgraded to
version 300 with the enforce bit set, and the translation writes `#version 300 es`. -/
theorem translate_disabled_multiview_upgrades :
    (vertexCompiler 100 [(TExtension.OVR_multiview, TBehavior.EBhDisable)]).getShaderVersion
      < 300 ∧
    noCompileOptions.SH_ENFORCE_OUTPUT_TO_ESSL3 = false ∧
    (∀ b, (TExtension.OVR_multiview, b) ∈
        (vertexCompiler 100
          [(TExtension.OVR_multiview, TBehavior.EBhDisable)]).getExtensionBehavior →
      b = TBehavior.EBhDisable) ∧
    chooseVersion (vertexCompiler 100 [(TExtension.OVR_multiview, TBehavior.EBhDisable)])
      noCompileOptions = (300, enforceCompileOptions) ∧
    translate (vertexCompiler 100 [(TExtension.OVR_multiview, TBehavior.EBhDisable)])
      noCompileOptions "" =
      .ok { sink := "#version 300 es\n#extension GL_OVR_multiview2 : disable\nlayout(num_views=2) in;\n// body\n",
            shaderVer := 300,
            compileOptions := enforceCompileOptions,
            outputESSL := { shaderType := GL_VERTEX_SHADER, shaderVersion := 300,
                            mForceHighp := false, compileOptions := enforceCompileOptions } } := by
  refine ⟨by decide, rfl, ?_, rfl, rfl⟩
  intro b hb
  simpa [vertexCompiler] using hb

/-- C4, amended. For every requested version below 300, the version decision changes the
version or the options only if enforcement was requested or the multiview extension is in the
extension table with a behaviour other than undefined: when enforcement is not requested and
the multiview extension is absent from the table or has behaviour undefined, the version stays
the requested one, the enforce bit stays clear, and every later step runs with the requested
version and the unchanged options. -/
theorem translate_upgrade_only_if (c : TranslatorESSL) (compileOptions : ShCompileOptions)
    (sink : String) (hV : c.getShaderVersion < 300) :
    (chooseVersion c compileOptions ≠ (c.getShaderVersion, compileOptions) →
      compileOptions.SH_ENFORCE_OUTPUT_TO_ESSL3 = true ∨
      ∃ b, b ≠ TBehavior.EBhUndefined ∧
        (TExtension.OVR_multiview, b) ∈ c.getExtensionBehavior) ∧
    (compileOptions.SH_ENFORCE_OUTPUT_TO_ESSL3 = false →
      (∀ b, (TExtension.OVR_multiview, b) ∈ c.getExtensionBehavior →
        b = TBehavior.EBhUndefined) →
      (chooseVersion c compileOptions).1 = c.getShaderVersion ∧
      (chooseVersion c compileOptions).2.SH_ENFORCE_OUTPUT_TO_ESSL3 = false ∧
      chooseVersion c compileOptions = (c.getShaderVersion, compileOptions) ∧
      translate c compileOptions sink =
        translateAfterVersion c c.getShaderVersion compileOptions
          (writeVersion c.getShaderVersion sink)) := by
  have hkeep : compileOptions.SH_ENFORCE_OUTPUT_TO_ESSL3 = false →
      (¬ ∃ b, b ≠ TBehavior.EBhUndefined ∧
        (TExtension.OVR_multiview, b) ∈ c.getExtensionBehavior) →
      chooseVersion c compileOptions = (c.getShaderVersion, compileOptions) := by
    intro hE hM
    apply chooseVersion_keep c compileOptions hV hE
    have := (isMultiviewExtensionNeededLoop_iff c.getExtensionBehavior).not.2 hM
    simpa [isMultiviewExtensionNeeded] using this
  constructor
  · intro hne
    by_contra hcon
    rw [not_or] at hcon
    exact hne (hkeep (by simpa using hcon.1) hcon.2)
  · intro hE hM
    have hch := hkeep hE (by
      rintro ⟨b, hb, hmem⟩
      exact hb (hM b hmem))
    refine ⟨by rw [hch], by rw [hch]; exact hE, hch, ?_⟩
    simp only [translate, hch]

/-- C4, amended, at a concrete input: a version 100 vertex shader whose extension table holds
the multiview extension with behaviour undefined, translated with no option set, stays at
version 100 with the options unchanged. -/
theorem translate_upgrade_only_if_witness :
    chooseVersion (vertexCompiler 100 [(TExtension.OVR_multiview, TBehavior.EBhUndefined)])
      noCompileOptions = (100, noCompileOptions) :=
  ((translate_upgrade_only_if
    (vertexCompiler 100 [(TExtension.OVR_multiview, TBehavior.EBhUndefined)])
    noCompileOptions "" (by decide)).2 rfl (by
      intro b hb
      simpa [vertexCompiler] using hb)).2.2.1

/-- C6. For every input, `translate` chooses one output version, and it is at least what the
features in use need: when the enforce bit is set after the version decision the chosen
version is exactly 300; when the multiview extension has a behaviour other than undefined in
the extension table the chosen version is at least 300; and a completed translation reports
that one version and builds its code generator with it. -/
theorem translate_version_minimum (c : TranslatorESSL) (compileOptions : ShCompileOptions)
    (sink : String) :
    ((chooseVersion c compileOptions).2.SH_ENFORCE_OUTPUT_TO_ESSL3 = true →
      (chooseVersion c compileOptions).1 = 300) ∧
    ((∃ b, b ≠ TBehavior.EBhUndefined ∧
        (TExtension.OVR_multiview, b) ∈ c.getExtensionBehavior) →
      300 ≤ (chooseVersion c compileOptions).1) ∧
    (∀ r, translate c compileOptions sink = .ok r →
      r.shaderVer = (chooseVersion c compileOptions).1 ∧
      r.outputESSL.shaderVersion = (chooseVersion c compileOptions).1 ∧
      r.compileOptions = (chooseVersion c compileOptions).2 ∧
      r.outputESSL.compileOptions = (chooseVersion c compileOptions).2) := by
  refine ⟨?_, ?_, ?_⟩
  · intro hflag
    by_cases h300 : 300 ≤ c.getShaderVersion
    · rw [chooseVersion_modern c compileOptions h300] at hflag
      exact absurd hflag (by simp)
    · have hV : c.getShaderVersion < 300 := by omega
      by_cases hneeded : compileOptions.SH_ENFORCE_OUTPUT_TO_ESSL3 = true ∨
          isMultiviewExtensionNeeded c = true
      · rw [chooseVersion_upgrade c compileOptions hV hneeded]
      · rw [not_or] at hneeded
        rw [chooseVersion_keep c compileOptions hV (by simpa using hneeded.1)
          (by simpa using hneeded.2)] at hflag
        exact absurd hflag hneeded.1
  · intro hM
    by_cases h300 : 300 ≤ c.getShaderVersion
    · rw [chooseVersion_modern c compileOptions h300]
      exact h300
    · have hV : c.getShaderVersion < 300 := by omega
      have hneeded : isMultiviewExtensionNeeded c = true :=
        (isMultiviewExtensionNeededLoop_iff _).2 hM
      rw [chooseVersion_upgrade c compileOptions hV (Or.inr hneeded)]
  · intro r hr
    simp only [translate] at hr
    obtain ⟨h1, h2, h3⟩ := translateAfterVersion_result _ _ _ _ _ hr
    rw [h1, h2, h3]
    exact ⟨rfl, rfl, rfl, rfl⟩

/-- C6 at a concrete input: a version 100 vertex shader whose extension table holds the
multiview extension with behaviour `warn` is translated at a version of at least 300. -/
theorem translate_version_minimum_witness :
    (300 : Int) ≤
      (chooseVersion (vertexCompiler 100 [(TExtension.OVR_multiview, TBehavior.EBhWarn)])
        noCompileOptions).1 :=
  (translate_version_minimum
    (vertexCompiler 100 [(TExtension.OVR_multiview, TBehavior.EBhWarn)])
    noCompileOptions "").2.1 ⟨TBehavior.EBhWarn, by decide, by decide⟩

end TranslatorESSL

end sh

/-! ## Assembly of the output (`TranslatorESSL::translate`, lines 47-155) -/

namespace sh

namespace TranslatorESSL

/-- The version step only appends to the sink. -/
theorem writeVersion_append (shaderVer : Int) (sink : String) :
    writeVersion shaderVer sink = sink ++ writeVersion shaderVer "" := by
  unfold writeVersion
  split <;> simp [String.append_assoc]

/-- The extension writer only appends to the sink for one entry. -/
theorem writeExtensionBehaviorEntry_append (c : TranslatorESSL)
    (compileOptions : ShCompileOptions) (emulated : Bool) (iter : TExtension × TBehavior)
    (sink : String) :
    writeExtensionBehaviorEntry c compileOptions emulated iter sink =
      sink ++ writeExtensionBehaviorEntry c compileOptions emulated iter "" := by
  unfold writeExtensionBehaviorEntry
  simp only
  repeat' split
  all_goals simp [String.append_assoc]

/-- The extension writer only appends to the sink over a whole table. -/
theorem writeExtensionBehaviorLoop_append (c : TranslatorESSL)
    (compileOptions : ShCompileOptions) (emulated : Bool)
    (ext : List (TExtension × TBehavior)) (sink : String) :
    writeExtensionBehaviorLoop c compileOptions emulated ext sink =
      sink ++ writeExtensionBehaviorLoop c compileOptions emulated ext "" := by
  induction ext generalizing sink with
  | nil => simp [writeExtensionBehaviorLoop]
  | cons iter rest ih =>
    simp only [writeExtensionBehaviorLoop]
    rw [ih (writeExtensionBehaviorEntry c compileOptions emulated iter sink),
      ih (writeExtensionBehaviorEntry c compileOptions emulated iter ""),
      writeExtensionBehaviorEntry_append c compileOptions emulated iter sink,
      String.append_assoc]

/-- `writeExtensionBehavior` only appends to the sink. -/
theorem writeExtensionBehavior_append (c : TranslatorESSL) (compileOptions : ShCompileOptions)
    (sink : String) :
    writeExtensionBehavior c compileOptions sink =
      sink ++ writeExtensionBehavior c compileOptions "" := by
  simp only [writeExtensionBehavior]
  exact writeExtensionBehaviorLoop_append _ _ _ _ _

/-- The precision-emulation step only appends to the sink. -/
theorem writePrecisionEmulation_append (c : TranslatorESSL) (shaderVer : Int) (sink : String) :
    writePrecisionEmulation c shaderVer sink = sink ++ writePrecisionEmulation c shaderVer "" := by
  unfold writePrecisionEmulation
  split <;> simp

/-- The built-in emulation step only appends to the sink. -/
theorem writeBuiltInFunctionEmulation_append (c : TranslatorESSL) (sink : String) :
    writeBuiltInFunctionEmulation c sink = sink ++ writeBuiltInFunctionEmulation c "" := by
  unfold writeBuiltInFunctionEmulation
  simp only
  repeat' split
  all_goals simp [String.append_assoc]

/-- The work-group-size step only appends to the sink. -/
theorem writeComputeShaderLocalSize_append (c : TranslatorESSL) (sink : String) :
    writeComputeShaderLocalSize c sink = sink ++ writeComputeShaderLocalSize c "" := by
  unfold writeComputeShaderLocalSize
  split <;> simp [String.append_assoc]

/-- The geometry layout step only appends to the sink. -/
theorem writeGeometryShaderLayout_append (c : TranslatorESSL) (sink : String) :
    writeGeometryShaderLayout c sink = sink ++ writeGeometryShaderLayout c "" := by
  unfold writeGeometryShaderLayout
  split <;> simp

/-- The redeclaration step fails independently of the sink, and otherwise only appends. -/
theorem declareFragmentOutputs_append (c : TranslatorESSL) (compileOptions : ShCompileOptions)
    (sink : String) :
    declareFragmentOutputs c compileOptions sink =
      match declareFragmentOutputs c compileOptions "" with
      | .error e => .error e
      | .ok text => .ok (sink ++ text) := by
  unfold declareFragmentOutputs
  by_cases h : c.getShaderType = GL_FRAGMENT_SHADER ∧
      compileOptions.SH_ENFORCE_OUTPUT_TO_ESSL3 = true
  · simp only [h, and_self, if_true]
    cases scanOutputVariables c.outputVariables false false with
    | error e => rfl
    | ok found =>
      obtain ⟨hasGLFragColor, hasGLFragData⟩ := found
      cases hasGLFragColor <;> cases hasGLFragData <;> simp [ASSERT, String.append_assoc]
  · simp only [h, if_false, String.append_empty]

/-- The scan of the output variables completes when neither `gl_FragColor` nor `gl_FragData`
is met while its flag is already set, and then reports which of the two names occur. -/
theorem scanOutputVariables_ok (names : List String) (hasGLFragColor hasGLFragData : Bool)
    (hColor : hasGLFragColor.toNat + names.count "gl_FragColor" ≤ 1)
    (hData : hasGLFragData.toNat + names.count "gl_FragData" ≤ 1) :
    scanOutputVariables names hasGLFragColor hasGLFragData =
      .ok (hasGLFragColor || decide ("gl_FragColor" ∈ names),
           hasGLFragData || decide ("gl_FragData" ∈ names)) := by
  induction names generalizing hasGLFragColor hasGLFragData with
  | nil => simp [scanOutputVariables]
  | cons name rest ih =>
    by_cases h1 : name = "gl_FragColor"
    · subst h1
      have hne2 : ¬ (("gl_FragData" : String) = "gl_FragColor") := by decide
      rw [List.count_cons_self] at hColor
      rw [List.count_cons_of_ne hne2] at hData
      have hc : hasGLFragColor = false := by
        cases hasGLFragColor
        · rfl
        · simp at hColor
      subst hc
      simp only [scanOutputVariables, if_true, ASSERT, Bool.not_false]
      rw [ih true hasGLFragData (by simpa using hColor) hData]
      simp [hne2]
    · by_cases h2 : name = "gl_FragData"
      · subst h2
        have hne2 : ¬ (("gl_FragColor" : String) = "gl_FragData") := by decide
        rw [List.count_cons_self] at hData
        rw [List.count_cons_of_ne hne2] at hColor
        have hd : hasGLFragData = false := by
          cases hasGLFragData
          · rfl
          · simp at hData
        subst hd
        simp only [scanOutputVariables, h1, if_false, if_true, ASSERT, Bool.not_false]
        rw [ih hasGLFragColor true hColor (by simpa using hData)]
        simp [hne2]
      · rw [List.count_cons_of_ne (Ne.symm h1)] at hColor
        rw [List.count_cons_of_ne (Ne.symm h2)] at hData
        simp only [scanOutputVariables, h1, h2, if_false]
        rw [ih hasGLFragColor hasGLFragData hColor hData]
        simp [Ne.symm h1, Ne.symm h2]

/-- The redeclaration step completes when at most one output variable in all is named
`gl_FragColor` or `gl_FragData`. -/
theorem declareFragmentOutputs_ok (c : TranslatorESSL) (compileOptions : ShCompileOptions)
    (sink : String)
    (h : c.outputVariables.count "gl_FragColor" + c.outputVariables.count "gl_FragData" ≤ 1) :
    ∃ text, declareFragmentOutputs c compileOptions sink = .ok text := by
  unfold declareFragmentOutputs
  by_cases hs : c.getShaderType = GL_FRAGMENT_SHADER ∧
      compileOptions.SH_ENFORCE_OUTPUT_TO_ESSL3 = true
  · simp only [hs, and_self, if_true]
    rw [scanOutputVariables_ok c.outputVariables false false (by simp; omega) (by simp; omega)]
    have hboth : ¬ ("gl_FragColor" ∈ c.outputVariables ∧ "gl_FragData" ∈ c.outputVariables) := by
      rintro ⟨hc, hd⟩
      have h1 := List.count_pos_iff.2 hc
      have h2 := List.count_pos_iff.2 hd
      omega
    have hassert : (!((false || decide ("gl_FragColor" ∈ c.outputVariables)) &&
        (false || decide ("gl_FragData" ∈ c.outputVariables)))) = true := by
      by_cases hc : "gl_FragColor" ∈ c.outputVariables
      · by_cases hd : "gl_FragData" ∈ c.outputVariables
        · exact absurd ⟨hc, hd⟩ hboth
        · simp [hd]
      · simp [hc]
    simp only [ASSERT, hassert, if_true]
    exact ⟨_, rfl⟩
  · simp only [hs, if_false]
    exact ⟨_, rfl⟩

/-- The sink after `translate`: the steps of lines 47-155 each append their own text, in
source order, and the translation fails exactly when the redeclaration step does. -/
theorem translate_eq_sections (c : TranslatorESSL) (compileOptions : ShCompileOptions)
    (sink : String) :
    translate c compileOptions sink =
      (match declareFragmentOutputs c (chooseVersion c compileOptions).2 "" with
       | .error e => .error e
       | .ok redeclarations =>
         .ok { sink := sink
                 ++ writeVersion (chooseVersion c compileOptions).1 ""
                 ++ writeExtensionBehavior c (chooseVersion c compileOptions).2 ""
                 ++ c.writePragma (chooseVersion c compileOptions).2
                 ++ writePrecisionEmulation c (chooseVersion c compileOptions).1 ""
                 ++ writeBuiltInFunctionEmulation c ""
                 ++ c.OutputClampingFunctionDefinition
                 ++ writeComputeShaderLocalSize c ""
                 ++ writeGeometryShaderLayout c ""
                 ++ redeclarations
                 ++ c.traverse
                      { shaderType := c.getShaderType,
                        shaderVersion := (chooseVersion c compileOptions).1,
                        mForceHighp := precisionEmulation c,
                        compileOptions := (chooseVersion c compileOptions).2 },
               shaderVer := (chooseVersion c compileOptions).1,
               compileOptions := (chooseVersion c compileOptions).2,
               outputESSL :=
                 { shaderType := c.getShaderType,
                   shaderVersion := (chooseVersion c compileOptions).1,
                   mForceHighp := precisionEmulation c,
                   compileOptions := (chooseVersion c compileOptions).2 } }) := by
  simp only [translate, translateAfterVersion]
  rw [declareFragmentOutputs_append]
  cases declareFragmentOutputs c (chooseVersion c compileOptions).2 "" with
  | error e => rfl
  | ok text =>
    simp only [Except.ok.injEq, TranslateResult.mk.injEq, and_true]
    rw [writeGeometryShaderLayout_append, writeComputeShaderLocalSize_append,
      writeBuiltInFunctionEmulation_append, writePrecisionEmulation_append,
      writeExtensionBehavior_append, writeVersion_append]

/-- C7. For every input, the text `translate` appends to the sink is, in this order, the
version line, the extension directives, the pragma directives, the precision-emulation
helpers, the built-in-emulation helper block, the array-bounds-clamp helper, the compute
work-group-size declaration and the geometry layout declarations, the `webgl_FragColor` /
`webgl_FragData` redeclarations, and the translated body, each part being what its step writes
on its own; the translation fails only when the redeclaration step meets an invariant
violation, and it completes whenever at most one output variable is a legacy fragment
output. -/
theorem translate_output_order (c : TranslatorESSL) (compileOptions : ShCompileOptions)
    (sink : String) :
    translate c compileOptions sink =
      (match declareFragmentOutputs c (chooseVersion c compileOptions).2 "" with
       | .error e => .error e
       | .ok redeclarations =>
         .ok { sink := sink
                 ++ writeVersion (chooseVersion c compileOptions).1 ""
                 ++ writeExtensionBehavior c (chooseVersion c compileOptions).2 ""
                 ++ c.writePragma (chooseVersion c compileOptions).2
                 ++ writePrecisionEmulation c (chooseVersion c compileOptions).1 ""
                 ++ writeBuiltInFunctionEmulation c ""
                 ++ c.OutputClampingFunctionDefinition
                 ++ writeComputeShaderLocalSize c ""
                 ++ writeGeometryShaderLayout c ""
                 ++ redeclarations
                 ++ c.traverse
                      { shaderType := c.getShaderType,
                        shaderVersion := (chooseVersion c compileOptions).1,
                        mForceHighp := precisionEmulation c,
                        compileOptions := (chooseVersion c compileOptions).2 },
               shaderVer := (chooseVersion c compileOptions).1,
               compileOptions := (chooseVersion c compileOptions).2,
               outputESSL :=
                 { shaderType := c.getShaderType,
                   shaderVersion := (chooseVersion c compileOptions).1,
                   mForceHighp := precisionEmulation c,
                   compileOptions := (chooseVersion c compileOptions).2 } }) ∧
    (c.outputVariables.count "gl_FragColor" + c.outputVariables.count "gl_FragData" ≤ 1 →
      ∃ r, translate c compileOptions sink = .ok r) := by
  refine ⟨translate_eq_sections c compileOptions sink, ?_⟩
  intro hcount
  obtain ⟨text, htext⟩ :=
    declareFragmentOutputs_ok c (chooseVersion c compileOptions).2 "" hcount
  rw [translate_eq_sections, htext]
  exact ⟨_, rfl⟩

/-- C7 at a concrete input: a version 100 fragment shader using `gl_FragColor`, translated
with enforcement requested, with every collaborator writing a line of its own. -/
theorem translate_output_order_witness :
    translate (fragmentCompiler 100 ["gl_FragColor"]) enforceCompileOptions "" =
      .ok { sink := "#version 300 es\n#extension GL_NV_shader_framebuffer_fetch : enable\n#extension GL_other : warn\n#pragma STDGL invariant(all)\n// precision helpers\n// BEGIN: Generated code for built-in function emulation\n\n#if defined(GL_FRAGMENT_PRECISION_HIGH)\n#define emu_precision highp\n#else\n#define emu_precision mediump\n#endif\n\n// emulated functions\n// END: Generated code for built-in function emulation\n\n// clamp\nout mediump vec4 webgl_FragColor;\n// body\n",
            shaderVer := 300,
            compileOptions := enforceCompileOptions,
            outputESSL := { shaderType := GL_FRAGMENT_SHADER, shaderVersion := 300,
                            mForceHighp := true, compileOptions := enforceCompileOptions } } ∧
    ∃ r, translate (fragmentCompiler 100 ["gl_FragColor"]) enforceCompileOptions "" = .ok r :=
  ⟨(translate_output_order (fragmentCompiler 100 ["gl_FragColor"])
      enforceCompileOptions "").1.trans rfl,
   (translate_output_order (fragmentCompiler 100 ["gl_FragColor"])
      enforceCompileOptions "").2 (by decide)⟩

/-- Lines 52-155 fail independently of the sink, and otherwise only append to it. -/
theorem translateAfterVersion_append (c : TranslatorESSL) (shaderVer : Int)
    (compileOptions : ShCompileOptions) (sink : String) :
    translateAfterVersion c shaderVer compileOptions sink =
      match translateAfterVersion c shaderVer compileOptions "" with
      | .error e => .error e
      | .ok r => .ok { r with sink := sink ++ r.sink } := by
  simp only [translateAfterVersion]
  rw [declareFragmentOutputs_append c compileOptions
      (writeGeometryShaderLayout c _),
    declareFragmentOutputs_append c compileOptions
      (writeGeometryShaderLayout c (writeComputeShaderLocalSize c
        (writeBuiltInFunctionEmulation c (writePrecisionEmulation c shaderVer
          (writeExtensionBehavior c compileOptions "" ++ c.writePragma compileOptions))
          ++ c.OutputClampingFunctionDefinition)))]
  cases declareFragmentOutputs c compileOptions "" with
  | error e => rfl
  | ok text =>
    simp only [Except.ok.injEq, TranslateResult.mk.injEq, and_true]
    rw [writeGeometryShaderLayout_append, writeComputeShaderLocalSize_append,
      writeBuiltInFunctionEmulation_append, writePrecisionEmulation_append,
      writeExtensionBehavior_append]
    conv_rhs =>
      rw [writeGeometryShaderLayout_append, writeComputeShaderLocalSize_append,
        writeBuiltInFunctionEmulation_append, writePrecisionEmulation_append]
    simp only [String.append_assoc]

/-- C5. `translate` writes the line `#version V es` as the very first text of its output if
and only if the chosen version `V` is greater than 100: when `V > 100` the output is that line
followed by what the later steps write on their own, and when `V ≤ 100` it is only what the
later steps write. In particular, with requested version 100, no enforcement and an empty
extension table, the translation completes with `V = 100`, the version step and the extension
writer write nothing, the output is exactly the text of the pragma writer, the helper blocks,
the layout declarations and the body, and it contains `#version` nowhere unless that text
does. -/
theorem translate_version_line (c : TranslatorESSL) (compileOptions : ShCompileOptions)
    (sink : String) :
    (100 < (chooseVersion c compileOptions).1 →
      translate c compileOptions sink =
        match translateAfterVersion c (chooseVersion c compileOptions).1
            (chooseVersion c compileOptions).2 "" with
        | .error e => .error e
        | .ok r =>
          .ok { r with sink := sink ++ "#version " ++ toString (chooseVersion c compileOptions).1
                  ++ " es\n" ++ r.sink }) ∧
    (¬ 100 < (chooseVersion c compileOptions).1 →
      translate c compileOptions sink =
        match translateAfterVersion c (chooseVersion c compileOptions).1
            (chooseVersion c compileOptions).2 "" with
        | .error e => .error e
        | .ok r => .ok { r with sink := sink ++ r.sink }) ∧
    (c.getShaderVersion = 100 → compileOptions.SH_ENFORCE_OUTPUT_TO_ESSL3 = false →
      c.getExtensionBehavior = [] →
      (chooseVersion c compileOptions).1 = 100 ∧
      writeVersion (chooseVersion c compileOptions).1 "" = "" ∧
      writeExtensionBehavior c (chooseVersion c compileOptions).2 "" = "" ∧
      ∃ r, translate c compileOptions sink = .ok r ∧
        r.sink = sink ++ (c.writePragma compileOptions
          ++ writePrecisionEmulation c 100 ""
          ++ writeBuiltInFunctionEmulation c ""
          ++ c.OutputClampingFunctionDefinition
          ++ writeComputeShaderLocalSize c ""
          ++ writeGeometryShaderLayout c ""
          ++ c.traverse { shaderType := c.getShaderType, shaderVersion := 100,
                          mForceHighp := precisionEmulation c,
                          compileOptions := compileOptions }) ∧
        (sink = "" →
          ¬ "#version".data <:+: (c.writePragma compileOptions
            ++ writePrecisionEmulation c 100 ""
            ++ writeBuiltInFunctionEmulation c ""
            ++ c.OutputClampingFunctionDefinition
            ++ writeComputeShaderLocalSize c ""
            ++ writeGeometryShaderLayout c ""
            ++ c.traverse { shaderType := c.getShaderType, shaderVersion := 100,
                            mForceHighp := precisionEmulation c,
                            compileOptions := compileOptions }).data →
          ¬ "#version".data <:+: r.sink.data)) := by
  refine ⟨?_, ?_, ?_⟩
  · intro hV
    simp only [translate]
    rw [translateAfterVersion_append]
    cases translateAfterVersion c (chooseVersion c compileOptions).1
        (chooseVersion c compileOptions).2 "" with
    | error e => rfl
    | ok r0 =>
      have hgt : (chooseVersion c compileOptions).1 > 100 := hV
      simp only [writeVersion, hgt, if_true]
  · intro hV
    simp only [translate]
    rw [translateAfterVersion_append]
    cases translateAfterVersion c (chooseVersion c compileOptions).1
        (chooseVersion c compileOptions).2 "" with
    | error e => rfl
    | ok r0 =>
      have hgt : ¬ (chooseVersion c compileOptions).1 > 100 := hV
      simp only [writeVersion, hgt, if_false]
  · intro h100 hE hext
    have hV : c.getShaderVersion < 300 := by omega
    have hM : isMultiviewExtensionNeeded c = false := by
      simp [isMultiviewExtensionNeeded, hext, isMultiviewExtensionNeededLoop]
    have hch : chooseVersion c compileOptions = (100, compileOptions) := by
      rw [chooseVersion_keep c compileOptions hV hE hM, h100]
    have hver : writeVersion (100 : Int) "" = "" := by
      simp [writeVersion]
    have hextw : writeExtensionBehavior c compileOptions "" = "" := by
      simp [writeExtensionBehavior, hext, writeExtensionBehaviorLoop]
    have hdecl : declareFragmentOutputs c compileOptions "" = .ok "" := by
      simp [declareFragmentOutputs, hE]
    have horder := translate_eq_sections c compileOptions sink
    rw [hch] at horder
    simp only [hdecl, hver, hextw, String.append_empty] at horder
    rw [hch]
    refine ⟨rfl, hver, hextw, _, horder, ?_, ?_⟩
    · simp only [String.append_assoc]
    · intro hs hno
      subst hs
      simpa only [String.empty_append, String.append_assoc] using hno

/-- C5 at concrete inputs: a version 310 vertex shader with an empty extension table is
translated to the version line followed by the body text; a version 100 one with no option
set is translated to the body text alone, its extension writer writing nothing. -/
theorem translate_version_line_witness :
    translate (vertexCompiler 310 []) noCompileOptions "" =
      .ok { sink := "#version 310 es\n// body\n", shaderVer := 310,
            compileOptions := noCompileOptions,
            outputESSL := { shaderType := GL_VERTEX_SHADER, shaderVersion := 310,
                            mForceHighp := false, compileOptions := noCompileOptions } } ∧
    translate (vertexCompiler 100 []) noCompileOptions "" =
      .ok { sink := "// body\n", shaderVer := 100, compileOptions := noCompileOptions,
            outputESSL := { shaderType := GL_VERTEX_SHADER, shaderVersion := 100,
                            mForceHighp := false, compileOptions := noCompileOptions } } ∧
    writeExtensionBehavior (vertexCompiler 100 [])
      (chooseVersion (vertexCompiler 100 []) noCompileOptions).2 "" = "" :=
  ⟨((translate_version_line (vertexCompiler 310 []) noCompileOptions "").1
      (by decide)).trans rfl,
   ((translate_version_line (vertexCompiler 100 []) noCompileOptions "").2.1
      (by decide)).trans rfl,
   ((translate_version_line (vertexCompiler 100 []) noCompileOptions "").2.2
      rfl rfl rfl).2.2.1⟩

end TranslatorESSL

end sh

/-! ## Texture function renames (`TOutputESSL::translateTextureFunction`) -/

namespace sh

namespace TOutputESSL

/-- The source array `simpleRename` is the layout of the simple pairs. -/
theorem simpleRename_eq : simpleRename = sentinelArray simpleRenamePairs := rfl

/-- The source array `legacyToCoreRename` is the layout of the legacy-to-core pairs. -/
theorem legacyToCoreRename_eq : legacyToCoreRename = sentinelArray legacyToCoreRenamePairs :=
  rfl

/-- The scan returns the replacement of the first pair whose key equals the name. -/
theorem translateTextureFunctionLoop_first (before : List (String × String))
    (pair : String × String) (after : List (String × String)) (name : String)
    (hkey : pair.1 = name) (hbefore : ∀ q ∈ before, q.1 ≠ name) :
    translateTextureFunctionLoop (sentinelArray (before ++ pair :: after)) name = pair.2 := by
  induction before with
  | nil => simp [sentinelArray, translateTextureFunctionLoop, hkey]
  | cons q rest ih =>
    have hq : ¬ name = q.1 := fun h => hbefore q (List.mem_cons_self _ _) h.symm
    simp only [List.cons_append, sentinelArray, translateTextureFunctionLoop, hq, if_false]
    exact ih (fun q' hq' => hbefore q' (List.mem_cons_of_mem _ hq'))

/-- The scan returns the name itself when no key equals it. -/
theorem translateTextureFunctionLoop_none (pairs : List (String × String)) (name : String)
    (hnone : ∀ q ∈ pairs, q.1 ≠ name) :
    translateTextureFunctionLoop (sentinelArray pairs) name = name := by
  induction pairs with
  | nil => simp [sentinelArray, translateTextureFunctionLoop]
  | cons q rest ih =>
    have hq : ¬ name = q.1 := fun h => hnone q (List.mem_cons_self _ _) h.symm
    simp only [sentinelArray, translateTextureFunctionLoop, hq, if_false]
    exact ih (fun q' hq' => hnone q' (List.mem_cons_of_mem _ hq'))

/-- `translateTextureFunction` scans the layout of the selected pairs. -/
theorem translateTextureFunction_eq (o : TOutputESSL) (name : String) :
    translateTextureFunction o name =
      translateTextureFunctionLoop (sentinelArray (selectedRenamePairs o)) name := by
  unfold translateTextureFunction selectedRenamePairs
  cases o.compileOptions.SH_ENFORCE_OUTPUT_TO_ESSL3 <;> rfl

/-- C8. For every name and either table, `translateTextureFunction` returns the replacement of
the first pair of the selected table whose key equals the name, returns the name itself when
no key of the selected table equals it, and gives the same answer for the same name whenever
the enforce bit is the same. -/
theorem translateTextureFunction_first_match (o : TOutputESSL) (name : String) :
    (∀ before pair after, selectedRenamePairs o = before ++ pair :: after →
      pair.1 = name → (∀ q ∈ before, q.1 ≠ name) →
      translateTextureFunction o name = pair.2) ∧
    ((∀ q ∈ selectedRenamePairs o, q.1 ≠ name) → translateTextureFunction o name = name) ∧
    (∀ o2 : TOutputESSL,
      o2.compileOptions.SH_ENFORCE_OUTPUT_TO_ESSL3 = o.compileOptions.SH_ENFORCE_OUTPUT_TO_ESSL3 →
      translateTextureFunction o2 name = translateTextureFunction o name) := by
  refine ⟨?_, ?_, ?_⟩
  · intro before pair after hsplit hkey hbefore
    rw [translateTextureFunction_eq, hsplit]
    exact translateTextureFunctionLoop_first before pair after name hkey hbefore
  · intro hnone
    rw [translateTextureFunction_eq]
    exact translateTextureFunctionLoop_none _ name hnone
  · intro o2 h
    simp only [translateTextureFunction, h]

/-- C8 at concrete inputs: with enforcement on `texture2DProj` is the second key of the
legacy-to-core table and gives `textureProj`; with enforcement off `texture2D` is no key of
the simple table and passes through. -/
theorem translateTextureFunction_first_match_witness :
    translateTextureFunction (fragmentOutputESSL enforceCompileOptions) "texture2DProj"
      = "textureProj" ∧
    translateTextureFunction (fragmentOutputESSL noCompileOptions) "texture2D" = "texture2D" :=
  ⟨(translateTextureFunction_first_match (fragmentOutputESSL enforceCompileOptions)
      "texture2DProj").1 [("texture2D", "texture")] ("texture2DProj", "textureProj")
      (legacyToCoreRenamePairs.drop 2) rfl rfl (by decide),
   (translateTextureFunction_first_match (fragmentOutputESSL noCompileOptions)
      "texture2D").2.1 (by decide)⟩

/-- C9. With enforcement on, for every key of the legacy-to-core table
`translateTextureFunction` returns `texture` followed only by the suffixes the key carries:
`Proj` exactly when the key contains `Proj`, then `Lod` exactly when the key contains `Lod`,
then `Grad` exactly when the key contains `Grad`; `texture2D`, `texture2DRect` and
`textureCube` all give exactly `texture`. -/
theorem translateTextureFunction_legacy_to_core (o : TOutputESSL)
    (hE : o.compileOptions.SH_ENFORCE_OUTPUT_TO_ESSL3 = true) :
    (∀ pair ∈ legacyToCoreRenamePairs,
      translateTextureFunction o pair.1 =
        "texture" ++ (if containsText pair.1 "Proj" then "Proj" else "")
          ++ (if containsText pair.1 "Lod" then "Lod" else "")
          ++ (if containsText pair.1 "Grad" then "Grad" else "")) ∧
    translateTextureFunction o "texture2D" = "texture" ∧
    translateTextureFunction o "texture2DRect" = "texture" ∧
    translateTextureFunction o "textureCube" = "texture" := by
  have hfn : ∀ name, translateTextureFunction o name =
      translateTextureFunctionLoop legacyToCoreRename name := by
    intro name
    simp only [translateTextureFunction, hE, if_true]
  refine ⟨?_, ?_, ?_, ?_⟩
  · intro pair hpair
    rw [hfn]
    revert pair
    decide
  · rw [hfn]; decide
  · rw [hfn]; decide
  · rw [hfn]; decide

/-- C9 at a concrete input: the fragment-stage generator with enforcement on maps
`texture2DProjGradEXT` to `textureProjGrad`. -/
theorem translateTextureFunction_legacy_to_core_witness :
    translateTextureFunction (fragmentOutputESSL enforceCompileOptions) "texture2DProjGradEXT"
      = "textureProjGrad" :=
  ((translateTextureFunction_legacy_to_core (fragmentOutputESSL enforceCompileOptions) rfl).1
    ("texture2DProjGradEXT", "textureProjGrad") (by decide)).trans (by decide)

/-- C10 as stated fails: with enforcement off `translateTextureFunction` changes
`texture2DGradEXT` into `texture2DGradARB`, which still carries a vendor suffix and is not the
name `texture2DGrad` without one. -/
theorem translateTextureFunction_grad_keeps_vendor_suffix :
    (fragmentOutputESSL noCompileOptions).compileOptions.SH_ENFORCE_OUTPUT_TO_ESSL3 = false ∧
    translateTextureFunction (fragmentOutputESSL noCompileOptions) "texture2DGradEXT"
      = "texture2DGradARB" ∧
    translateTextureFunction (fragmentOutputESSL noCompileOptions) "texture2DGradEXT"
      ≠ "texture2DGradEXT" ∧
    hasVendorSuffix
      (translateTextureFunction (fragmentOutputESSL noCompileOptions) "texture2DGradEXT")
      = true ∧
    translateTextureFunction (fragmentOutputESSL noCompileOptions) "texture2DGradEXT"
      ≠ "texture2DGrad" := by
  refine ⟨rfl, by decide, by decide, by decide, by decide⟩

/-- C10, amended. With enforcement off, every name that `translateTextureFunction` changes is
an `EXT`-suffixed legacy sampling function of the simple table; for the three `Lod` functions
the replacement is the same name without the `EXT` suffix, and for the three `Grad` functions
it is the same name with the `EXT` suffix replaced by `ARB`. -/
theorem translateTextureFunction_simple (o : TOutputESSL) (name : String)
    (hE : o.compileOptions.SH_ENFORCE_OUTPUT_TO_ESSL3 = false)
    (hchanged : translateTextureFunction o name ≠ name) :
    (name, translateTextureFunction o name) ∈ simpleRenamePairs ∧
    ∃ stem, name = stem ++ "EXT" ∧
      ((stem ∈ ["texture2DLod", "texture2DProjLod", "textureCubeLod"] ∧
          translateTextureFunction o name = stem ∧
          hasVendorSuffix (translateTextureFunction o name) = false) ∨
       (stem ∈ ["texture2DGrad", "texture2DProjGrad", "textureCubeGrad"] ∧
          translateTextureFunction o name = stem ++ "ARB")) := by
  have hfn : translateTextureFunction o name =
      translateTextureFunctionLoop simpleRename name := by
    simp [translateTextureFunction, hE]
  rw [hfn] at hchanged ⊢
  by_cases h1 : name = "texture2DLodEXT"
  · subst h1
    exact ⟨by decide, "texture2DLod", by decide, Or.inl (by decide)⟩
  by_cases h2 : name = "texture2DProjLodEXT"
  · subst h2
    exact ⟨by decide, "texture2DProjLod", by decide, Or.inl (by decide)⟩
  by_cases h3 : name = "textureCubeLodEXT"
  · subst h3
    exact ⟨by decide, "textureCubeLod", by decide, Or.inl (by decide)⟩
  by_cases h4 : name = "texture2DGradEXT"
  · subst h4
    exact ⟨by decide, "texture2DGrad", by decide, Or.inr (by decide)⟩
  by_cases h5 : name = "texture2DProjGradEXT"
  · subst h5
    exact ⟨by decide, "texture2DProjGrad", by decide, Or.inr (by decide)⟩
  by_cases h6 : name = "textureCubeGradEXT"
  · subst h6
    exact ⟨by decide, "textureCubeGrad", by decide, Or.inr (by decide)⟩
  exfalso
  apply hchanged
  simp [simpleRename, translateTextureFunctionLoop, h1, h2, h3, h4, h5, h6]

/-- C10, amended, at a concrete input: with enforcement off the fragment-stage generator
changes `textureCubeLodEXT`, a key of the simple table, into `textureCubeLod`. -/
theorem translateTextureFunction_simple_witness :
    ("textureCubeLodEXT",
      translateTextureFunction (fragmentOutputESSL noCompileOptions) "textureCubeLodEXT")
      ∈ simpleRenamePairs :=
  (translateTextureFunction_simple (fragmentOutputESSL noCompileOptions) "textureCubeLodEXT"
    rfl (by decide)).1

end TOutputESSL

end sh

/-! ## Symbol references (`TOutputESSL::visitSymbol`) -/

namespace sh

namespace TOutputESSL

/-- Lines 54-86 of `visitSymbol` append the prescribed substitution and report it as treated,
or leave the sink untouched and report the symbol as not treated. -/
theorem visitSymbolTreat_eq (o : TOutputESSL) (node : TIntermSymbol) (out : String) :
    visitSymbolTreat o node out =
      match substitution o node with
      | some replacement => (out ++ replacement, true)
      | none => (out, false) := by
  unfold visitSymbolTreat substitution reservedReplacement
  by_cases hEmpty : node.symbolType = SymbolType.Empty
  · simp [hEmpty]
  · by_cases hE : o.compileOptions.SH_ENFORCE_OUTPUT_TO_ESSL3 = true
    · simp only [ne_eq, hEmpty, not_false_eq_true, hE, and_self, if_true, if_false]
      repeat' split
      all_goals simp_all
    · simp [hEmpty, hE]

/-- `visitSymbol` writes the prescribed substitution and leaves the generic code generator
alone, or writes nothing of its own and calls the generic code generator once. -/
theorem visitSymbol_eq {σ : Type} (o : TOutputESSL) (generic : TOutputGLSLBase σ)
    (node : TIntermSymbol) (st : OutputState σ) :
    visitSymbol o generic node st =
      match substitution o node with
      | some replacement => { objSink := st.objSink ++ replacement, base := st.base }
      | none =>
        { objSink := st.objSink ++ (generic.visitSymbol node st.base).1,
          base := (generic.visitSymbol node st.base).2 } := by
  unfold visitSymbol
  rw [visitSymbolTreat_eq]
  cases substitution o node <;> rfl

/-- The substitution applies exactly to a symbol that is not compiler-synthesized, under
enforcement, whose name is reserved for the active stage. -/
theorem substitution_eq_none_iff (o : TOutputESSL) (node : TIntermSymbol) :
    substitution o node = none ↔
      ¬ (node.symbolType ≠ SymbolType.Empty ∧
          o.compileOptions.SH_ENFORCE_OUTPUT_TO_ESSL3 = true ∧
          ((o.shaderType = GL_FRAGMENT_SHADER ∧
              (node.name = "gl_FragColor" ∨ node.name = "gl_FragData" ∨
                node.name = "sample")) ∨
           (o.shaderType = GL_VERTEX_SHADER ∧ node.name = "gl_ViewID_OVR"))) := by
  have hstage : GL_FRAGMENT_SHADER ≠ GL_VERTEX_SHADER := by decide
  unfold substitution reservedReplacement
  by_cases hEmpty : node.symbolType = SymbolType.Empty
  · simp [hEmpty]
  · by_cases hE : o.compileOptions.SH_ENFORCE_OUTPUT_TO_ESSL3 = true
    · by_cases hF : o.shaderType = GL_FRAGMENT_SHADER
      · by_cases h1 : node.name = "gl_FragColor"
        · simp [hEmpty, hE, hF, h1]
        · by_cases h2 : node.name = "gl_FragData"
          · simp [hEmpty, hE, hF, h2]
          · by_cases h3 : node.name = "sample"
            · simp [hEmpty, hE, hF, h3]
            · simp [hEmpty, hE, hF, h1, h2, h3, hstage]
      · by_cases hV : o.shaderType = GL_VERTEX_SHADER
        · have hF2 : ¬ GL_VERTEX_SHADER = GL_FRAGMENT_SHADER := by decide
          by_cases h4 : node.name = "gl_ViewID_OVR"
          · simp [hEmpty, hE, hV, h4, hF2]
          · simp [hEmpty, hE, hV, h4, hF2]
        · simp [hEmpty, hE, hF, hV]
    · simp [hEmpty, hE]

/-- Appending to the same text is injective. -/
theorem string_append_left_cancel (a x y : String) (h : a ++ x = a ++ y) : x = y := by
  have hdata : (a ++ x).data = (a ++ y).data := by rw [h]
  simp only [String.data_append] at hdata
  exact String.ext (List.append_cancel_left hdata)

/-- C11. For every symbol node, `visitSymbol` writes a fixed replacement instead of the
generically resolved name if and only if the symbol is not an Empty symbol, the enforce bit
is set and the name is reserved for the active stage: in the fragment stage `gl_FragColor`
gives `webgl_FragColor`, `gl_FragData` gives `webgl_FragData` and `sample` gives
`webgl_sample`; in the vertex stage `gl_ViewID_OVR` gives `int(gl_ViewID_OVR)`; the generic
code generator is then not called. In every other case it writes nothing of its own and calls
the generic code generator once. -/
theorem visitSymbol_reserved_names {σ : Type} (o : TOutputESSL) (generic : TOutputGLSLBase σ)
    (node : TIntermSymbol) (st : OutputState σ) :
    (node.symbolType ≠ SymbolType.Empty →
      o.compileOptions.SH_ENFORCE_OUTPUT_TO_ESSL3 = true →
      (o.shaderType = GL_FRAGMENT_SHADER → node.name = "gl_FragColor" →
        visitSymbol o generic node st =
          { objSink := st.objSink ++ "webgl_FragColor", base := st.base }) ∧
      (o.shaderType = GL_FRAGMENT_SHADER → node.name = "gl_FragData" →
        visitSymbol o generic node st =
          { objSink := st.objSink ++ "webgl_FragData", base := st.base }) ∧
      (o.shaderType = GL_FRAGMENT_SHADER → node.name = "sample" →
        visitSymbol o generic node st =
          { objSink := st.objSink ++ "webgl_sample", base := st.base }) ∧
      (o.shaderType = GL_VERTEX_SHADER → node.name = "gl_ViewID_OVR" →
        visitSymbol o generic node st =
          { objSink := st.objSink ++ "int(gl_ViewID_OVR)", base := st.base })) ∧
    (¬ (node.symbolType ≠ SymbolType.Empty ∧
          o.compileOptions.SH_ENFORCE_OUTPUT_TO_ESSL3 = true ∧
          ((o.shaderType = GL_FRAGMENT_SHADER ∧
              (node.name = "gl_FragColor" ∨ node.name = "gl_FragData" ∨
                node.name = "sample")) ∨
           (o.shaderType = GL_VERTEX_SHADER ∧ node.name = "gl_ViewID_OVR"))) →
      visitSymbol o generic node st =
        { objSink := st.objSink ++ (generic.visitSymbol node st.base).1,
          base := (generic.visitSymbol node st.base).2 }) := by
  have hstage : ¬ GL_VERTEX_SHADER = GL_FRAGMENT_SHADER := by decide
  constructor
  · intro hEmpty hE
    refine ⟨?_, ?_, ?_, ?_⟩
    · intro hF hname
      rw [visitSymbol_eq]
      simp [substitution, reservedReplacement, hEmpty, hE, hF, hname]
    · intro hF hname
      rw [visitSymbol_eq]
      simp [substitution, reservedReplacement, hEmpty, hE, hF, hname]
    · intro hF hname
      rw [visitSymbol_eq]
      simp [substitution, reservedReplacement, hEmpty, hE, hF, hname]
    · intro hV hname
      rw [visitSymbol_eq]
      simp [substitution, reservedReplacement, hEmpty, hE, hV, hname, hstage]
  · intro hnot
    rw [visitSymbol_eq, (substitution_eq_none_iff o node).2 hnot]

/-- C11 at concrete inputs: under enforcement the fragment-stage generator writes
`webgl_FragColor` for the built-in `gl_FragColor`, and without enforcement it calls the
generic code generator, which writes the name itself. -/
theorem visitSymbol_reserved_names_witness :
    (visitSymbol (fragmentOutputESSL enforceCompileOptions) identityGenerator
        (builtInSymbol "gl_FragColor") { objSink := "x = ", base := () }).objSink
      = "x = webgl_FragColor" ∧
    (visitSymbol (fragmentOutputESSL noCompileOptions) identityGenerator
        (builtInSymbol "gl_FragColor") { objSink := "x = ", base := () }).objSink
      = "x = gl_FragColor" :=
  ⟨(congrArg OutputState.objSink
      (((visitSymbol_reserved_names (fragmentOutputESSL enforceCompileOptions)
        identityGenerator (builtInSymbol "gl_FragColor") { objSink := "x = ", base := () }).1
        (by decide) rfl).1 rfl rfl)).trans (by decide),
   (congrArg OutputState.objSink
      ((visitSymbol_reserved_names (fragmentOutputESSL noCompileOptions)
        identityGenerator (builtInSymbol "gl_FragColor") { objSink := "x = ", base := () }).2
        (by decide))).trans (by decide)⟩

/-- C12 as stated fails: under enforcement in the fragment stage two distinct user-defined
variables that share the name `sample` are both written as `webgl_sample`, although the
generic code generator in use gives them different identifiers. -/
theorem visitSymbol_shared_reserved_name_collides :
    (sampleSymbol 1).uniqueId ≠ (sampleSymbol 2).uniqueId ∧
    (sampleSymbol 1).name = (sampleSymbol 2).name ∧
    (uniqueGenerator.visitSymbol (sampleSymbol 1) ()).1 = "sample_1" ∧
    (uniqueGenerator.visitSymbol (sampleSymbol 2) ()).1 = "sample_2" ∧
    (visitSymbol (fragmentOutputESSL enforceCompileOptions) uniqueGenerator (sampleSymbol 1)
      { objSink := "", base := () }).objSink = "webgl_sample" ∧
    (visitSymbol (fragmentOutputESSL enforceCompileOptions) uniqueGenerator (sampleSymbol 2)
      { objSink := "", base := () }).objSink = "webgl_sample" := by
  refine ⟨by decide, rfl, by decide, by decide, by decide, by decide⟩

/-- C12, amended. For every two distinct symbols that share a display name, and every stage
and option set: when the shared name is substituted under enforcement, both symbols, if
neither is an Empty symbol, are written as the same fixed replacement; when neither symbol is
substituted, `visitSymbol` writes for each the identifier of the generic code generator, so
the two identifiers are never identical where those of the generic code generator are not. -/
theorem visitSymbol_shared_name {σ : Type} (o : TOutputESSL) (generic : TOutputGLSLBase σ)
    (node₁ node₂ : TIntermSymbol) (st₁ st₂ : OutputState σ)
    (_hdistinct : node₁.uniqueId ≠ node₂.uniqueId) (hname : node₁.name = node₂.name) :
    (∀ replacement, substitution o node₁ = some replacement →
      node₂.symbolType ≠ SymbolType.Empty →
      (visitSymbol o generic node₁ st₁).objSink = st₁.objSink ++ replacement ∧
      (visitSymbol o generic node₂ st₂).objSink = st₂.objSink ++ replacement) ∧
    (substitution o node₁ = none → substitution o node₂ = none →
      (visitSymbol o generic node₁ st₁).objSink =
        st₁.objSink ++ (generic.visitSymbol node₁ st₁.base).1 ∧
      (visitSymbol o generic node₂ st₂).objSink =
        st₂.objSink ++ (generic.visitSymbol node₂ st₂.base).1 ∧
      ((generic.visitSymbol node₁ st₁.base).1 ≠ (generic.visitSymbol node₂ st₂.base).1 →
        ∀ text, ¬ ((visitSymbol o generic node₁ st₁).objSink = st₁.objSink ++ text ∧
          (visitSymbol o generic node₂ st₂).objSink = st₂.objSink ++ text))) := by
  constructor
  · intro replacement hsub hEmpty₂
    have hsub₂ : substitution o node₂ = some replacement := by
      have hEmpty₁ : node₁.symbolType ≠ SymbolType.Empty := by
        intro h
        simp [substitution, h] at hsub
      simp only [substitution, hEmpty₁, if_false] at hsub
      simp only [substitution, hEmpty₂, if_false, ← hname]
      exact hsub
    rw [visitSymbol_eq, visitSymbol_eq, hsub, hsub₂]
    exact ⟨rfl, rfl⟩
  · intro h₁ h₂
    rw [visitSymbol_eq, visitSymbol_eq, h₁, h₂]
    refine ⟨rfl, rfl, ?_⟩
    rintro hne text ⟨ht₁, ht₂⟩
    have e₁ := string_append_left_cancel _ _ _ ht₁
    have e₂ := string_append_left_cancel _ _ _ ht₂
    exact hne (e₁.trans e₂.symm)

/-- C12, amended, at concrete inputs: two variables named `sample` are both written as
`webgl_sample` under enforcement in the fragment stage, and as the distinct identifiers of
the generic code generator without enforcement. -/
theorem visitSymbol_shared_name_witness :
    ((visitSymbol (fragmentOutputESSL enforceCompileOptions) uniqueGenerator (sampleSymbol 1)
        { objSink := "", base := () }).objSink = "" ++ "webgl_sample" ∧
      (visitSymbol (fragmentOutputESSL enforceCompileOptions) uniqueGenerator (sampleSymbol 2)
        { objSink := "", base := () }).objSink = "" ++ "webgl_sample") ∧
    ∀ text, ¬ ((visitSymbol (fragmentOutputESSL noCompileOptions) uniqueGenerator
          (sampleSymbol 1) { objSink := "", base := () }).objSink = "" ++ text ∧
        (visitSymbol (fragmentOutputESSL noCompileOptions) uniqueGenerator
          (sampleSymbol 2) { objSink := "", base := () }).objSink = "" ++ text) :=
  ⟨(visitSymbol_shared_name (fragmentOutputESSL enforceCompileOptions) uniqueGenerator
      (sampleSymbol 1) (sampleSymbol 2) { objSink := "", base := () }
      { objSink := "", base := () } (by decide) rfl).1 "webgl_sample" (by decide) (by decide),
   ((visitSymbol_shared_name (fragmentOutputESSL noCompileOptions) uniqueGenerator
      (sampleSymbol 1) (sampleSymbol 2) { objSink := "", base := () }
      { objSink := "", base := () } (by decide) rfl).2 (by decide) (by decide)).2.2
      (by decide)⟩

/-- An entry the name map holds stays the entry found after more entries are appended. -/
theorem NameMap_lookup_append (nameMap more : NameMap) (uniqueId : Nat) (identifier : String)
    (h : NameMap.lookup nameMap uniqueId = some identifier) :
    NameMap.lookup (nameMap ++ more) uniqueId = some identifier := by
  induction nameMap with
  | nil => simp [NameMap.lookup] at h
  | cons entry rest ih =>
    rw [List.cons_append]
    by_cases he : entry.1 = uniqueId
    · simp only [NameMap.lookup, if_pos he] at h ⊢
      exact h
    · simp only [NameMap.lookup, if_neg he] at h ⊢
      exact ih h

/-- An entry appended for a symbol the name map does not hold is the entry found for it. -/
theorem NameMap_lookup_append_new (nameMap : NameMap) (uniqueId : Nat) (identifier : String)
    (h : NameMap.lookup nameMap uniqueId = none) :
    NameMap.lookup (nameMap ++ [(uniqueId, identifier)]) uniqueId = some identifier := by
  induction nameMap with
  | nil => simp [NameMap.lookup]
  | cons entry rest ih =>
    rw [List.cons_append]
    by_cases he : entry.1 = uniqueId
    · simp [NameMap.lookup, he] at h
    · simp only [NameMap.lookup, if_neg he] at h ⊢
      exact ih h

/-- After the generic name resolver has resolved a symbol, the name map holds the identifier
it wrote for that symbol. -/
theorem nameResolver_records (strategy : TIntermSymbol → String) (node : TIntermSymbol)
    (nameMap : NameMap) :
    NameMap.lookup ((nameResolver strategy).visitSymbol node nameMap).2 node.uniqueId =
      some ((nameResolver strategy).visitSymbol node nameMap).1 := by
  simp only [nameResolver]
  cases h : NameMap.lookup nameMap node.uniqueId with
  | some identifier => simpa using h
  | none => exact NameMap_lookup_append_new nameMap node.uniqueId (strategy node) h

/-- The generic name resolver only appends to the name map: an entry the name map holds is
still the entry found after any symbol has been resolved. -/
theorem nameResolver_keeps (strategy : TIntermSymbol → String) (node : TIntermSymbol)
    (nameMap : NameMap) (uniqueId : Nat) (identifier : String)
    (h : NameMap.lookup nameMap uniqueId = some identifier) :
    NameMap.lookup ((nameResolver strategy).visitSymbol node nameMap).2 uniqueId =
      some identifier := by
  simp only [nameResolver]
  cases hn : NameMap.lookup nameMap node.uniqueId with
  | some found => simpa using h
  | none => exact NameMap_lookup_append nameMap _ uniqueId identifier h

/-- For a symbol the name map holds, the generic name resolver writes the identifier held. -/
theorem nameResolver_found (strategy : TIntermSymbol → String) (node : TIntermSymbol)
    (nameMap : NameMap) (identifier : String)
    (h : NameMap.lookup nameMap node.uniqueId = some identifier) :
    ((nameResolver strategy).visitSymbol node nameMap).1 = identifier := by
  simp only [nameResolver, h]

/-- A `visitSymbol` call of the code generator keeps the entries the name map holds. -/
theorem visitSymbol_keeps (o : TOutputESSL) (strategy : TIntermSymbol → String)
    (node : TIntermSymbol) (st : OutputState NameMap) (uniqueId : Nat) (identifier : String)
    (h : NameMap.lookup st.base uniqueId = some identifier) :
    NameMap.lookup (visitSymbol o (nameResolver strategy) node st).base uniqueId =
      some identifier := by
  rw [visitSymbol_eq]
  cases substitution o node with
  | some replacement => exact h
  | none => exact nameResolver_keeps strategy node st.base uniqueId identifier h

/-- The traversal of a body keeps the entries the name map holds. -/
theorem traverseBody_keeps (o : TOutputESSL) (strategy : TIntermSymbol → String)
    (body : List BodyItem) (st : OutputState NameMap) (uniqueId : Nat) (identifier : String)
    (h : NameMap.lookup st.base uniqueId = some identifier) :
    NameMap.lookup (traverseBody (nameResolver strategy) o body st).base uniqueId =
      some identifier := by
  induction body generalizing st with
  | nil => exact h
  | cons item rest ih =>
    cases item with
    | symbol node =>
      simp only [traverseBody]
      exact ih _ (visitSymbol_keeps o strategy node st uniqueId identifier h)
    | call name =>
      simp only [traverseBody]
      exact ih _ h
    | text s =>
      simp only [traverseBody]
      exact ih _ h

/-- C13. For every symbol, stage and option set, every name-mapping strategy and every state
of the sink and the name map, two `visitSymbol` calls on the same node within one translation
write the same identifier text: the first call in the state `st`, the second after the code
generator has gone on to write any further part `between` of the body (symbol references,
call names and other text). The text is the fixed replacement of a substituted symbol, and
otherwise the identifier the name map held for the symbol before the first call, or the one
the strategy chooses when it held none. The generic code generator is the name resolver of
the specification. -/
theorem visitSymbol_twice_same_text (o : TOutputESSL) (strategy : TIntermSymbol → String)
    (node : TIntermSymbol) (between : List BodyItem) (st : OutputState NameMap) :
    ∃ text,
      text =
        (match substitution o node with
         | some replacement => replacement
         | none =>
           match NameMap.lookup st.base node.uniqueId with
           | some identifier => identifier
           | none => strategy node) ∧
      (visitSymbol o (nameResolver strategy) node st).objSink = st.objSink ++ text ∧
      (visitSymbol o (nameResolver strategy) node
          (traverseBody (nameResolver strategy) o between
            (visitSymbol o (nameResolver strategy) node st))).objSink =
        (traverseBody (nameResolver strategy) o between
          (visitSymbol o (nameResolver strategy) node st)).objSink ++ text := by
  cases hsub : substitution o node with
  | some replacement =>
    refine ⟨replacement, rfl, ?_, ?_⟩
    · rw [visitSymbol_eq, hsub]
    · rw [visitSymbol_eq o (nameResolver strategy) node (traverseBody _ _ _ _), hsub]
  | none =>
    refine ⟨((nameResolver strategy).visitSymbol node st.base).1, ?_, ?_, ?_⟩
    · simp only [nameResolver]
      cases NameMap.lookup st.base node.uniqueId <;> rfl
    · rw [visitSymbol_eq, hsub]
    · have hfirst : NameMap.lookup (visitSymbol o (nameResolver strategy) node st).base
          node.uniqueId = some ((nameResolver strategy).visitSymbol node st.base).1 := by
        rw [visitSymbol_eq, hsub]
        exact nameResolver_records strategy node st.base
      have hlater := traverseBody_keeps o strategy between _ node.uniqueId _ hfirst
      rw [visitSymbol_eq o (nameResolver strategy) node (traverseBody _ _ _ _), hsub]
      simp only
      rw [nameResolver_found strategy node _ _ hlater]

end TOutputESSL

end sh

/-! ## Redeclaration of the legacy fragment outputs (`TranslatorESSL::translate`, lines 110-148) -/

namespace sh

namespace TranslatorESSL

/-- The scan of the output variables fails when `gl_FragColor` or `gl_FragData` is met while
its flag is already set. -/
theorem scanOutputVariables_error (names : List String) (hasGLFragColor hasGLFragData : Bool)
    (h : 1 < hasGLFragColor.toNat + names.count "gl_FragColor" ∨
      1 < hasGLFragData.toNat + names.count "gl_FragData") :
    ∃ e, scanOutputVariables names hasGLFragColor hasGLFragData = .error e := by
  induction names generalizing hasGLFragColor hasGLFragData with
  | nil =>
    exfalso
    have h1 := Bool.toNat_le hasGLFragColor
    have h2 := Bool.toNat_le hasGLFragData
    simp only [List.count_nil, add_zero] at h
    omega
  | cons name rest ih =>
    by_cases h1 : name = "gl_FragColor"
    · subst h1
      have hne2 : ¬ (("gl_FragData" : String) = "gl_FragColor") := by decide
      rw [List.count_cons_self, List.count_cons_of_ne hne2] at h
      cases hasGLFragColor with
      | true =>
        refine ⟨InvariantViolation.assertFailed "!hasGLFragColor", ?_⟩
        simp [scanOutputVariables, ASSERT]
      | false =>
        simp only [scanOutputVariables, if_true, ASSERT, Bool.not_false]
        apply ih
        simp only [Bool.toNat_false, Bool.toNat_true] at h ⊢
        omega
    · by_cases h2 : name = "gl_FragData"
      · subst h2
        have hne2 : ¬ (("gl_FragColor" : String) = "gl_FragData") := by decide
        rw [List.count_cons_self, List.count_cons_of_ne hne2] at h
        cases hasGLFragData with
        | true =>
          refine ⟨InvariantViolation.assertFailed "!hasGLFragData", ?_⟩
          simp [scanOutputVariables, ASSERT, h1]
        | false =>
          simp only [scanOutputVariables, h1, if_false, if_true, ASSERT, Bool.not_false]
          apply ih
          simp only [Bool.toNat_false, Bool.toNat_true] at h ⊢
          omega
      · rw [List.count_cons_of_ne (Ne.symm h1), List.count_cons_of_ne (Ne.symm h2)] at h
        simp only [scanOutputVariables, h1, h2, if_false]
        exact ih _ _ h

/-- The qualifier `P` of the redeclarations: that of the default float precision, or of medium
precision when the default is undefined. -/
theorem redeclaration_precision_undefined :
    getPrecisionString
      (if TPrecision.EbpUndefined = TPrecision.EbpUndefined then TPrecision.EbpMedium
       else TPrecision.EbpUndefined) = "mediump" := by
  decide

/-- In the fragment stage under enforcement, with at most one legacy fragment output among the
output variables, the redeclaration step writes the redeclaration of each one listed. -/
theorem declareFragmentOutputs_fragment (c : TranslatorESSL)
    (compileOptions : ShCompileOptions) (sink : String)
    (hstage : c.getShaderType = GL_FRAGMENT_SHADER)
    (hE : compileOptions.SH_ENFORCE_OUTPUT_TO_ESSL3 = true)
    (h : c.outputVariables.count "gl_FragColor" + c.outputVariables.count "gl_FragData" ≤ 1) :
    declareFragmentOutputs c compileOptions sink =
      .ok (sink
        ++ (if "gl_FragColor" ∈ c.outputVariables then
              "out " ++ getPrecisionString
                (if c.getDefaultPrecisionFloat = TPrecision.EbpUndefined then TPrecision.EbpMedium
                 else c.getDefaultPrecisionFloat) ++ " vec4 webgl_FragColor;\n"
            else "")
        ++ (if "gl_FragData" ∈ c.outputVariables then
              "out " ++ getPrecisionString
                (if c.getDefaultPrecisionFloat = TPrecision.EbpUndefined then TPrecision.EbpMedium
                 else c.getDefaultPrecisionFloat) ++ " vec4 webgl_FragData[gl_MaxDrawBuffers];\n"
            else "")) := by
  unfold declareFragmentOutputs
  simp only [hstage, hE, and_self, if_true]
  rw [scanOutputVariables_ok c.outputVariables false false (by simp; omega) (by simp; omega)]
  by_cases hc : "gl_FragColor" ∈ c.outputVariables
  · have hd : "gl_FragData" ∉ c.outputVariables := by
      intro hd
      have h1 := List.count_pos_iff.2 hc
      have h2 := List.count_pos_iff.2 hd
      omega
    simp [ASSERT, hc, hd, String.append_assoc]
  · by_cases hd : "gl_FragData" ∈ c.outputVariables
    · simp [ASSERT, hc, hd, String.append_assoc]
    · simp [ASSERT, hc, hd]

/-- In the fragment stage under enforcement, with more than one legacy fragment output among
the output variables, the redeclaration step fails. -/
theorem declareFragmentOutputs_error (c : TranslatorESSL)
    (compileOptions : ShCompileOptions) (sink : String)
    (hstage : c.getShaderType = GL_FRAGMENT_SHADER)
    (hE : compileOptions.SH_ENFORCE_OUTPUT_TO_ESSL3 = true)
    (h : 1 < c.outputVariables.count "gl_FragColor" + c.outputVariables.count "gl_FragData") :
    ∃ e, declareFragmentOutputs c compileOptions sink = .error e := by
  unfold declareFragmentOutputs
  simp only [hstage, hE, and_self, if_true]
  by_cases hmany : 1 < c.outputVariables.count "gl_FragColor" ∨
      1 < c.outputVariables.count "gl_FragData"
  · obtain ⟨e, he⟩ := scanOutputVariables_error c.outputVariables false false
      (by simpa using hmany)
    rw [he]
    exact ⟨e, rfl⟩
  · rw [not_or] at hmany
    rw [scanOutputVariables_ok c.outputVariables false false (by simp; omega) (by simp; omega)]
    have hc : "gl_FragColor" ∈ c.outputVariables := List.count_pos_iff.1 (by omega)
    have hd : "gl_FragData" ∈ c.outputVariables := List.count_pos_iff.1 (by omega)
    simp [ASSERT, hc, hd]

/-- Outside the fragment stage, or without enforcement, the redeclaration step writes
nothing. -/
theorem declareFragmentOutputs_skip (c : TranslatorESSL) (compileOptions : ShCompileOptions)
    (sink : String)
    (h : ¬ (c.getShaderType = GL_FRAGMENT_SHADER ∧
      compileOptions.SH_ENFORCE_OUTPUT_TO_ESSL3 = true)) :
    declareFragmentOutputs c compileOptions sink = .ok sink := by
  unfold declareFragmentOutputs
  simp only [h, if_false]

/-- The header is the concatenation of what its steps write on their own. -/
theorem translateHeader_eq (c : TranslatorESSL) (shaderVer : Int)
    (compileOptions : ShCompileOptions) :
    translateHeader c shaderVer compileOptions =
      writeVersion shaderVer ""
        ++ writeExtensionBehavior c compileOptions ""
        ++ c.writePragma compileOptions
        ++ writePrecisionEmulation c shaderVer ""
        ++ writeBuiltInFunctionEmulation c ""
        ++ c.OutputClampingFunctionDefinition
        ++ writeComputeShaderLocalSize c ""
        ++ writeGeometryShaderLayout c "" := by
  simp only [translateHeader]
  conv_lhs =>
    rw [writeGeometryShaderLayout_append, writeComputeShaderLocalSize_append,
      writeBuiltInFunctionEmulation_append, writePrecisionEmulation_append,
      writeExtensionBehavior_append]

/-- The sink after `translate`: the header, then the redeclarations, then the body, and a
failure exactly when the redeclaration step fails. -/
theorem translate_eq_header (c : TranslatorESSL) (compileOptions : ShCompileOptions)
    (sink : String) :
    translate c compileOptions sink =
      (match declareFragmentOutputs c (chooseVersion c compileOptions).2 "" with
       | .error e => .error e
       | .ok redeclarations =>
         .ok { sink := sink
                 ++ translateHeader c (chooseVersion c compileOptions).1
                      (chooseVersion c compileOptions).2
                 ++ redeclarations
                 ++ c.traverse
                      { shaderType := c.getShaderType,
                        shaderVersion := (chooseVersion c compileOptions).1,
                        mForceHighp := precisionEmulation c,
                        compileOptions := (chooseVersion c compileOptions).2 },
               shaderVer := (chooseVersion c compileOptions).1,
               compileOptions := (chooseVersion c compileOptions).2,
               outputESSL :=
                 { shaderType := c.getShaderType,
                   shaderVersion := (chooseVersion c compileOptions).1,
                   mForceHighp := precisionEmulation c,
                   compileOptions := (chooseVersion c compileOptions).2 } }) := by
  rw [translate_eq_sections, translateHeader_eq]
  cases declareFragmentOutputs c (chooseVersion c compileOptions).2 "" with
  | error e => rfl
  | ok text =>
    simp only [Except.ok.injEq, TranslateResult.mk.injEq, and_true, String.append_assoc]

/-- C14. When the fragment stage is translated with the enforce bit set after the version
decision and the output variables contain both `gl_FragColor` and `gl_FragData`, `translate`
fails with an invariant violation raised by the redeclaration step, and so returns no output:
it never writes both the `webgl_FragColor` and the `webgl_FragData` redeclaration. -/
theorem translate_both_legacy_outputs_fail (c : TranslatorESSL)
    (compileOptions : ShCompileOptions) (sink : String)
    (hstage : c.getShaderType = GL_FRAGMENT_SHADER)
    (hE : (chooseVersion c compileOptions).2.SH_ENFORCE_OUTPUT_TO_ESSL3 = true)
    (hColor : "gl_FragColor" ∈ c.outputVariables)
    (hData : "gl_FragData" ∈ c.outputVariables) :
    (∃ e, declareFragmentOutputs c (chooseVersion c compileOptions).2 "" = .error e ∧
      translate c compileOptions sink = .error e) ∧
    ∀ r, translate c compileOptions sink ≠ .ok r := by
  have h1 := List.count_pos_iff.2 hColor
  have h2 := List.count_pos_iff.2 hData
  obtain ⟨e, he⟩ := declareFragmentOutputs_error c (chooseVersion c compileOptions).2 ""
    hstage hE (by omega)
  have htr : translate c compileOptions sink = .error e := by
    rw [translate_eq_header, he]
  refine ⟨⟨e, he, htr⟩, ?_⟩
  intro r hr
  rw [htr] at hr
  exact absurd hr (by simp)

/-- C14 at a concrete input: a version 100 fragment shader whose output variables are
`gl_FragData` and `gl_FragColor`, translated with enforcement requested, fails with an
invariant violation. -/
theorem translate_both_legacy_outputs_fail_witness :
    ∃ e, translate (fragmentCompiler 100 ["gl_FragData", "gl_FragColor"])
      enforceCompileOptions "" = .error e := by
  obtain ⟨e, -, h⟩ := (translate_both_legacy_outputs_fail
    (fragmentCompiler 100 ["gl_FragData", "gl_FragColor"])
    enforceCompileOptions "" rfl rfl (by decide) (by decide)).1
  exact ⟨e, h⟩

/-- C15. Where the assertions of lines 121, 127 and 132 hold (in the fragment stage with the
enforce bit set after the version decision, at most one output variable in all is named
`gl_FragColor` or `gl_FragData`), `translate` writes, between the header and the body,
`out P vec4 webgl_FragColor;` exactly when the stage is fragment, the enforce bit is set after
the version decision and `gl_FragColor` is among the output variables, and
`out P vec4 webgl_FragData[gl_MaxDrawBuffers];` exactly when the same holds for
`gl_FragData`; it writes no other redeclaration. `P` is the qualifier of the default float
precision, or `mediump` when that default is undefined. -/
theorem translate_redeclarations (c : TranslatorESSL) (compileOptions : ShCompileOptions)
    (sink : String)
    (hassert : c.getShaderType = GL_FRAGMENT_SHADER →
      (chooseVersion c compileOptions).2.SH_ENFORCE_OUTPUT_TO_ESSL3 = true →
      c.outputVariables.count "gl_FragColor" + c.outputVariables.count "gl_FragData" ≤ 1) :
    (∃ r, translate c compileOptions sink = .ok r ∧
      r.sink = sink
        ++ translateHeader c (chooseVersion c compileOptions).1
            (chooseVersion c compileOptions).2
        ++ ((if c.getShaderType = GL_FRAGMENT_SHADER ∧
                (chooseVersion c compileOptions).2.SH_ENFORCE_OUTPUT_TO_ESSL3 = true ∧
                "gl_FragColor" ∈ c.outputVariables then
              "out " ++ getPrecisionString
                (if c.getDefaultPrecisionFloat = TPrecision.EbpUndefined then
                  TPrecision.EbpMedium else c.getDefaultPrecisionFloat)
                ++ " vec4 webgl_FragColor;\n"
            else "")
          ++ (if c.getShaderType = GL_FRAGMENT_SHADER ∧
                (chooseVersion c compileOptions).2.SH_ENFORCE_OUTPUT_TO_ESSL3 = true ∧
                "gl_FragData" ∈ c.outputVariables then
              "out " ++ getPrecisionString
                (if c.getDefaultPrecisionFloat = TPrecision.EbpUndefined then
                  TPrecision.EbpMedium else c.getDefaultPrecisionFloat)
                ++ " vec4 webgl_FragData[gl_MaxDrawBuffers];\n"
            else ""))
        ++ c.traverse r.outputESSL) ∧
    (c.getDefaultPrecisionFloat = TPrecision.EbpUndefined →
      getPrecisionString
        (if c.getDefaultPrecisionFloat = TPrecision.EbpUndefined then
          TPrecision.EbpMedium else c.getDefaultPrecisionFloat) = "mediump") ∧
    (c.getDefaultPrecisionFloat ≠ TPrecision.EbpUndefined →
      getPrecisionString
        (if c.getDefaultPrecisionFloat = TPrecision.EbpUndefined then
          TPrecision.EbpMedium else c.getDefaultPrecisionFloat) =
        getPrecisionString c.getDefaultPrecisionFloat) := by
  refine ⟨?_, ?_, ?_⟩
  · by_cases hactive : c.getShaderType = GL_FRAGMENT_SHADER ∧
        (chooseVersion c compileOptions).2.SH_ENFORCE_OUTPUT_TO_ESSL3 = true
    · obtain ⟨hstage, hE⟩ := hactive
      have hdecl := declareFragmentOutputs_fragment c (chooseVersion c compileOptions).2 ""
        hstage hE (hassert hstage hE)
      rw [translate_eq_header, hdecl]
      refine ⟨_, rfl, ?_⟩
      simp only [hstage, hE, true_and, String.empty_append, String.append_assoc]
    · rw [translate_eq_header,
        declareFragmentOutputs_skip c (chooseVersion c compileOptions).2 "" hactive]
      refine ⟨_, rfl, ?_⟩
      have hColor : ¬ (c.getShaderType = GL_FRAGMENT_SHADER ∧
          (chooseVersion c compileOptions).2.SH_ENFORCE_OUTPUT_TO_ESSL3 = true ∧
          "gl_FragColor" ∈ c.outputVariables) := fun h => hactive ⟨h.1, h.2.1⟩
      have hData : ¬ (c.getShaderType = GL_FRAGMENT_SHADER ∧
          (chooseVersion c compileOptions).2.SH_ENFORCE_OUTPUT_TO_ESSL3 = true ∧
          "gl_FragData" ∈ c.outputVariables) := fun h => hactive ⟨h.1, h.2.1⟩
      simp only [if_neg hColor, if_neg hData, String.append_empty]
  · intro hP
    rw [hP]
    decide
  · intro hP
    rw [if_neg hP]

/-- C15 at concrete inputs: a version 100 fragment shader whose default float precision is
medium, translated with enforcement requested, gets the `webgl_FragData` redeclaration and no
other when its only output variable is `gl_FragData`; a version 100 vertex shader translated
with enforcement requested gets no redeclaration. -/
theorem translate_redeclarations_witness :
    (∃ r, translate (fragmentCompiler 100 ["gl_FragData"]) enforceCompileOptions "" = .ok r ∧
      r.sink = ""
        ++ translateHeader (fragmentCompiler 100 ["gl_FragData"]) 300 enforceCompileOptions
        ++ ("" ++ "out mediump vec4 webgl_FragData[gl_MaxDrawBuffers];\n")
        ++ (fragmentCompiler 100 ["gl_FragData"]).traverse r.outputESSL) ∧
    (∃ r, translate (vertexCompiler 100 []) enforceCompileOptions "" = .ok r ∧
      r.sink = ""
        ++ translateHeader (vertexCompiler 100 []) 300 enforceCompileOptions
        ++ ("" ++ "")
        ++ (vertexCompiler 100 []).traverse r.outputESSL) :=
  ⟨(translate_redeclarations (fragmentCompiler 100 ["gl_FragData"]) enforceCompileOptions ""
      (fun _ _ => by decide)).1,
   (translate_redeclarations (vertexCompiler 100 []) enforceCompileOptions ""
      (fun _ _ => by decide)).1⟩

/-- C16. End to end, for the fragment stage with requested version 100, enforcement
requested, `gl_FragColor` the only legacy output among the output variables and medium default
float precision: `translate` completes, and its output is the line `#version 300 es`, then
the extension, pragma and helper texts, then the declaration
`out mediump vec4 webgl_FragColor;`, then the body written by a code generator that is run
with version 300 and the enforce bit set and that renames `texture2D` into `texture`. -/
theorem translate_end_to_end (c : TranslatorESSL) (compileOptions : ShCompileOptions)
    (sink : String)
    (hstage : c.getShaderType = GL_FRAGMENT_SHADER)
    (hV : c.getShaderVersion = 100)
    (hE : compileOptions.SH_ENFORCE_OUTPUT_TO_ESSL3 = true)
    (hColor : c.outputVariables.count "gl_FragColor" = 1)
    (hData : "gl_FragData" ∉ c.outputVariables)
    (hP : c.getDefaultPrecisionFloat = TPrecision.EbpMedium) :
    ∃ r, translate c compileOptions sink = .ok r ∧
      r.outputESSL =
        { shaderType := GL_FRAGMENT_SHADER, shaderVersion := 300,
          mForceHighp := precisionEmulation c, compileOptions := compileOptions } ∧
      r.outputESSL.compileOptions.SH_ENFORCE_OUTPUT_TO_ESSL3 = true ∧
      r.sink = sink
        ++ "#version 300 es\n"
        ++ (writeExtensionBehavior c compileOptions ""
            ++ c.writePragma compileOptions
            ++ writePrecisionEmulation c 300 ""
            ++ writeBuiltInFunctionEmulation c ""
            ++ c.OutputClampingFunctionDefinition)
        ++ "out mediump vec4 webgl_FragColor;\n"
        ++ c.traverse r.outputESSL ∧
      TOutputESSL.translateTextureFunction r.outputESSL "texture2D" = "texture" := by
  have hopts : ({ compileOptions with SH_ENFORCE_OUTPUT_TO_ESSL3 := true } : ShCompileOptions)
      = compileOptions := by
    cases compileOptions
    simp_all
  have hch : chooseVersion c compileOptions = (300, compileOptions) := by
    rw [chooseVersion_upgrade c compileOptions (by omega) (Or.inl hE), hopts]
  have hmem : "gl_FragColor" ∈ c.outputVariables := List.count_pos_iff.1 (by omega)
  have hcountData : c.outputVariables.count "gl_FragData" = 0 := List.count_eq_zero.2 hData
  have hdecl := declareFragmentOutputs_fragment c compileOptions "" hstage hE (by omega)
  have hver : writeVersion (300 : Int) "" = "#version 300 es\n" := by decide
  have hlocal : writeComputeShaderLocalSize c "" = "" := by
    have hne : ¬ GL_FRAGMENT_SHADER = GL_COMPUTE_SHADER := by decide
    simp [writeComputeShaderLocalSize, hstage, hne]
  have hgeom : writeGeometryShaderLayout c "" = "" := by
    have hne : ¬ GL_FRAGMENT_SHADER = GL_GEOMETRY_SHADER_EXT := by decide
    simp [writeGeometryShaderLayout, hstage, hne]
  have hprec : getPrecisionString TPrecision.EbpMedium = "mediump" := rfl
  have htr := translate_eq_sections c compileOptions sink
  rw [hch] at htr
  simp only [hdecl, hmem, hData, if_true, if_false, hP, hprec, hver, hlocal, hgeom,
    String.append_empty, String.empty_append, hstage] at htr
  have hline : ("out " ++ "mediump" ++ " vec4 webgl_FragColor;\n" : String)
      = "out mediump vec4 webgl_FragColor;\n" := by decide
  refine ⟨_, htr, rfl, hE, ?_, ?_⟩
  · have hPne : ¬ (TPrecision.EbpMedium = TPrecision.EbpUndefined) := by decide
    simp only [hPne, if_false, hprec, hline, String.append_assoc]
  · simp only [TOutputESSL.translateTextureFunction, hE, if_true]
    decide

/-- C16 at a concrete input: the version 100 fragment shader `gl_FragColor = texture2D(s, uv);`
translated with enforcement requested. -/
theorem translate_end_to_end_witness :
    ∃ r, translate textureLookupCompiler enforceCompileOptions "" = .ok r ∧
      r.sink =
        "#version 300 es\nout mediump vec4 webgl_FragColor;\nwebgl_FragColor = texture(s, uv);\n" := by
  obtain ⟨r, hr, hgen, -, hsink, -⟩ := translate_end_to_end textureLookupCompiler
    enforceCompileOptions "" rfl rfl rfl (by decide) (by decide) rfl
  refine ⟨r, hr, ?_⟩
  rw [hsink, hgen]
  rfl

end TranslatorESSL

end sh

/-! ## Extension directives (`TranslatorESSL::writeExtensionBehavior`) -/

namespace sh

namespace TranslatorESSL

/-- The extension writer handles the entries of a table one after the other. -/
theorem writeExtensionBehaviorLoop_concat (c : TranslatorESSL)
    (compileOptions : ShCompileOptions) (emulated : Bool)
    (first second : List (TExtension × TBehavior)) (sink : String) :
    writeExtensionBehaviorLoop c compileOptions emulated (first ++ second) sink =
      writeExtensionBehaviorLoop c compileOptions emulated second
        (writeExtensionBehaviorLoop c compileOptions emulated first sink) := by
  induction first generalizing sink with
  | nil => rfl
  | cons iter rest ih =>
    rw [List.cons_append]
    simp only [writeExtensionBehaviorLoop]
    exact ih _

/-- The text of a table that holds the entry `iter` between the entries `before` and `after`:
the text of `before`, then that of `iter`, then that of `after`. -/
theorem writeExtensionBehaviorLoop_split (c : TranslatorESSL)
    (compileOptions : ShCompileOptions) (emulated : Bool)
    (before after : List (TExtension × TBehavior)) (iter : TExtension × TBehavior)
    (sink : String) :
    writeExtensionBehaviorLoop c compileOptions emulated (before ++ iter :: after) sink =
      sink ++ writeExtensionBehaviorLoop c compileOptions emulated before ""
        ++ writeExtensionBehaviorEntry c compileOptions emulated iter ""
        ++ writeExtensionBehaviorLoop c compileOptions emulated after "" := by
  rw [writeExtensionBehaviorLoop_concat]
  simp only [writeExtensionBehaviorLoop]
  rw [writeExtensionBehaviorLoop_append c compileOptions emulated after,
    writeExtensionBehaviorEntry_append,
    writeExtensionBehaviorLoop_append c compileOptions emulated before sink]

/-- The multiview entry in the vertex stage with the select-view option. -/
theorem writeExtensionBehaviorEntry_select_view (c : TranslatorESSL)
    (compileOptions : ShCompileOptions) (b : TBehavior) (sink : String)
    (hstage : c.getShaderType = GL_VERTEX_SHADER)
    (hS : compileOptions.SH_SELECT_VIEW_IN_NV_GLSL_VERTEX_SHADER = true)
    (hb : b ≠ TBehavior.EBhUndefined) :
    writeExtensionBehaviorEntry c compileOptions
        (compileOptions.SH_INITIALIZE_BUILTINS_FOR_INSTANCED_MULTIVIEW ||
          compileOptions.SH_SELECT_VIEW_IN_NV_GLSL_VERTEX_SHADER)
        (TExtension.OVR_multiview, b) sink =
      sink ++ "#extension GL_NV_viewport_array2 : require\n" := by
  simp [writeExtensionBehaviorEntry, hb, hstage, hS]

/-- The multiview entry in the vertex stage without the select-view option. -/
theorem writeExtensionBehaviorEntry_multiview (c : TranslatorESSL)
    (compileOptions : ShCompileOptions) (emulated : Bool) (b : TBehavior) (sink : String)
    (hstage : c.getShaderType = GL_VERTEX_SHADER)
    (hS : compileOptions.SH_SELECT_VIEW_IN_NV_GLSL_VERTEX_SHADER = false)
    (hb : b ≠ TBehavior.EBhUndefined) :
    writeExtensionBehaviorEntry c compileOptions emulated (TExtension.OVR_multiview, b) sink =
      if (if compileOptions.SH_ENFORCE_OUTPUT_TO_ESSL3 then 2 else c.getNumViews) ≥ 2 then
        sink ++ "#extension GL_OVR_multiview2 : " ++ GetBehaviorString b ++ "\n"
          ++ "layout(num_views="
          ++ toString (if compileOptions.SH_ENFORCE_OUTPUT_TO_ESSL3 then 2 else c.getNumViews)
          ++ ") in;" ++ "\n"
      else
        sink ++ "#extension GL_OVR_multiview2 : " ++ GetBehaviorString b ++ "\n" := by
  simp [writeExtensionBehaviorEntry, hb, hstage, hS]

/-- The framebuffer-fetch entry when the host reports the NV capability. -/
theorem writeExtensionBehaviorEntry_framebuffer_fetch (c : TranslatorESSL)
    (compileOptions : ShCompileOptions) (emulated : Bool) (b : TBehavior) (sink : String)
    (hcap : c.getResources.NV_shader_framebuffer_fetch ≠ 0)
    (hb : b ≠ TBehavior.EBhUndefined) :
    writeExtensionBehaviorEntry c compileOptions emulated
        (TExtension.EXT_shader_framebuffer_fetch, b) sink =
      sink ++ "#extension GL_NV_shader_framebuffer_fetch : " ++ GetBehaviorString b ++ "\n" := by
  simp [writeExtensionBehaviorEntry, hb, hcap]

/-- The draw-buffers entry when the host reports the NV capability. -/
theorem writeExtensionBehaviorEntry_draw_buffers (c : TranslatorESSL)
    (compileOptions : ShCompileOptions) (emulated : Bool) (b : TBehavior) (sink : String)
    (hcap : c.getResources.NV_draw_buffers ≠ 0)
    (hb : b ≠ TBehavior.EBhUndefined) :
    writeExtensionBehaviorEntry c compileOptions emulated (TExtension.EXT_draw_buffers, b) sink =
      sink ++ "#extension GL_NV_draw_buffers : " ++ GetBehaviorString b ++ "\n" := by
  simp [writeExtensionBehaviorEntry, hb, hcap]

/-- The framebuffer-fetch entry when the host does not report the NV capability. -/
theorem writeExtensionBehaviorEntry_framebuffer_fetch_logical (c : TranslatorESSL)
    (compileOptions : ShCompileOptions) (emulated : Bool) (b : TBehavior) (sink : String)
    (hcap : c.getResources.NV_shader_framebuffer_fetch = 0)
    (hb : b ≠ TBehavior.EBhUndefined) :
    writeExtensionBehaviorEntry c compileOptions emulated
        (TExtension.EXT_shader_framebuffer_fetch, b) sink =
      sink ++ "#extension " ++ c.GetExtensionNameString TExtension.EXT_shader_framebuffer_fetch
        ++ " : " ++ GetBehaviorString b ++ "\n" := by
  simp [writeExtensionBehaviorEntry, hb, hcap]

/-- The draw-buffers entry when the host does not report the NV capability. -/
theorem writeExtensionBehaviorEntry_draw_buffers_logical (c : TranslatorESSL)
    (compileOptions : ShCompileOptions) (emulated : Bool) (b : TBehavior) (sink : String)
    (hcap : c.getResources.NV_draw_buffers = 0)
    (hb : b ≠ TBehavior.EBhUndefined) :
    writeExtensionBehaviorEntry c compileOptions emulated (TExtension.EXT_draw_buffers, b) sink =
      sink ++ "#extension " ++ c.GetExtensionNameString TExtension.EXT_draw_buffers
        ++ " : " ++ GetBehaviorString b ++ "\n" := by
  simp [writeExtensionBehaviorEntry, hb, hcap]

/-- C17. In the vertex stage, when the multiview extension has a behaviour other than
undefined and the select-view-in-vertex-shader option is set, `writeExtensionBehavior` writes
for that entry, at its place in the table, exactly the line
`#extension GL_NV_viewport_array2 : require`, whatever the requested behaviour: neither a
`#extension GL_OVR_multiview2` line nor a `layout(num_views=...)` line. -/
theorem writeExtensionBehavior_select_view (c : TranslatorESSL)
    (compileOptions : ShCompileOptions) (sink : String) (b : TBehavior)
    (before after : List (TExtension × TBehavior))
    (hstage : c.getShaderType = GL_VERTEX_SHADER)
    (hS : compileOptions.SH_SELECT_VIEW_IN_NV_GLSL_VERTEX_SHADER = true)
    (hb : b ≠ TBehavior.EBhUndefined)
    (hext : c.getExtensionBehavior = before ++ (TExtension.OVR_multiview, b) :: after) :
    writeExtensionBehavior c compileOptions sink =
      sink
        ++ writeExtensionBehaviorLoop c compileOptions
            (compileOptions.SH_INITIALIZE_BUILTINS_FOR_INSTANCED_MULTIVIEW ||
              compileOptions.SH_SELECT_VIEW_IN_NV_GLSL_VERTEX_SHADER) before ""
        ++ "#extension GL_NV_viewport_array2 : require\n"
        ++ writeExtensionBehaviorLoop c compileOptions
            (compileOptions.SH_INITIALIZE_BUILTINS_FOR_INSTANCED_MULTIVIEW ||
              compileOptions.SH_SELECT_VIEW_IN_NV_GLSL_VERTEX_SHADER) after "" ∧
    ¬ "GL_OVR_multiview2".data <:+: "#extension GL_NV_viewport_array2 : require\n".data ∧
    ¬ "layout(num_views=".data <:+: "#extension GL_NV_viewport_array2 : require\n".data := by
  refine ⟨?_, by decide, by decide⟩
  simp only [writeExtensionBehavior, hext]
  rw [writeExtensionBehaviorLoop_split,
    writeExtensionBehaviorEntry_select_view c compileOptions b "" hstage hS hb,
    String.empty_append]

/-- C17 at a concrete input: a vertex shader that requires the multiview extension, with the
select-view option set. -/
theorem writeExtensionBehavior_select_view_witness :
    writeExtensionBehavior
      (vertexCompiler 100 [(TExtension.OVR_multiview, TBehavior.EBhRequire)])
      { noCompileOptions with SH_SELECT_VIEW_IN_NV_GLSL_VERTEX_SHADER := true } ""
      = "#extension GL_NV_viewport_array2 : require\n" :=
  ((writeExtensionBehavior_select_view
    (vertexCompiler 100 [(TExtension.OVR_multiview, TBehavior.EBhRequire)])
    { noCompileOptions with SH_SELECT_VIEW_IN_NV_GLSL_VERTEX_SHADER := true } ""
    TBehavior.EBhRequire [] [] rfl rfl (by decide) rfl).1).trans (by decide)

/-- C18. In the vertex stage without the select-view-in-vertex-shader option, for a multiview
entry with a behaviour `B` other than undefined, `writeExtensionBehavior` writes at the place
of the entry `#extension GL_OVR_multiview2 : B` and then `layout(num_views=N) in;` if and only
if `N ≥ 2`, where `N` is 2 when the enforce bit is set and otherwise the view count
`getNumViews()`; with a view count of 1 and the enforce bit clear no layout line is written. -/
theorem writeExtensionBehavior_multiview_vertex (c : TranslatorESSL)
    (compileOptions : ShCompileOptions) (sink : String) (b : TBehavior)
    (before after : List (TExtension × TBehavior))
    (hstage : c.getShaderType = GL_VERTEX_SHADER)
    (hS : compileOptions.SH_SELECT_VIEW_IN_NV_GLSL_VERTEX_SHADER = false)
    (hb : b ≠ TBehavior.EBhUndefined)
    (hext : c.getExtensionBehavior = before ++ (TExtension.OVR_multiview, b) :: after) :
    ((if compileOptions.SH_ENFORCE_OUTPUT_TO_ESSL3 then 2 else c.getNumViews) ≥ 2 →
      writeExtensionBehavior c compileOptions sink =
        sink
          ++ writeExtensionBehaviorLoop c compileOptions
              (compileOptions.SH_INITIALIZE_BUILTINS_FOR_INSTANCED_MULTIVIEW ||
                compileOptions.SH_SELECT_VIEW_IN_NV_GLSL_VERTEX_SHADER) before ""
          ++ ("#extension GL_OVR_multiview2 : " ++ GetBehaviorString b ++ "\n"
              ++ "layout(num_views="
              ++ toString (if compileOptions.SH_ENFORCE_OUTPUT_TO_ESSL3 then 2
                  else c.getNumViews)
              ++ ") in;\n")
          ++ writeExtensionBehaviorLoop c compileOptions
              (compileOptions.SH_INITIALIZE_BUILTINS_FOR_INSTANCED_MULTIVIEW ||
                compileOptions.SH_SELECT_VIEW_IN_NV_GLSL_VERTEX_SHADER) after "") ∧
    (¬ (if compileOptions.SH_ENFORCE_OUTPUT_TO_ESSL3 then 2 else c.getNumViews) ≥ 2 →
      writeExtensionBehavior c compileOptions sink =
        sink
          ++ writeExtensionBehaviorLoop c compileOptions
              (compileOptions.SH_INITIALIZE_BUILTINS_FOR_INSTANCED_MULTIVIEW ||
                compileOptions.SH_SELECT_VIEW_IN_NV_GLSL_VERTEX_SHADER) before ""
          ++ ("#extension GL_OVR_multiview2 : " ++ GetBehaviorString b ++ "\n")
          ++ writeExtensionBehaviorLoop c compileOptions
              (compileOptions.SH_INITIALIZE_BUILTINS_FOR_INSTANCED_MULTIVIEW ||
                compileOptions.SH_SELECT_VIEW_IN_NV_GLSL_VERTEX_SHADER) after "") ∧
    (compileOptions.SH_ENFORCE_OUTPUT_TO_ESSL3 = true →
      (if compileOptions.SH_ENFORCE_OUTPUT_TO_ESSL3 then 2 else c.getNumViews) = 2) ∧
    (compileOptions.SH_ENFORCE_OUTPUT_TO_ESSL3 = false →
      (if compileOptions.SH_ENFORCE_OUTPUT_TO_ESSL3 then 2 else c.getNumViews)
        = c.getNumViews) ∧
    (compileOptions.SH_ENFORCE_OUTPUT_TO_ESSL3 = false → c.getNumViews = 1 →
      ¬ (if compileOptions.SH_ENFORCE_OUTPUT_TO_ESSL3 then 2 else c.getNumViews) ≥ 2) := by
  have hentry := writeExtensionBehaviorEntry_multiview c compileOptions
    (compileOptions.SH_INITIALIZE_BUILTINS_FOR_INSTANCED_MULTIVIEW ||
      compileOptions.SH_SELECT_VIEW_IN_NV_GLSL_VERTEX_SHADER) b "" hstage hS hb
  refine ⟨?_, ?_, ?_, ?_, ?_⟩
  · intro hN
    have hlit : (") in;\n" : String) = ") in;" ++ "\n" := by decide
    simp only [writeExtensionBehavior, hext]
    rw [writeExtensionBehaviorLoop_split, hentry]
    simp only [hN, if_true, hlit, String.empty_append, String.append_assoc]
  · intro hN
    simp only [writeExtensionBehavior, hext]
    rw [writeExtensionBehaviorLoop_split, hentry]
    simp only [hN, if_false, String.empty_append, String.append_assoc]
  · intro hE
    simp [hE]
  · intro hE
    simp [hE]
  · intro hE hone
    simp [hE, hone]

/-- C18 at concrete inputs: a vertex shader that enables the multiview extension, translated
with the enforce bit set, gets the layout line with two views; with no option set and a view
count of 1 it gets the extension line alone. -/
theorem writeExtensionBehavior_multiview_vertex_witness :
    writeExtensionBehavior
      (vertexCompiler 100 [(TExtension.OVR_multiview, TBehavior.EBhEnable)])
      enforceCompileOptions ""
      = "#extension GL_OVR_multiview2 : enable\nlayout(num_views=2) in;\n" ∧
    writeExtensionBehavior
      (vertexCompiler 100 [(TExtension.OVR_multiview, TBehavior.EBhEnable)])
      noCompileOptions ""
      = "#extension GL_OVR_multiview2 : enable\n" :=
  ⟨((writeExtensionBehavior_multiview_vertex
      (vertexCompiler 100 [(TExtension.OVR_multiview, TBehavior.EBhEnable)])
      enforceCompileOptions "" TBehavior.EBhEnable [] [] rfl rfl (by decide) rfl).1
      (by decide)).trans (by decide),
   ((writeExtensionBehavior_multiview_vertex
      (vertexCompiler 100 [(TExtension.OVR_multiview, TBehavior.EBhEnable)])
      noCompileOptions "" TBehavior.EBhEnable [] [] rfl rfl (by decide) rfl).2.1
      (by decide)).trans (by decide)⟩

/-- C19. For every extension table in which the framebuffer-fetch extension, on a host that
reports the NV equivalent, and the multiview extension both have a behaviour other than
undefined, the framebuffer-fetch entry being iterated before the multiview entry, the text
`writeExtensionBehavior` writes in the vertex stage holds the line
`#extension GL_NV_shader_framebuffer_fetch : B1` before the text of the multiview entry; that
text is the `GL_NV_viewport_array2` line with the select-view option and otherwise the
`#extension GL_OVR_multiview2 : B2` line, followed by `layout(num_views=N) in;` only when the
view count `N` (2 under enforcement, else `getNumViews()`) is at least 2. -/
theorem writeExtensionBehavior_precedence (c : TranslatorESSL)
    (compileOptions : ShCompileOptions) (sink : String) (b₁ b₂ : TBehavior)
    (before between after : List (TExtension × TBehavior))
    (hstage : c.getShaderType = GL_VERTEX_SHADER)
    (hcap : c.getResources.NV_shader_framebuffer_fetch ≠ 0)
    (hb₁ : b₁ ≠ TBehavior.EBhUndefined) (hb₂ : b₂ ≠ TBehavior.EBhUndefined)
    (hext : c.getExtensionBehavior =
      before ++ (TExtension.EXT_shader_framebuffer_fetch, b₁) ::
        (between ++ (TExtension.OVR_multiview, b₂) :: after)) :
    writeExtensionBehavior c compileOptions sink =
      sink
        ++ writeExtensionBehaviorLoop c compileOptions
            (compileOptions.SH_INITIALIZE_BUILTINS_FOR_INSTANCED_MULTIVIEW ||
              compileOptions.SH_SELECT_VIEW_IN_NV_GLSL_VERTEX_SHADER) before ""
        ++ ("#extension GL_NV_shader_framebuffer_fetch : " ++ GetBehaviorString b₁ ++ "\n")
        ++ writeExtensionBehaviorLoop c compileOptions
            (compileOptions.SH_INITIALIZE_BUILTINS_FOR_INSTANCED_MULTIVIEW ||
              compileOptions.SH_SELECT_VIEW_IN_NV_GLSL_VERTEX_SHADER) between ""
        ++ writeExtensionBehaviorEntry c compileOptions
            (compileOptions.SH_INITIALIZE_BUILTINS_FOR_INSTANCED_MULTIVIEW ||
              compileOptions.SH_SELECT_VIEW_IN_NV_GLSL_VERTEX_SHADER)
            (TExtension.OVR_multiview, b₂) ""
        ++ writeExtensionBehaviorLoop c compileOptions
            (compileOptions.SH_INITIALIZE_BUILTINS_FOR_INSTANCED_MULTIVIEW ||
              compileOptions.SH_SELECT_VIEW_IN_NV_GLSL_VERTEX_SHADER) after "" ∧
    (compileOptions.SH_SELECT_VIEW_IN_NV_GLSL_VERTEX_SHADER = true →
      writeExtensionBehaviorEntry c compileOptions
          (compileOptions.SH_INITIALIZE_BUILTINS_FOR_INSTANCED_MULTIVIEW ||
            compileOptions.SH_SELECT_VIEW_IN_NV_GLSL_VERTEX_SHADER)
          (TExtension.OVR_multiview, b₂) "" =
        "#extension GL_NV_viewport_array2 : require\n") ∧
    (compileOptions.SH_SELECT_VIEW_IN_NV_GLSL_VERTEX_SHADER = false →
      (if compileOptions.SH_ENFORCE_OUTPUT_TO_ESSL3 then 2 else c.getNumViews) ≥ 2 →
      writeExtensionBehaviorEntry c compileOptions
          (compileOptions.SH_INITIALIZE_BUILTINS_FOR_INSTANCED_MULTIVIEW ||
            compileOptions.SH_SELECT_VIEW_IN_NV_GLSL_VERTEX_SHADER)
          (TExtension.OVR_multiview, b₂) "" =
        "#extension GL_OVR_multiview2 : " ++ GetBehaviorString b₂ ++ "\n"
          ++ "layout(num_views="
          ++ toString (if compileOptions.SH_ENFORCE_OUTPUT_TO_ESSL3 then 2 else c.getNumViews)
          ++ ") in;\n") ∧
    (compileOptions.SH_SELECT_VIEW_IN_NV_GLSL_VERTEX_SHADER = false →
      ¬ (if compileOptions.SH_ENFORCE_OUTPUT_TO_ESSL3 then 2 else c.getNumViews) ≥ 2 →
      writeExtensionBehaviorEntry c compileOptions
          (compileOptions.SH_INITIALIZE_BUILTINS_FOR_INSTANCED_MULTIVIEW ||
            compileOptions.SH_SELECT_VIEW_IN_NV_GLSL_VERTEX_SHADER)
          (TExtension.OVR_multiview, b₂) "" =
        "#extension GL_OVR_multiview2 : " ++ GetBehaviorString b₂ ++ "\n") := by
  refine ⟨?_, ?_, ?_, ?_⟩
  · simp only [writeExtensionBehavior, hext]
    rw [writeExtensionBehaviorLoop_split,
      writeExtensionBehaviorLoop_split c compileOptions _ between after _ "",
      writeExtensionBehaviorEntry_framebuffer_fetch c compileOptions _ b₁ "" hcap hb₁]
    simp only [String.empty_append, String.append_assoc]
  · intro hS
    rw [writeExtensionBehaviorEntry_select_view c compileOptions b₂ "" hstage hS hb₂,
      String.empty_append]
  · intro hS hN
    have hlit : (") in;\n" : String) = ") in;" ++ "\n" := by decide
    rw [writeExtensionBehaviorEntry_multiview c compileOptions _ b₂ "" hstage hS hb₂]
    simp only [hN, if_true, hlit, String.empty_append, String.append_assoc]
  · intro hS hN
    rw [writeExtensionBehaviorEntry_multiview c compileOptions _ b₂ "" hstage hS hb₂]
    simp only [hN, if_false, String.empty_append]

/-- C19 at a concrete input: a vertex shader on a host with the NV framebuffer-fetch
capability, whose table enables framebuffer fetch and then the multiview extension, with a
view count of 3 and no option set. -/
theorem writeExtensionBehavior_precedence_witness :
    writeExtensionBehavior
      (nvVertexCompiler
        [(TExtension.EXT_shader_framebuffer_fetch, TBehavior.EBhEnable),
         (TExtension.OVR_multiview, TBehavior.EBhEnable)] 3)
      noCompileOptions ""
      = "#extension GL_NV_shader_framebuffer_fetch : enable\n#extension GL_OVR_multiview2 : enable\nlayout(num_views=3) in;\n" :=
  ((writeExtensionBehavior_precedence
    (nvVertexCompiler
      [(TExtension.EXT_shader_framebuffer_fetch, TBehavior.EBhEnable),
       (TExtension.OVR_multiview, TBehavior.EBhEnable)] 3)
    noCompileOptions "" TBehavior.EBhEnable TBehavior.EBhEnable [] [] []
    rfl (by decide) (by decide) (by decide) rfl).1).trans (by decide)

/-- C20. For an entry of the framebuffer-fetch extension with a behaviour `B` other than
undefined, `writeExtensionBehavior` writes at the place of the entry
`#extension GL_NV_shader_framebuffer_fetch : B` when the host reports the NV framebuffer-fetch
capability, and the line of the logical name `GetExtensionNameString` gives when it does not;
symmetrically, for the draw-buffers extension it writes `#extension GL_NV_draw_buffers : B`
when the host reports the NV draw-buffers capability, and the line of the logical name when it
does not. -/
theorem writeExtensionBehavior_vendor_substitution (c : TranslatorESSL)
    (compileOptions : ShCompileOptions) (sink : String) (b : TBehavior)
    (before after : List (TExtension × TBehavior)) (hb : b ≠ TBehavior.EBhUndefined) :
    (c.getExtensionBehavior = before ++ (TExtension.EXT_shader_framebuffer_fetch, b) :: after →
      (c.getResources.NV_shader_framebuffer_fetch ≠ 0 →
        writeExtensionBehavior c compileOptions sink =
          sink
            ++ writeExtensionBehaviorLoop c compileOptions
                (compileOptions.SH_INITIALIZE_BUILTINS_FOR_INSTANCED_MULTIVIEW ||
                  compileOptions.SH_SELECT_VIEW_IN_NV_GLSL_VERTEX_SHADER) before ""
            ++ ("#extension GL_NV_shader_framebuffer_fetch : " ++ GetBehaviorString b ++ "\n")
            ++ writeExtensionBehaviorLoop c compileOptions
                (compileOptions.SH_INITIALIZE_BUILTINS_FOR_INSTANCED_MULTIVIEW ||
                  compileOptions.SH_SELECT_VIEW_IN_NV_GLSL_VERTEX_SHADER) after "") ∧
      (c.getResources.NV_shader_framebuffer_fetch = 0 →
        writeExtensionBehavior c compileOptions sink =
          sink
            ++ writeExtensionBehaviorLoop c compileOptions
                (compileOptions.SH_INITIALIZE_BUILTINS_FOR_INSTANCED_MULTIVIEW ||
                  compileOptions.SH_SELECT_VIEW_IN_NV_GLSL_VERTEX_SHADER) before ""
            ++ ("#extension "
                ++ c.GetExtensionNameString TExtension.EXT_shader_framebuffer_fetch
                ++ " : " ++ GetBehaviorString b ++ "\n")
            ++ writeExtensionBehaviorLoop c compileOptions
                (compileOptions.SH_INITIALIZE_BUILTINS_FOR_INSTANCED_MULTIVIEW ||
                  compileOptions.SH_SELECT_VIEW_IN_NV_GLSL_VERTEX_SHADER) after "")) ∧
    (c.getExtensionBehavior = before ++ (TExtension.EXT_draw_buffers, b) :: after →
      (c.getResources.NV_draw_buffers ≠ 0 →
        writeExtensionBehavior c compileOptions sink =
          sink
            ++ writeExtensionBehaviorLoop c compileOptions
                (compileOptions.SH_INITIALIZE_BUILTINS_FOR_INSTANCED_MULTIVIEW ||
                  compileOptions.SH_SELECT_VIEW_IN_NV_GLSL_VERTEX_SHADER) before ""
            ++ ("#extension GL_NV_draw_buffers : " ++ GetBehaviorString b ++ "\n")
            ++ writeExtensionBehaviorLoop c compileOptions
                (compileOptions.SH_INITIALIZE_BUILTINS_FOR_INSTANCED_MULTIVIEW ||
                  compileOptions.SH_SELECT_VIEW_IN_NV_GLSL_VERTEX_SHADER) after "") ∧
      (c.getResources.NV_draw_buffers = 0 →
        writeExtensionBehavior c compileOptions sink =
          sink
            ++ writeExtensionBehaviorLoop c compileOptions
                (compileOptions.SH_INITIALIZE_BUILTINS_FOR_INSTANCED_MULTIVIEW ||
                  compileOptions.SH_SELECT_VIEW_IN_NV_GLSL_VERTEX_SHADER) before ""
            ++ ("#extension " ++ c.GetExtensionNameString TExtension.EXT_draw_buffers
                ++ " : " ++ GetBehaviorString b ++ "\n")
            ++ writeExtensionBehaviorLoop c compileOptions
                (compileOptions.SH_INITIALIZE_BUILTINS_FOR_INSTANCED_MULTIVIEW ||
                  compileOptions.SH_SELECT_VIEW_IN_NV_GLSL_VERTEX_SHADER) after "")) := by
  constructor
  · intro hext
    constructor
    · intro hcap
      simp only [writeExtensionBehavior, hext]
      rw [writeExtensionBehaviorLoop_split,
        writeExtensionBehaviorEntry_framebuffer_fetch c compileOptions _ b "" hcap hb]
      simp only [String.empty_append, String.append_assoc]
    · intro hcap
      simp only [writeExtensionBehavior, hext]
      rw [writeExtensionBehaviorLoop_split,
        writeExtensionBehaviorEntry_framebuffer_fetch_logical c compileOptions _ b "" hcap hb]
      simp only [String.empty_append, String.append_assoc]
  · intro hext
    constructor
    · intro hcap
      simp only [writeExtensionBehavior, hext]
      rw [writeExtensionBehaviorLoop_split,
        writeExtensionBehaviorEntry_draw_buffers c compileOptions _ b "" hcap hb]
      simp only [String.empty_append, String.append_assoc]
    · intro hcap
      simp only [writeExtensionBehavior, hext]
      rw [writeExtensionBehaviorLoop_split,
        writeExtensionBehaviorEntry_draw_buffers_logical c compileOptions _ b "" hcap hb]
      simp only [String.empty_append, String.append_assoc]

/-- C20 at concrete inputs: a draw-buffers entry with behaviour `require` on a host with the
NV draw-buffers capability, and a framebuffer-fetch entry with behaviour `warn` on a host
without the NV framebuffer-fetch capability. -/
theorem writeExtensionBehavior_vendor_substitution_witness :
    writeExtensionBehavior
      (nvVertexCompiler [(TExtension.EXT_draw_buffers, TBehavior.EBhRequire)] 1)
      noCompileOptions ""
      = "#extension GL_NV_draw_buffers : require\n" ∧
    writeExtensionBehavior
      (vertexCompiler 100 [(TExtension.EXT_shader_framebuffer_fetch, TBehavior.EBhWarn)])
      noCompileOptions ""
      = "#extension GL_other : warn\n" :=
  ⟨(((writeExtensionBehavior_vendor_substitution
      (nvVertexCompiler [(TExtension.EXT_draw_buffers, TBehavior.EBhRequire)] 1)
      noCompileOptions "" TBehavior.EBhRequire [] [] (by decide)).2 rfl).1
      (by decide)).trans (by decide),
   (((writeExtensionBehavior_vendor_substitution
      (vertexCompiler 100 [(TExtension.EXT_shader_framebuffer_fetch, TBehavior.EBhWarn)])
      noCompileOptions "" TBehavior.EBhWarn [] [] (by decide)).1 rfl).2
      (by decide)).trans (by decide)⟩

end TranslatorESSL

end sh

/-! ## Extension directives: geometry, generic and multiview entries outside the vertex stage -/

namespace sh

namespace TranslatorESSL

/-- An entry whose behaviour is undefined writes nothing. -/
theorem writeExtensionBehaviorEntry_undefined (c : TranslatorESSL)
    (compileOptions : ShCompileOptions) (emulated : Bool) (e : TExtension) (sink : String) :
    writeExtensionBehaviorEntry c compileOptions emulated (e, TBehavior.EBhUndefined) sink
      = sink := by
  simp [writeExtensionBehaviorEntry]

/-- The geometry entry. -/
theorem writeExtensionBehaviorEntry_geometry (c : TranslatorESSL)
    (compileOptions : ShCompileOptions) (emulated : Bool) (b : TBehavior) (sink : String)
    (hb : b ≠ TBehavior.EBhUndefined) :
    writeExtensionBehaviorEntry c compileOptions emulated (TExtension.EXT_geometry_shader, b) sink =
      (if b = TBehavior.EBhRequire then
          sink ++ "#ifdef GL_EXT_geometry_shader\n"
            ++ "#extension GL_EXT_geometry_shader : " ++ GetBehaviorString b ++ "\n"
            ++ "#elif defined GL_OES_geometry_shader\n"
            ++ "#extension GL_OES_geometry_shader : " ++ GetBehaviorString b ++ "\n"
            ++ "#else\n"
            ++ "#error \"No geometry shader extensions available.\" // Only generate this if the extension is \"required\"\n"
        else
          sink ++ "#ifdef GL_EXT_geometry_shader\n"
            ++ "#extension GL_EXT_geometry_shader : " ++ GetBehaviorString b ++ "\n"
            ++ "#elif defined GL_OES_geometry_shader\n"
            ++ "#extension GL_OES_geometry_shader : " ++ GetBehaviorString b ++ "\n")
        ++ "#endif\n" := by
  simp only [writeExtensionBehaviorEntry, ne_eq, hb, not_false_eq_true, if_true]
  simp

/-- An entry that no special rule covers writes the generic line. -/
theorem writeExtensionBehaviorEntry_generic (c : TranslatorESSL)
    (compileOptions : ShCompileOptions) (emulated : Bool) (iter : TExtension × TBehavior)
    (sink : String) (hb : iter.2 ≠ TBehavior.EBhUndefined)
    (hrule : ¬ coveredBySpecialRule c iter) :
    writeExtensionBehaviorEntry c compileOptions emulated iter sink =
      sink ++ "#extension " ++ c.GetExtensionNameString iter.1 ++ " : "
        ++ GetBehaviorString iter.2 ++ "\n" := by
  simp only [coveredBySpecialRule, not_or] at hrule
  obtain ⟨h1, h2, h3, h4⟩ := hrule
  simp [writeExtensionBehaviorEntry, hb, h1, h2, h3, h4]

/-- The multiview entry outside the vertex stage writes nothing. -/
theorem writeExtensionBehaviorEntry_multiview_other_stage (c : TranslatorESSL)
    (compileOptions : ShCompileOptions) (emulated : Bool) (b : TBehavior) (sink : String)
    (hstage : c.getShaderType ≠ GL_VERTEX_SHADER) :
    writeExtensionBehaviorEntry c compileOptions emulated (TExtension.OVR_multiview, b) sink
      = sink := by
  simp [writeExtensionBehaviorEntry, hstage]

/-- A table that no special rule covers writes the generic directives of its entries, in
iteration order. -/
theorem writeExtensionBehaviorLoop_generic (c : TranslatorESSL)
    (compileOptions : ShCompileOptions) (emulated : Bool)
    (ext : List (TExtension × TBehavior)) (sink : String)
    (hrule : ∀ iter ∈ ext, ¬ coveredBySpecialRule c iter) :
    writeExtensionBehaviorLoop c compileOptions emulated ext sink =
      sink ++ genericDirectives c ext := by
  induction ext generalizing sink with
  | nil => simp [writeExtensionBehaviorLoop, genericDirectives]
  | cons iter rest ih =>
    have hrest : ∀ it ∈ rest, ¬ coveredBySpecialRule c it :=
      fun it hit => hrule it (List.mem_cons_of_mem _ hit)
    simp only [writeExtensionBehaviorLoop, genericDirectives]
    rw [ih _ hrest]
    by_cases hb : iter.2 = TBehavior.EBhUndefined
    · have hentry : writeExtensionBehaviorEntry c compileOptions emulated iter sink = sink := by
        simp [writeExtensionBehaviorEntry, hb]
      simp [hentry, hb]
    · rw [writeExtensionBehaviorEntry_generic c compileOptions emulated iter sink hb
        (hrule iter (List.mem_cons_self _ _))]
      simp only [hb, if_false, String.append_assoc]

/-- C21. For a geometry-shader extension entry with a behaviour `B` other than undefined,
`writeExtensionBehavior` writes at the place of the entry the guarded pair
`#ifdef GL_EXT_geometry_shader` / `#extension GL_EXT_geometry_shader : B` /
`#elif defined GL_OES_geometry_shader` / `#extension GL_OES_geometry_shader : B`, then an
`#else` branch holding an `#error` line if and only if `B` is `require`, then `#endif`. -/
theorem writeExtensionBehavior_geometry (c : TranslatorESSL)
    (compileOptions : ShCompileOptions) (sink : String) (b : TBehavior)
    (before after : List (TExtension × TBehavior))
    (hb : b ≠ TBehavior.EBhUndefined)
    (hext : c.getExtensionBehavior = before ++ (TExtension.EXT_geometry_shader, b) :: after) :
    (b = TBehavior.EBhRequire →
      writeExtensionBehavior c compileOptions sink =
        sink
          ++ writeExtensionBehaviorLoop c compileOptions
              (compileOptions.SH_INITIALIZE_BUILTINS_FOR_INSTANCED_MULTIVIEW ||
                compileOptions.SH_SELECT_VIEW_IN_NV_GLSL_VERTEX_SHADER) before ""
          ++ ("#ifdef GL_EXT_geometry_shader\n"
              ++ "#extension GL_EXT_geometry_shader : " ++ GetBehaviorString b ++ "\n"
              ++ "#elif defined GL_OES_geometry_shader\n"
              ++ "#extension GL_OES_geometry_shader : " ++ GetBehaviorString b ++ "\n"
              ++ "#else\n"
              ++ "#error \"No geometry shader extensions available.\" // Only generate this if the extension is \"required\"\n"
              ++ "#endif\n")
          ++ writeExtensionBehaviorLoop c compileOptions
              (compileOptions.SH_INITIALIZE_BUILTINS_FOR_INSTANCED_MULTIVIEW ||
                compileOptions.SH_SELECT_VIEW_IN_NV_GLSL_VERTEX_SHADER) after "") ∧
    (b ≠ TBehavior.EBhRequire →
      writeExtensionBehavior c compileOptions sink =
        sink
          ++ writeExtensionBehaviorLoop c compileOptions
              (compileOptions.SH_INITIALIZE_BUILTINS_FOR_INSTANCED_MULTIVIEW ||
                compileOptions.SH_SELECT_VIEW_IN_NV_GLSL_VERTEX_SHADER) before ""
          ++ ("#ifdef GL_EXT_geometry_shader\n"
              ++ "#extension GL_EXT_geometry_shader : " ++ GetBehaviorString b ++ "\n"
              ++ "#elif defined GL_OES_geometry_shader\n"
              ++ "#extension GL_OES_geometry_shader : " ++ GetBehaviorString b ++ "\n"
              ++ "#endif\n")
          ++ writeExtensionBehaviorLoop c compileOptions
              (compileOptions.SH_INITIALIZE_BUILTINS_FOR_INSTANCED_MULTIVIEW ||
                compileOptions.SH_SELECT_VIEW_IN_NV_GLSL_VERTEX_SHADER) after "") := by
  constructor
  · intro hreq
    simp only [writeExtensionBehavior, hext]
    rw [writeExtensionBehaviorLoop_split,
      writeExtensionBehaviorEntry_geometry c compileOptions _ b "" hb]
    simp only [hreq, if_true, String.empty_append, String.append_assoc]
  · intro hreq
    simp only [writeExtensionBehavior, hext]
    rw [writeExtensionBehaviorLoop_split,
      writeExtensionBehaviorEntry_geometry c compileOptions _ b "" hb]
    simp only [hreq, if_false, String.empty_append, String.append_assoc]

/-- C21 at concrete inputs: a geometry-shader entry with behaviour `require`, and one with
behaviour `enable`. -/
theorem writeExtensionBehavior_geometry_witness :
    writeExtensionBehavior
      (stageCompiler GL_GEOMETRY_SHADER_EXT 310
        [(TExtension.EXT_geometry_shader, TBehavior.EBhRequire)])
      noCompileOptions ""
      = "#ifdef GL_EXT_geometry_shader\n#extension GL_EXT_geometry_shader : require\n#elif defined GL_OES_geometry_shader\n#extension GL_OES_geometry_shader : require\n#else\n#error \"No geometry shader extensions available.\" // Only generate this if the extension is \"required\"\n#endif\n" ∧
    writeExtensionBehavior
      (stageCompiler GL_GEOMETRY_SHADER_EXT 310
        [(TExtension.EXT_geometry_shader, TBehavior.EBhEnable)])
      noCompileOptions ""
      = "#ifdef GL_EXT_geometry_shader\n#extension GL_EXT_geometry_shader : enable\n#elif defined GL_OES_geometry_shader\n#extension GL_OES_geometry_shader : enable\n#endif\n" :=
  ⟨((writeExtensionBehavior_geometry
      (stageCompiler GL_GEOMETRY_SHADER_EXT 310
        [(TExtension.EXT_geometry_shader, TBehavior.EBhRequire)])
      noCompileOptions "" TBehavior.EBhRequire [] [] (by decide) rfl).1 rfl).trans (by decide),
   ((writeExtensionBehavior_geometry
      (stageCompiler GL_GEOMETRY_SHADER_EXT 310
        [(TExtension.EXT_geometry_shader, TBehavior.EBhEnable)])
      noCompileOptions "" TBehavior.EBhEnable [] [] (by decide) rfl).2
      (by decide)).trans (by decide)⟩

/-- C22. `writeExtensionBehavior` writes nothing for an extension whose behaviour is
undefined, and for every other extension that no special rule covers it writes, at the place
of the entry, exactly the one line `#extension <canonical name> : <behaviour>`; a table that
no special rule covers is written as these lines in the iteration order of the table. -/
theorem writeExtensionBehavior_generic (c : TranslatorESSL)
    (compileOptions : ShCompileOptions) (sink : String) :
    (∀ before after e,
      c.getExtensionBehavior = before ++ (e, TBehavior.EBhUndefined) :: after →
      writeExtensionBehavior c compileOptions sink =
        sink
          ++ writeExtensionBehaviorLoop c compileOptions
              (compileOptions.SH_INITIALIZE_BUILTINS_FOR_INSTANCED_MULTIVIEW ||
                compileOptions.SH_SELECT_VIEW_IN_NV_GLSL_VERTEX_SHADER) before ""
          ++ writeExtensionBehaviorLoop c compileOptions
              (compileOptions.SH_INITIALIZE_BUILTINS_FOR_INSTANCED_MULTIVIEW ||
                compileOptions.SH_SELECT_VIEW_IN_NV_GLSL_VERTEX_SHADER) after "") ∧
    (∀ before after iter,
      c.getExtensionBehavior = before ++ iter :: after →
      iter.2 ≠ TBehavior.EBhUndefined → ¬ coveredBySpecialRule c iter →
      writeExtensionBehavior c compileOptions sink =
        sink
          ++ writeExtensionBehaviorLoop c compileOptions
              (compileOptions.SH_INITIALIZE_BUILTINS_FOR_INSTANCED_MULTIVIEW ||
                compileOptions.SH_SELECT_VIEW_IN_NV_GLSL_VERTEX_SHADER) before ""
          ++ ("#extension " ++ c.GetExtensionNameString iter.1 ++ " : "
              ++ GetBehaviorString iter.2 ++ "\n")
          ++ writeExtensionBehaviorLoop c compileOptions
              (compileOptions.SH_INITIALIZE_BUILTINS_FOR_INSTANCED_MULTIVIEW ||
                compileOptions.SH_SELECT_VIEW_IN_NV_GLSL_VERTEX_SHADER) after "") ∧
    ((∀ iter ∈ c.getExtensionBehavior, ¬ coveredBySpecialRule c iter) →
      writeExtensionBehavior c compileOptions sink =
        sink ++ genericDirectives c c.getExtensionBehavior) := by
  refine ⟨?_, ?_, ?_⟩
  · intro before after e hext
    simp only [writeExtensionBehavior, hext]
    rw [writeExtensionBehaviorLoop_split, writeExtensionBehaviorEntry_undefined,
      String.append_empty]
  · intro before after iter hext hb hrule
    simp only [writeExtensionBehavior, hext]
    rw [writeExtensionBehaviorLoop_split,
      writeExtensionBehaviorEntry_generic c compileOptions _ iter "" hb hrule]
    simp only [String.empty_append, String.append_assoc]
  · intro hrule
    simp only [writeExtensionBehavior]
    exact writeExtensionBehaviorLoop_generic c compileOptions _ _ sink hrule

/-- C22 at a concrete input: a table of three extensions that no special rule covers, the
second with behaviour undefined. -/
theorem writeExtensionBehavior_generic_witness :
    writeExtensionBehavior
      (vertexCompiler 100
        [(TExtension.EXT_draw_buffers, TBehavior.EBhEnable),
         (TExtension.other 1, TBehavior.EBhUndefined),
         (TExtension.other 2, TBehavior.EBhDisable)])
      noCompileOptions ""
      = "#extension GL_other : enable\n#extension GL_other : disable\n" :=
  ((writeExtensionBehavior_generic
    (vertexCompiler 100
      [(TExtension.EXT_draw_buffers, TBehavior.EBhEnable),
       (TExtension.other 1, TBehavior.EBhUndefined),
       (TExtension.other 2, TBehavior.EBhDisable)])
    noCompileOptions "").2.2 (by
      intro iter hiter
      simp only [vertexCompiler, List.mem_cons, List.mem_singleton, List.not_mem_nil,
        or_false] at hiter
      rcases hiter with h | h | h <;> subst h <;> simp [coveredBySpecialRule, vertexCompiler])).trans
    (by decide)

/-- C27. In every stage other than vertex, for every behaviour and option set,
`writeExtensionBehavior` writes no text at all for the multiview extension entry, neither an
`#extension` directive nor a `num_views` layout line, even though for a requested version below
300 the same entry, with a behaviour other than undefined, makes `translate` raise the version
to 300 and set the enforce bit. -/
theorem writeExtensionBehavior_multiview_other_stage (c : TranslatorESSL)
    (compileOptions : ShCompileOptions) (sink : String) (b : TBehavior)
    (before after : List (TExtension × TBehavior))
    (hstage : c.getShaderType ≠ GL_VERTEX_SHADER)
    (hext : c.getExtensionBehavior = before ++ (TExtension.OVR_multiview, b) :: after) :
    (∀ emulated text,
      writeExtensionBehaviorEntry c compileOptions emulated (TExtension.OVR_multiview, b) text
        = text) ∧
    writeExtensionBehavior c compileOptions sink =
      sink
        ++ writeExtensionBehaviorLoop c compileOptions
            (compileOptions.SH_INITIALIZE_BUILTINS_FOR_INSTANCED_MULTIVIEW ||
              compileOptions.SH_SELECT_VIEW_IN_NV_GLSL_VERTEX_SHADER) before ""
        ++ writeExtensionBehaviorLoop c compileOptions
            (compileOptions.SH_INITIALIZE_BUILTINS_FOR_INSTANCED_MULTIVIEW ||
              compileOptions.SH_SELECT_VIEW_IN_NV_GLSL_VERTEX_SHADER) after "" ∧
    (c.getShaderVersion < 300 → b ≠ TBehavior.EBhUndefined →
      chooseVersion c compileOptions =
        (300, { compileOptions with SH_ENFORCE_OUTPUT_TO_ESSL3 := true })) := by
  refine ⟨?_, ?_, ?_⟩
  · intro emulated text
    exact writeExtensionBehaviorEntry_multiview_other_stage c compileOptions emulated b text
      hstage
  · simp only [writeExtensionBehavior, hext]
    rw [writeExtensionBehaviorLoop_split,
      writeExtensionBehaviorEntry_multiview_other_stage c compileOptions _ b "" hstage,
      String.append_empty]
  · intro hV hb
    apply chooseVersion_upgrade c compileOptions hV
    refine Or.inr ((isMultiviewExtensionNeededLoop_iff _).2 ⟨b, hb, ?_⟩)
    rw [hext]
    simp

/-- C27 at a concrete input: a version 100 fragment shader that requires the multiview
extension gets no extension text, and is translated at version 300 under enforcement. -/
theorem writeExtensionBehavior_multiview_other_stage_witness :
    writeExtensionBehavior
      (stageCompiler GL_FRAGMENT_SHADER 100 [(TExtension.OVR_multiview, TBehavior.EBhRequire)])
      noCompileOptions "" = "" ∧
    chooseVersion
      (stageCompiler GL_FRAGMENT_SHADER 100 [(TExtension.OVR_multiview, TBehavior.EBhRequire)])
      noCompileOptions = (300, enforceCompileOptions) :=
  ⟨((writeExtensionBehavior_multiview_other_stage
      (stageCompiler GL_FRAGMENT_SHADER 100 [(TExtension.OVR_multiview, TBehavior.EBhRequire)])
      noCompileOptions "" TBehavior.EBhRequire [] [] (by decide) rfl).2.1).trans (by decide),
   (writeExtensionBehavior_multiview_other_stage
      (stageCompiler GL_FRAGMENT_SHADER 100 [(TExtension.OVR_multiview, TBehavior.EBhRequire)])
      noCompileOptions "" TBehavior.EBhRequire [] [] (by decide) rfl).2.2
      (by decide) (by decide)⟩

end TranslatorESSL

end sh

/-! ## Precision qualifiers, modern versions, rule precedence and rename idempotence -/

namespace sh

namespace TOutputESSL

/-- C23. For every precision `p`, `writeVariablePrecision` writes nothing and returns false
when `p` is undefined; otherwise it returns true and writes exactly one qualifier: the
high-precision qualifier when force-high-precision mode is active, regardless of `p`, and the
qualifier of `p` when it is not. -/
theorem writeVariablePrecision_qualifier (o : TOutputESSL) (precision : TPrecision)
    (out : String) :
    (precision = TPrecision.EbpUndefined →
      writeVariablePrecision o precision out = (out, false)) ∧
    (precision ≠ TPrecision.EbpUndefined → o.mForceHighp = true →
      writeVariablePrecision o precision out =
        (out ++ getPrecisionString TPrecision.EbpHigh, true)) ∧
    (precision ≠ TPrecision.EbpUndefined → o.mForceHighp = false →
      writeVariablePrecision o precision out =
        (out ++ getPrecisionString precision, true)) := by
  refine ⟨?_, ?_, ?_⟩
  · intro hp
    simp [writeVariablePrecision, hp]
  · intro hp hforce
    simp [writeVariablePrecision, hp, hforce]
  · intro hp hforce
    simp [writeVariablePrecision, hp, hforce]

/-- C23 at concrete inputs: an undefined precision writes nothing, a low precision writes
`highp` when high precision is forced and `lowp` when it is not. -/
theorem writeVariablePrecision_qualifier_witness :
    writeVariablePrecision (fragmentOutputESSL noCompileOptions) TPrecision.EbpUndefined "x "
      = ("x ", false) ∧
    writeVariablePrecision { fragmentOutputESSL noCompileOptions with mForceHighp := true }
      TPrecision.EbpLow "x " = ("x highp", true) ∧
    writeVariablePrecision (fragmentOutputESSL noCompileOptions) TPrecision.EbpLow "x "
      = ("x lowp", true) :=
  ⟨(writeVariablePrecision_qualifier (fragmentOutputESSL noCompileOptions)
      TPrecision.EbpUndefined "x ").1 rfl,
   ((writeVariablePrecision_qualifier
      { fragmentOutputESSL noCompileOptions with mForceHighp := true }
      TPrecision.EbpLow "x ").2.1 (by decide) rfl).trans (by decide),
   ((writeVariablePrecision_qualifier (fragmentOutputESSL noCompileOptions)
      TPrecision.EbpLow "x ").2.2 (by decide) rfl).trans (by decide)⟩

/-- The scan returns the name itself or the replacement of one of the pairs. -/
theorem translateTextureFunctionLoop_result (pairs : List (String × String)) (name : String) :
    translateTextureFunctionLoop (sentinelArray pairs) name = name ∨
      ∃ pair ∈ pairs, translateTextureFunctionLoop (sentinelArray pairs) name = pair.2 := by
  induction pairs with
  | nil => exact Or.inl (by simp [sentinelArray, translateTextureFunctionLoop])
  | cons q rest ih =>
    by_cases hq : name = q.1
    · refine Or.inr ⟨q, List.mem_cons_self _ _, ?_⟩
      simp [sentinelArray, translateTextureFunctionLoop, hq]
    · simp only [sentinelArray, translateTextureFunctionLoop, hq, if_false]
      rcases ih with h | ⟨pair, hmem, h⟩
      · exact Or.inl h
      · exact Or.inr ⟨pair, List.mem_cons_of_mem _ hmem, h⟩

/-- No replacement of a table is also a key of that table. -/
theorem selectedRenamePairs_replacement_not_key (o : TOutputESSL) :
    ∀ pair ∈ selectedRenamePairs o, ∀ other ∈ selectedRenamePairs o, other.1 ≠ pair.2 := by
  unfold selectedRenamePairs
  cases o.compileOptions.SH_ENFORCE_OUTPUT_TO_ESSL3
  · simp only [Bool.false_eq_true, if_false]
    decide
  · simp only [if_true]
    decide

/-- C28. `translateTextureFunction` is idempotent under a fixed option set: for every name and
for both the simple and the legacy-to-core table, translating the result again returns the
result unchanged, because no replacement of a table is also a key of that table. -/
theorem translateTextureFunction_idempotent (o : TOutputESSL) (name : String) :
    translateTextureFunction o (translateTextureFunction o name) =
      translateTextureFunction o name ∧
    (∀ pair ∈ simpleRenamePairs, ∀ other ∈ simpleRenamePairs, other.1 ≠ pair.2) ∧
    (∀ pair ∈ legacyToCoreRenamePairs, ∀ other ∈ legacyToCoreRenamePairs,
      other.1 ≠ pair.2) := by
  refine ⟨?_, by decide, by decide⟩
  rcases translateTextureFunctionLoop_result (selectedRenamePairs o) name with h | ⟨pair, hmem, h⟩
  · rw [translateTextureFunction_eq o name, h, translateTextureFunction_eq o name, h]
  · rw [translateTextureFunction_eq o name, h, translateTextureFunction_eq o pair.2]
    exact translateTextureFunctionLoop_none _ _
      (selectedRenamePairs_replacement_not_key o pair hmem)

end TOutputESSL

end sh

namespace sh

namespace TranslatorESSL

/-- The code generator of a completed translation: built for the stage of the compiler, the
chosen version and options, with force-high-precision set to the precision-emulation flag. -/
theorem translate_outputESSL (c : TranslatorESSL) (compileOptions : ShCompileOptions)
    (sink : String) (r : TranslateResult) (h : translate c compileOptions sink = .ok r) :
    r.compileOptions = (chooseVersion c compileOptions).2 ∧
    r.outputESSL =
      { shaderType := c.getShaderType, shaderVersion := (chooseVersion c compileOptions).1,
        mForceHighp := precisionEmulation c,
        compileOptions := (chooseVersion c compileOptions).2 } := by
  simp only [translate] at h
  obtain ⟨-, h2, h3⟩ := translateAfterVersion_result _ _ _ _ _ h
  exact ⟨h2, h3⟩

/-- The precision-emulation flag is set exactly when the host reports precision debugging and
the pragma requests it. -/
theorem precisionEmulation_iff (c : TranslatorESSL) :
    precisionEmulation c = true ↔
      c.getResources.WEBGL_debug_shader_precision ≠ 0 ∧
        c.getPragma.debugShaderPrecision = true := by
  simp [precisionEmulation]

/-- C24 as stated fails: no input makes `translate` run the code generator with
force-high-precision in a different state from precision emulation. -/
theorem translate_force_highp_never_differs :
    ¬ ∃ (c : TranslatorESSL) (compileOptions : ShCompileOptions) (sink : String)
        (r : TranslateResult),
      translate c compileOptions sink = .ok r ∧
        r.outputESSL.mForceHighp ≠ precisionEmulation c := by
  rintro ⟨c, compileOptions, sink, r, hr, hne⟩
  apply hne
  rw [(translate_outputESSL c compileOptions sink r hr).2]

/-- C24, amended. The force-high-precision mode is a constructor parameter of the code
generator of its own, but `translate` always passes the precision-emulation flag for it: a
completed translation has run the code generator with force-high-precision active exactly when
precision emulation is active, that is when the host reports `WEBGL_debug_shader_precision` and
the `debugShaderPrecision` pragma is set; every precision-qualified declaration is then written
with the high-precision qualifier, and with its own qualifier otherwise. -/
theorem translate_force_highp (c : TranslatorESSL) (compileOptions : ShCompileOptions)
    (sink : String) (r : TranslateResult) (h : translate c compileOptions sink = .ok r) :
    r.outputESSL.mForceHighp = precisionEmulation c ∧
    (r.outputESSL.mForceHighp = true ↔
      c.getResources.WEBGL_debug_shader_precision ≠ 0 ∧
        c.getPragma.debugShaderPrecision = true) ∧
    (∀ precision out, precision ≠ TPrecision.EbpUndefined →
      TOutputESSL.writeVariablePrecision r.outputESSL precision out =
        (out ++ getPrecisionString
          (if precisionEmulation c then TPrecision.EbpHigh else precision), true)) := by
  have hgen := (translate_outputESSL c compileOptions sink r h).2
  have hforce : r.outputESSL.mForceHighp = precisionEmulation c := by rw [hgen]
  refine ⟨hforce, ?_, ?_⟩
  · rw [hforce]
    exact precisionEmulation_iff c
  · intro precision out hp
    simp only [TOutputESSL.writeVariablePrecision, hp, if_false, hforce]
    cases precisionEmulation c <;> simp

/-- C24, amended, at a concrete input: the fragment compiler object with precision emulation
active runs its code generator with force-high-precision active. -/
theorem translate_force_highp_witness :
    ∃ r, translate (fragmentCompiler 100 []) noCompileOptions "" = .ok r ∧
      r.outputESSL.mForceHighp = true := by
  obtain ⟨r, hr⟩ : ∃ r, translate (fragmentCompiler 100 []) noCompileOptions "" = .ok r :=
    ⟨_, rfl⟩
  exact ⟨r, hr, (translate_force_highp (fragmentCompiler 100 []) noCompileOptions "" r hr).1.trans
    rfl⟩

/-- C25. For every requested version of at least 300, with all other inputs equal, the whole
result of `translate` is the same whatever the requested enforce bit, and no legacy rewriting
occurs: the code generator is run with the enforce bit clear, so it substitutes no reserved
name and renames texture functions with the simple table only, the view count of the
multiview layout line is not forced to 2, and no `webgl_FragColor` / `webgl_FragData`
redeclaration is written. -/
theorem translate_modern_ignores_enforce (c : TranslatorESSL)
    (compileOptions : ShCompileOptions) (sink : String) (hV : 300 ≤ c.getShaderVersion) :
    (∀ requested other : Bool,
      translate c { compileOptions with SH_ENFORCE_OUTPUT_TO_ESSL3 := requested } sink =
        translate c { compileOptions with SH_ENFORCE_OUTPUT_TO_ESSL3 := other } sink) ∧
    (∀ r, translate c compileOptions sink = .ok r →
      r.compileOptions.SH_ENFORCE_OUTPUT_TO_ESSL3 = false ∧
      r.outputESSL.compileOptions.SH_ENFORCE_OUTPUT_TO_ESSL3 = false ∧
      (∀ node, TOutputESSL.substitution r.outputESSL node = none) ∧
      TOutputESSL.selectedRenamePairs r.outputESSL = TOutputESSL.simpleRenamePairs ∧
      (if r.compileOptions.SH_ENFORCE_OUTPUT_TO_ESSL3 then 2 else c.getNumViews)
        = c.getNumViews ∧
      declareFragmentOutputs c r.compileOptions "" = .ok "") := by
  constructor
  · intro requested other
    simp only [translate, chooseVersion_modern c _ hV]
  · intro r hr
    obtain ⟨hopts, hgen⟩ := translate_outputESSL c compileOptions sink r hr
    rw [chooseVersion_modern c compileOptions hV] at hopts hgen
    have hE : r.compileOptions.SH_ENFORCE_OUTPUT_TO_ESSL3 = false := by rw [hopts]
    have hgE : r.outputESSL.compileOptions.SH_ENFORCE_OUTPUT_TO_ESSL3 = false := by rw [hgen]
    refine ⟨hE, hgE, ?_, ?_, ?_, ?_⟩
    · intro node
      simp [TOutputESSL.substitution, hgE]
    · simp [TOutputESSL.selectedRenamePairs, hgE]
    · simp [hE]
    · exact declareFragmentOutputs_skip c r.compileOptions "" (by simp [hE])

/-- C25 at a concrete input: a version 310 fragment shader using `gl_FragColor` is translated
to the same result with and without enforcement requested. -/
theorem translate_modern_ignores_enforce_witness :
    translate (fragmentCompiler 310 ["gl_FragColor"]) enforceCompileOptions "" =
      translate (fragmentCompiler 310 ["gl_FragColor"]) noCompileOptions "" :=
  (translate_modern_ignores_enforce (fragmentCompiler 310 ["gl_FragColor"]) noCompileOptions ""
    (by decide)).1 true false

/-- The body of the loop of `writeExtensionBehavior` tests its rules in the fixed order. -/
theorem writeExtensionBehaviorEntry_eq_applyRules (c : TranslatorESSL)
    (compileOptions : ShCompileOptions) (emulated : Bool) (iter : TExtension × TBehavior)
    (sink : String) (hb : iter.2 ≠ TBehavior.EBhUndefined) :
    writeExtensionBehaviorEntry c compileOptions emulated iter sink =
      applyRules c compileOptions emulated iter sink fixedPrecedence := by
  simp only [writeExtensionBehaviorEntry, ne_eq, hb, not_false_eq_true, if_true,
    fixedPrecedence, applyRules, framebufferFetchRule, drawBuffersRule, multiviewRule,
    geometryRule, genericRule, decide_eq_true_eq]

/-- Two rules that never apply to the same entry can be tested in either order. -/
theorem applyRules_swap (c : TranslatorESSL) (compileOptions : ShCompileOptions)
    (emulated : Bool) (iter : TExtension × TBehavior) (sink : String)
    (first second : DirectiveRule) (rest : List DirectiveRule)
    (hdisjoint : ¬ (first.applies c iter = true ∧ second.applies c iter = true)) :
    applyRules c compileOptions emulated iter sink (first :: second :: rest) =
      applyRules c compileOptions emulated iter sink (second :: first :: rest) := by
  simp only [applyRules]
  by_cases h1 : first.applies c iter = true
  · by_cases h2 : second.applies c iter = true
    · exact absurd ⟨h1, h2⟩ hdisjoint
    · simp [h1, h2]
  · simp [h1]

/-- The four special rules test four different extensions: no two of them apply to the same
entry. -/
theorem specialRules_disjoint (c : TranslatorESSL) (iter : TExtension × TBehavior) :
    List.Pairwise
      (fun first second : DirectiveRule =>
        ¬ (first.applies c iter = true ∧ second.applies c iter = true))
      [framebufferFetchRule, drawBuffersRule, multiviewRule, geometryRule] := by
  simp only [List.pairwise_cons, List.mem_cons, List.mem_singleton, List.not_mem_nil,
    forall_eq_or_imp, forall_eq, framebufferFetchRule, drawBuffersRule, multiviewRule,
    geometryRule, decide_eq_true_eq, beq_iff_eq, List.Pairwise.nil, and_true,
    IsEmpty.forall_iff, implies_true]
  refine ⟨⟨?_, ?_, ?_⟩, ⟨?_, ?_⟩, ?_⟩ <;>
  · rintro ⟨h1, h2⟩
    simp_all

/-- Rules of which no two apply to the same entry can be tested in any order before the rules
that follow them. -/
theorem applyRules_perm (c : TranslatorESSL) (compileOptions : ShCompileOptions)
    (emulated : Bool) (iter : TExtension × TBehavior) (sink : String)
    (rules order : List DirectiveRule) (following : List DirectiveRule)
    (hperm : order.Perm rules)
    (hdisjoint : List.Pairwise
      (fun first second : DirectiveRule =>
        ¬ (first.applies c iter = true ∧ second.applies c iter = true)) order) :
    applyRules c compileOptions emulated iter sink (order ++ following) =
      applyRules c compileOptions emulated iter sink (rules ++ following) := by
  have hsymm : ∀ {a b : DirectiveRule},
      ¬ (a.applies c iter = true ∧ b.applies c iter = true) →
      ¬ (b.applies c iter = true ∧ a.applies c iter = true) :=
    fun h hba => h ⟨hba.2, hba.1⟩
  induction hperm with
  | nil => rfl
  | cons x _ ih =>
    have hrest := ih (List.pairwise_cons.1 hdisjoint).2
    rw [List.cons_append, List.cons_append]
    simp only [applyRules]
    rw [hrest]
  | swap x y l =>
    simp only [List.cons_append]
    apply applyRules_swap
    exact (List.pairwise_cons.1 hdisjoint).1 x (List.mem_cons_self _ _)
  | trans h₁ _ ih₁ ih₂ =>
    rw [ih₁ hdisjoint]
    exact ih₂ ((h₁.pairwise_iff (fun {a b} h => hsymm h)).1 hdisjoint)

/-- C26. The rules of `writeExtensionBehavior` (framebuffer-fetch substitution, draw-buffers
substitution, multiview, geometry, generic) form a precedence list: for every entry with a
behaviour other than undefined the loop body writes what the first applicable rule of the
fixed order writes, and the order cannot be changed freely: there is an order of the same
rules, and an extension-table entry, host capability set, stage and option set, for which
testing the rules in that order writes a different directive than the fixed order does. -/
theorem writeExtensionBehavior_precedence_order :
    (∀ (c : TranslatorESSL) (compileOptions : ShCompileOptions) (emulated : Bool)
        (iter : TExtension × TBehavior) (sink : String),
      iter.2 ≠ TBehavior.EBhUndefined →
      writeExtensionBehaviorEntry c compileOptions emulated iter sink =
        applyRules c compileOptions emulated iter sink fixedPrecedence) ∧
    ∃ order : List DirectiveRule, order.Perm fixedPrecedence ∧
      ∃ (c : TranslatorESSL) (compileOptions : ShCompileOptions) (emulated : Bool)
          (iter : TExtension × TBehavior) (sink : String),
        iter.2 ≠ TBehavior.EBhUndefined ∧
        applyRules c compileOptions emulated iter sink order ≠
          applyRules c compileOptions emulated iter sink fixedPrecedence := by
  refine ⟨fun c compileOptions emulated iter sink hb =>
    writeExtensionBehaviorEntry_eq_applyRules c compileOptions emulated iter sink hb, ?_⟩
  refine ⟨genericRule ::
    [framebufferFetchRule, drawBuffersRule, multiviewRule, geometryRule], ?_, ?_⟩
  · exact (List.perm_append_singleton genericRule
      [framebufferFetchRule, drawBuffersRule, multiviewRule, geometryRule]).symm
  · refine ⟨nvVertexCompiler [] 1, noCompileOptions, false,
      (TExtension.EXT_shader_framebuffer_fetch, TBehavior.EBhEnable), "", by decide, ?_⟩
    decide

/-- C26 at a concrete input: for the framebuffer-fetch entry on a host with the NV capability
the loop body writes what the fixed order of the rules gives, the NV directive. -/
theorem writeExtensionBehavior_precedence_order_witness :
    writeExtensionBehaviorEntry (nvVertexCompiler [] 1) noCompileOptions false
      (TExtension.EXT_shader_framebuffer_fetch, TBehavior.EBhEnable) ""
      = "#extension GL_NV_shader_framebuffer_fetch : enable\n" :=
  (writeExtensionBehavior_precedence_order.1 (nvVertexCompiler [] 1) noCompileOptions false
    (TExtension.EXT_shader_framebuffer_fetch, TBehavior.EBhEnable) "" (by decide)).trans
    (by decide)

/-- The four special rules can be tested in any order, as long as the generic rule is tested
last: the directive written is that of the fixed order. -/
theorem applyRules_special_any_order (c : TranslatorESSL)
    (compileOptions : ShCompileOptions) (emulated : Bool) (iter : TExtension × TBehavior)
    (sink : String) (order : List DirectiveRule)
    (hperm : order.Perm
      [framebufferFetchRule, drawBuffersRule, multiviewRule, geometryRule]) :
    applyRules c compileOptions emulated iter sink (order ++ [genericRule]) =
      applyRules c compileOptions emulated iter sink fixedPrecedence := by
  have hsymm : ∀ {a b : DirectiveRule},
      ¬ (a.applies c iter = true ∧ b.applies c iter = true) →
      ¬ (b.applies c iter = true ∧ a.applies c iter = true) :=
    fun h hba => h ⟨hba.2, hba.1⟩
  exact applyRules_perm c compileOptions emulated iter sink _ order [genericRule] hperm
    ((hperm.pairwise_iff (fun {a b} h => hsymm h)).2 (specialRules_disjoint c iter))

end TranslatorESSL

end sh

/-! ## Texture swizzle workarounds (`SyncTextureStateSwizzle`) -/

namespace rx

/-- `GetLevelInfo` never activates the LUMA and the depth-stencil workaround together. -/
theorem GetLevelInfo_exclusive (GetInternalFormatInfo : Nat → InternalFormat)
    (originalFormat destinationFormat : Nat) :
    ¬ ((GetLevelInfo GetInternalFormatInfo originalFormat destinationFormat).lumaWorkaround.enabled
          = true ∧
      (GetLevelInfo GetInternalFormatInfo originalFormat destinationFormat).depthStencilWorkaround
          = true) := by
  simp only [GetLevelInfo, GetLUMAWorkaroundInfo, GetDepthStencilWorkaround]
  rintro ⟨hluma, hdepth⟩
  by_cases hl : IsLUMAFormat (GetInternalFormatInfo originalFormat).format = true
  · simp only [IsLUMAFormat, IsDepthStencilFormat, Bool.or_eq_true, beq_iff_eq] at hl hdepth
    rcases hl with (h | h) | h <;> rcases hdepth with h' | h' <;>
      · rw [h] at h'
        revert h'
        decide
  · simp [hl] at hluma

/-- C30. For every level info and requested channel swizzle, the swizzle
`SyncTextureStateSwizzle` applies is: the requested value itself when no workaround is active
or when ZERO or ONE is requested; under the depth-stencil workaround (the LUMA workaround not
being active, as in every level info `GetLevelInfo` builds) RED stays RED, GREEN and BLUE
become ZERO and ALPHA becomes ONE; under the LUMA workaround RED, GREEN and BLUE become RED
for LUMINANCE and LUMINANCE_ALPHA sources and ZERO for ALPHA sources, and ALPHA becomes ONE
for LUMINANCE, RED for ALPHA and GREEN for LUMINANCE_ALPHA sources, the workaround format being
the one the assertions of lines 606, 631 and 638 require; the GL parameter is written, after
the texture is bound, only when the result differs from the currently applied swizzle, which
then becomes the result; a failed assertion stops the function before anything is written, and
`GetLevelInfo` never activates both workarounds. -/
theorem SyncTextureStateSwizzle_result (levelInfo : LevelInfoGL)
    (requested applied textureType name : Nat) :
    (levelInfo.lumaWorkaround.enabled = false → levelInfo.depthStencilWorkaround = false →
      resultSwizzle levelInfo requested = .ok requested) ∧
    (requested = GL_ZERO ∨ requested = GL_ONE →
      resultSwizzle levelInfo requested = .ok requested) ∧
    (levelInfo.lumaWorkaround.enabled = false → levelInfo.depthStencilWorkaround = true →
      resultSwizzle levelInfo GL_RED = .ok GL_RED ∧
      resultSwizzle levelInfo GL_GREEN = .ok GL_ZERO ∧
      resultSwizzle levelInfo GL_BLUE = .ok GL_ZERO ∧
      resultSwizzle levelInfo GL_ALPHA = .ok GL_ONE) ∧
    (levelInfo.lumaWorkaround.enabled = true →
      requested = GL_RED ∨ requested = GL_GREEN ∨ requested = GL_BLUE →
      (levelInfo.sourceFormat = GL_LUMINANCE ∨ levelInfo.sourceFormat = GL_LUMINANCE_ALPHA →
        levelInfo.lumaWorkaround.workaroundFormat = GL_RED ∨
          levelInfo.lumaWorkaround.workaroundFormat = GL_RG →
        resultSwizzle levelInfo requested = .ok GL_RED) ∧
      (levelInfo.sourceFormat = GL_ALPHA →
        resultSwizzle levelInfo requested = .ok GL_ZERO)) ∧
    (levelInfo.lumaWorkaround.enabled = true →
      (levelInfo.sourceFormat = GL_LUMINANCE →
        resultSwizzle levelInfo GL_ALPHA = .ok GL_ONE) ∧
      (levelInfo.sourceFormat = GL_ALPHA →
        levelInfo.lumaWorkaround.workaroundFormat = GL_RED →
        resultSwizzle levelInfo GL_ALPHA = .ok GL_RED) ∧
      (levelInfo.sourceFormat = GL_LUMINANCE_ALPHA →
        levelInfo.lumaWorkaround.workaroundFormat = GL_RG →
        resultSwizzle levelInfo GL_ALPHA = .ok GL_GREEN)) ∧
    (∀ result, resultSwizzle levelInfo requested = .ok result →
      (applied ≠ result →
        SyncTextureStateSwizzle levelInfo requested applied textureType name =
          .ok (result,
            [GLCall.applyTextureFunc, GLCall.texParameterf textureType name result])) ∧
      (applied = result →
        SyncTextureStateSwizzle levelInfo requested applied textureType name =
          .ok (applied, []))) ∧
    (∀ e, resultSwizzle levelInfo requested = .error e →
      SyncTextureStateSwizzle levelInfo requested applied textureType name = .error e) ∧
    (∀ (GetInternalFormatInfo : Nat → InternalFormat) (originalFormat destinationFormat : Nat),
      ¬ ((GetLevelInfo GetInternalFormatInfo originalFormat
            destinationFormat).lumaWorkaround.enabled = true ∧
        (GetLevelInfo GetInternalFormatInfo originalFormat
            destinationFormat).depthStencilWorkaround = true)) := by
  refine ⟨?_, ?_, ?_, ?_, ?_, ?_, ?_, GetLevelInfo_exclusive⟩
  · intro hluma hdepth
    simp [resultSwizzle, hluma, hdepth]
  · intro hreq
    by_cases hluma : levelInfo.lumaWorkaround.enabled = true
    · rcases hreq with h | h <;> subst h <;>
        simp [resultSwizzle, hluma, GL_ZERO, GL_ONE, GL_RED, GL_GREEN, GL_BLUE, GL_ALPHA]
    · by_cases hdepth : levelInfo.depthStencilWorkaround = true
      · rcases hreq with h | h <;> subst h <;>
          simp [resultSwizzle, hluma, hdepth, GL_ZERO, GL_ONE, GL_RED, GL_GREEN, GL_BLUE,
            GL_ALPHA]
      · simp [resultSwizzle, hluma, hdepth]
  · intro hluma hdepth
    refine ⟨?_, ?_, ?_, ?_⟩ <;>
      simp [resultSwizzle, hluma, hdepth, GL_ZERO, GL_ONE, GL_RED, GL_GREEN, GL_BLUE,
        GL_ALPHA]
  · intro hluma hreq
    constructor
    · intro hsource hformat
      simp [resultSwizzle, hluma, hreq, hsource, hformat, sh.ASSERT]
    · intro hsource
      have h1 : ¬ (GL_ALPHA = GL_LUMINANCE) := by decide
      have h2 : ¬ (GL_ALPHA = GL_LUMINANCE_ALPHA) := by decide
      simp [resultSwizzle, hluma, hreq, hsource, h1, h2]
  · intro hluma
    have hA : ¬ (GL_ALPHA = GL_RED ∨ GL_ALPHA = GL_GREEN ∨ GL_ALPHA = GL_BLUE) := by decide
    refine ⟨?_, ?_, ?_⟩
    · intro hsource
      simp [resultSwizzle, hluma, hA, hsource]
    · intro hsource hformat
      have h1 : ¬ (GL_ALPHA = GL_LUMINANCE) := by decide
      simp [resultSwizzle, hluma, hA, hsource, hformat, h1, sh.ASSERT]
    · intro hsource hformat
      have h1 : ¬ (GL_LUMINANCE_ALPHA = GL_LUMINANCE) := by decide
      have h2 : ¬ (GL_LUMINANCE_ALPHA = GL_ALPHA) := by decide
      simp [resultSwizzle, hluma, hA, hsource, hformat, h1, h2, sh.ASSERT]
  · intro result hresult
    constructor
    · intro hne
      simp [SyncTextureStateSwizzle, hresult, hne]
    · intro heq
      simp [SyncTextureStateSwizzle, hresult, heq]
  · intro e he
    simp [SyncTextureStateSwizzle, he]

/-- C30 at concrete inputs: a luminance-alpha texture backed by an RG texture, with RED
currently applied: requesting ALPHA binds the texture and writes GREEN to the alpha swizzle
parameter, requesting GREEN for the red swizzle parameter gives RED and writes nothing. -/
theorem SyncTextureStateSwizzle_result_witness :
    SyncTextureStateSwizzle
      { sourceFormat := GL_LUMINANCE_ALPHA, depthStencilWorkaround := false,
        lumaWorkaround := { enabled := true, workaroundFormat := GL_RG } }
      GL_ALPHA GL_RED GL_TEXTURE_2D GL_TEXTURE_SWIZZLE_A
      = .ok (GL_GREEN,
          [GLCall.applyTextureFunc,
           GLCall.texParameterf GL_TEXTURE_2D GL_TEXTURE_SWIZZLE_A GL_GREEN]) ∧
    SyncTextureStateSwizzle
      { sourceFormat := GL_LUMINANCE_ALPHA, depthStencilWorkaround := false,
        lumaWorkaround := { enabled := true, workaroundFormat := GL_RG } }
      GL_GREEN GL_RED GL_TEXTURE_2D GL_TEXTURE_SWIZZLE_R
      = .ok (GL_RED, []) :=
  ⟨((SyncTextureStateSwizzle_result
      { sourceFormat := GL_LUMINANCE_ALPHA, depthStencilWorkaround := false,
        lumaWorkaround := { enabled := true, workaroundFormat := GL_RG } }
      GL_ALPHA GL_RED GL_TEXTURE_2D GL_TEXTURE_SWIZZLE_A).2.2.2.2.2.1 GL_GREEN
      (((SyncTextureStateSwizzle_result
        { sourceFormat := GL_LUMINANCE_ALPHA, depthStencilWorkaround := false,
          lumaWorkaround := { enabled := true, workaroundFormat := GL_RG } }
        GL_ALPHA GL_RED GL_TEXTURE_2D GL_TEXTURE_SWIZZLE_A).2.2.2.2.1 rfl).2.2 rfl rfl)).1
      (by decide),
   ((SyncTextureStateSwizzle_result
      { sourceFormat := GL_LUMINANCE_ALPHA, depthStencilWorkaround := false,
        lumaWorkaround := { enabled := true, workaroundFormat := GL_RG } }
      GL_GREEN GL_RED GL_TEXTURE_2D GL_TEXTURE_SWIZZLE_R).2.2.2.2.2.1 GL_RED
      (((SyncTextureStateSwizzle_result
        { sourceFormat := GL_LUMINANCE_ALPHA, depthStencilWorkaround := false,
          lumaWorkaround := { enabled := true, workaroundFormat := GL_RG } }
        GL_GREEN GL_RED GL_TEXTURE_2D GL_TEXTURE_SWIZZLE_R).2.2.2.1 rfl
        (Or.inr (Or.inl rfl))).1 (Or.inr rfl) (Or.inr rfl))).2 rfl⟩

end rx

/-! ## Least recently used eviction (`RenderStateCache`) -/

namespace rx

end rx
